import Mathlib

/-!
# GraphicalEffects: instanced draw and post-process ping-pong pipelines

Shallow embedding of `demo_instancing.cpp` / `demo_instancing.h`, of
`demo_postprocess.cpp` / `demo_postprocess.h`, of `demo_shadowmap.cpp` /
`demo_shadowmap.h` and of `demo_skybox::Update` (`demo_skybox.cpp`).

* C++ vectors are lists, `unsigned int` members are naturals reduced modulo `2^32`
  where the source increments or decrements them.
* The data store of a GL buffer object is a list of bytes.
* A method whose behaviour is undefined on some input (indexing or erasing past the end
  of a vector, letting GL read past the end of host memory, overflowing an `int`)
  returns `none` there.
* GLSL `float` values are taken in a linearly ordered field; the shader function
  `enlighten`, which branches on computed values, takes the arithmetic of its `float`
  expressions as a parameter, with exact arithmetic and binary32 arithmetic as instances.
* GL object names are tracked in an explicit store of live and deleted names.
-/

namespace GraphicalEffects

/-! ## Host data types -/

/-- One byte of host or GPU memory. -/
abbrev Byte := Fin 256

/-- A C `float`, given by the four bytes of its object representation. -/
structure float where
  b0 : Byte
  b1 : Byte
  b2 : Byte
  b3 : Byte
deriving DecidableEq

/-- The three-float vector `v3` (`float e[3]`; bound as 3 `GL_FLOAT` with stride `sizeof(v3)`,
`demo_instancing.cpp:215`). -/
structure v3 where
  x : float
  y : float
  z : float
deriving DecidableEq

/-- The four-float vector `v4`; a `mat4` is made of four of them
(`demo_instancing.cpp:195-207`). -/
structure v4 where
  x : float
  y : float
  z : float
  w : float
deriving DecidableEq

/-- The matrix `mat4`: four `v4` columns stored one after the other (`float e[16]`). -/
structure mat4 where
  c0 : v4
  c1 : v4
  c2 : v4
  c3 : v4
deriving DecidableEq

/-- The `Transform` record: translation, rotation and scale. -/
structure Transform where
  t : v3
  r : v3
  s : v3
deriving DecidableEq

/-- Object representation of a `float`. -/
def float.bytes (f : float) : List Byte := [f.b0, f.b1, f.b2, f.b3]

/-- Object representation of a `v3`. -/
def v3.bytes (v : v3) : List Byte := v.x.bytes ++ v.y.bytes ++ v.z.bytes

/-- Object representation of a `v4`. -/
def v4.bytes (v : v4) : List Byte := v.x.bytes ++ v.y.bytes ++ v.z.bytes ++ v.w.bytes

/-- Object representation of a `mat4`. -/
def mat4.bytes (m : mat4) : List Byte := m.c0.bytes ++ m.c1.bytes ++ m.c2.bytes ++ m.c3.bytes

/-- The value of `sizeof(mat4)`. -/
def sizeof_mat4 : Nat := 64

/-- The value of `sizeof(v3)`. -/
def sizeof_v3 : Nat := 12

/-- The bytes found at `v.data()` for a `std::vector` `v`: its elements, contiguously. -/
def vectorData {α : Type} (bytes : α → List Byte) (v : List α) : List Byte :=
  v.flatMap bytes

/-- The number of values of an `unsigned int`. -/
def UINT_RANGE : Nat := 4294967296

/-- The largest `int`. -/
def INT_MAX : Nat := 2147483647

/-- The float `0.f`. -/
def float.zero : float := ⟨0, 0, 0, 0⟩

/-! ## The two instance buffers -/

/-- The buffer objects of `demo_instancing` that get bound to `GL_ARRAY_BUFFER`. -/
inductive BufferName where
  | VertexBuffer
  | InstanceTransformVBO
  | InstanceColorVBO
deriving DecidableEq

/-- The part of the GL state `demo_instancing` acts on: the `GL_ARRAY_BUFFER` binding and the
data stores of the two instance buffers. -/
structure BufferState where
  ArrayBufferBinding : BufferName
  InstanceTransformData : List Byte
  InstanceColorData : List Byte
deriving DecidableEq

/-- The call `glBindBuffer(GL_ARRAY_BUFFER, b)`. -/
def glBindBuffer (b : BufferName) (g : BufferState) : BufferState :=
  { g with ArrayBufferBinding := b }

/-- The data store of the buffer bound to `GL_ARRAY_BUFFER` (the mesh buffer is not tracked). -/
def BufferState.boundData (g : BufferState) : List Byte :=
  match g.ArrayBufferBinding with
  | .VertexBuffer => []
  | .InstanceTransformVBO => g.InstanceTransformData
  | .InstanceColorVBO => g.InstanceColorData

/-- Replace the data store of the buffer bound to `GL_ARRAY_BUFFER`. -/
def BufferState.setBoundData (g : BufferState) (d : List Byte) : BufferState :=
  match g.ArrayBufferBinding with
  | .VertexBuffer => g
  | .InstanceTransformVBO => { g with InstanceTransformData := d }
  | .InstanceColorVBO => { g with InstanceColorData := d }

/-- The call `glBufferData(GL_ARRAY_BUFFER, size, data, GL_STATIC_DRAW)`: the bound buffer gets
a new data store of `size` bytes copied from `data`; `host` is the memory readable at `data`.
Reading more than `host` holds is undefined. -/
def glBufferData (size : Nat) (host : List Byte) (g : BufferState) : Option BufferState :=
  if size ≤ host.length then some (g.setBoundData (host.take size)) else none

/-- The call `glBufferSubData(GL_ARRAY_BUFFER, offset, size, data)`: bytes
`[offset, offset + size)` of the bound store are overwritten; when the range does not fit in
the store GL raises `GL_INVALID_VALUE` and the store is left as it is. -/
def glBufferSubData (offset size : Nat) (host : List Byte) (g : BufferState) :
    Option BufferState :=
  if size ≤ host.length then
    if offset + size ≤ g.boundData.length then
      some (g.setBoundData
        (g.boundData.take offset ++ host.take size ++ g.boundData.drop (offset + size)))
    else some g
  else none

/-! ## `demo_instancing` -/

/-- The members of `demo_instancing` that the instance operations read or write
(`demo_instancing.h:40-50`), together with the buffer state. -/
structure demo_instancing where
  InstanceCount : Nat
  InstanceIndex : Nat
  InstanceModel : List mat4
  InstanceTransform : List Transform
  InstanceColor : List v3
  InstanceAdditionalTransform : Transform
  InstanceAdditionalColor : v3
  Buffers : BufferState
deriving DecidableEq

/-- Body of the loop of `SetInstanceAttributes` (`demo_instancing.cpp:179-187`) for loop
counter `i`; `rnd k` is the value returned by the `k`-th call of `Rng` since the method was
entered (seven calls per iteration, in source order). -/
def SetInstanceAttributes.body (GetModelMatrix : Transform → mat4) (rnd : Nat → float)
    (s : demo_instancing) (i : Nat) : demo_instancing :=
  let sc := rnd (7 * i + 3)
  let tf : Transform :=
    { t := ⟨rnd (7 * i), rnd (7 * i + 1), rnd (7 * i + 2)⟩
      r := ⟨float.zero, float.zero, float.zero⟩
      s := ⟨sc, sc, sc⟩ }
  { s with
    InstanceTransform := s.InstanceTransform ++ [tf]
    InstanceModel := s.InstanceModel ++ [GetModelMatrix tf]
    InstanceColor := s.InstanceColor ++ [⟨rnd (7 * i + 4), rnd (7 * i + 5), rnd (7 * i + 6)⟩] }

/-- The method `demo_instancing::SetInstanceAttributes` (`demo_instancing.cpp:170-217`).
The loop counter is an `int`, so the loop is defined only up to `INT_MAX` iterations. The
vertex-attribute calls (lines 194-208 and 214-216) configure the vertex array and touch
neither the buffer binding nor a data store; they are left out. -/
def SetInstanceAttributes (GetModelMatrix : Transform → mat4) (rnd : Nat → float)
    (s : demo_instancing) : Option demo_instancing :=
  if s.InstanceCount ≤ INT_MAX then
    let s0 := { s with InstanceModel := [], InstanceTransform := [], InstanceColor := [] }
    let s1 := (List.range s.InstanceCount).foldl
      (SetInstanceAttributes.body GetModelMatrix rnd) s0
    (glBufferData (sizeof_mat4 * s1.InstanceCount) (vectorData mat4.bytes s1.InstanceModel)
        (glBindBuffer .InstanceTransformVBO s1.Buffers)).bind fun g1 =>
    (glBufferData (sizeof_v3 * s1.InstanceCount) (vectorData v3.bytes s1.InstanceColor)
        (glBindBuffer .InstanceColorVBO g1)).bind fun g2 =>
    some { s1 with Buffers := g2 }
  else none

/-- The method `demo_instancing::UpdateInstanceAttributes` (`demo_instancing.cpp:219-228`). -/
def UpdateInstanceAttributes (GetModelMatrix : Transform → mat4) (s : demo_instancing) :
    Option demo_instancing :=
  match s.InstanceTransform[s.InstanceIndex]?, s.InstanceModel[s.InstanceIndex]?,
      s.InstanceColor[s.InstanceIndex]? with
  | some tf, some _, some c =>
    let m := GetModelMatrix tf
    (glBufferSubData (sizeof_mat4 * s.InstanceIndex) sizeof_mat4 m.bytes
        (glBindBuffer .InstanceTransformVBO s.Buffers)).bind fun g1 =>
    (glBufferSubData (sizeof_v3 * s.InstanceIndex) sizeof_v3 c.bytes
        (glBindBuffer .InstanceColorVBO g1)).bind fun g2 =>
    some { s with InstanceModel := s.InstanceModel.set s.InstanceIndex m, Buffers := g2 }
  | _, _, _ => none

/-- The method `demo_instancing::AddInstanceAttributes` (`demo_instancing.cpp:230-245`). -/
def AddInstanceAttributes (GetModelMatrix : Transform → mat4) (s : demo_instancing) :
    Option demo_instancing :=
  let s1 : demo_instancing :=
    { s with
      InstanceTransform := s.InstanceTransform ++ [s.InstanceAdditionalTransform]
      InstanceModel := s.InstanceModel ++ [GetModelMatrix s.InstanceAdditionalTransform]
      InstanceColor := s.InstanceColor ++ [s.InstanceAdditionalColor]
      InstanceCount := (s.InstanceCount + 1) % UINT_RANGE }
  (glBufferData (sizeof_mat4 * s1.InstanceCount) (vectorData mat4.bytes s1.InstanceModel)
      (glBindBuffer .InstanceTransformVBO s1.Buffers)).bind fun g1 =>
  (glBufferData (sizeof_v3 * s1.InstanceCount) (vectorData v3.bytes s1.InstanceColor)
      (glBindBuffer .InstanceColorVBO g1)).bind fun g2 =>
  some { s1 with Buffers := g2 }

/-- The method `demo_instancing::DestroyInstanceAttributes` (`demo_instancing.cpp:247-263`). -/
def DestroyInstanceAttributes (s : demo_instancing) : Option demo_instancing :=
  if s.InstanceIndex < s.InstanceTransform.length ∧ s.InstanceIndex < s.InstanceModel.length ∧
      s.InstanceIndex < s.InstanceColor.length then
    let s1 : demo_instancing :=
      { s with
        InstanceTransform := s.InstanceTransform.eraseIdx s.InstanceIndex
        InstanceModel := s.InstanceModel.eraseIdx s.InstanceIndex
        InstanceColor := s.InstanceColor.eraseIdx s.InstanceIndex
        InstanceCount := (s.InstanceCount + UINT_RANGE - 1) % UINT_RANGE
        InstanceIndex := 0 }
    (glBufferData (sizeof_mat4 * s1.InstanceCount) (vectorData mat4.bytes s1.InstanceModel)
        (glBindBuffer .InstanceTransformVBO s1.Buffers)).bind fun g1 =>
    (glBufferData (sizeof_v3 * s1.InstanceCount) (vectorData v3.bytes s1.InstanceColor)
        (glBindBuffer .InstanceColorVBO g1)).bind fun g2 =>
    some { s1 with Buffers := g2 }
  else none

/-- One call of an instance operation as the debug UI issues it
(`demo_instancing.cpp:281-313`): the widgets first write the members the call reads
(the counter, the selected index, the selected record, the record to add), then the method
runs. -/
inductive InstanceCall where
  | SetCount (n : Nat) (rnd : Nat → float)
  | Update (i : Nat) (tf : Transform) (c : v3)
  | Add (tf : Transform) (c : v3)
  | Destroy (i : Nat)

/-- Run one UI-issued call. -/
def InstanceCall.run (GetModelMatrix : Transform → mat4) :
    InstanceCall → demo_instancing → Option demo_instancing
  | .SetCount n rnd, s =>
    SetInstanceAttributes GetModelMatrix rnd { s with InstanceCount := n, InstanceIndex := 0 }
  | .Update i tf c, s =>
    UpdateInstanceAttributes GetModelMatrix
      { s with
        InstanceIndex := i
        InstanceTransform := s.InstanceTransform.set i tf
        InstanceColor := s.InstanceColor.set i c }
  | .Add tf c, s =>
    AddInstanceAttributes GetModelMatrix
      { s with InstanceAdditionalTransform := tf, InstanceAdditionalColor := c }
  | .Destroy i, s => DestroyInstanceAttributes { s with InstanceIndex := i }

/-- Run a sequence of UI-issued calls, stopping at the first undefined one. -/
def runCalls (GetModelMatrix : Transform → mat4) :
    List InstanceCall → demo_instancing → Option demo_instancing
  | [], s => some s
  | c :: cs, s => (c.run GetModelMatrix s).bind (runCalls GetModelMatrix cs)

set_option linter.dupNamespace false in
/-- The constructor `demo_instancing::demo_instancing`, from the creation of the two instance
buffers on (`demo_instancing.cpp:107-109`), with the default member initialisers of
`demo_instancing.h:42-50`: ten instances, index 0, empty vectors; the mesh buffer is the one
bound to `GL_ARRAY_BUFFER` (line 101) and the two new buffers have no data store yet.
`addT` and `addC` are the initial values of the record to add. -/
def demo_instancing.demo_instancing (GetModelMatrix : Transform → mat4) (rnd : Nat → float)
    (addT : Transform) (addC : v3) : Option demo_instancing :=
  SetInstanceAttributes GetModelMatrix rnd
    { InstanceCount := 10
      InstanceIndex := 0
      InstanceModel := []
      InstanceTransform := []
      InstanceColor := []
      InstanceAdditionalTransform := addT
      InstanceAdditionalColor := addC
      Buffers := ⟨.VertexBuffer, [], []⟩ }

/-! ## Vocabulary for the properties of the instance operations -/

/-- The bytes of record number `i` in a buffer of records of `size` bytes each. -/
def recordAt (size : Nat) (data : List Byte) (i : Nat) : List Byte :=
  (data.drop (size * i)).take size

/-- An instance set of size `InstanceCount`: the counter is an `unsigned int` and each of the
three CPU lists has `InstanceCount` entries. -/
def Sized (s : demo_instancing) : Prop :=
  s.InstanceCount < UINT_RANGE ∧
  s.InstanceTransform.length = s.InstanceCount ∧
  s.InstanceModel.length = s.InstanceCount ∧
  s.InstanceColor.length = s.InstanceCount

instance (s : demo_instancing) : Decidable (Sized s) := by
  unfold Sized; infer_instance

/-- CPU lists and GPU instance buffers agree: the three lists have `InstanceCount` entries,
the transform buffer is exactly the `InstanceCount` records of `InstanceModel` and the colour
buffer exactly the `InstanceCount` records of `InstanceColor`. -/
def Synced (s : demo_instancing) : Prop :=
  Sized s ∧
  s.Buffers.InstanceTransformData.length = sizeof_mat4 * s.InstanceCount ∧
  s.Buffers.InstanceColorData.length = sizeof_v3 * s.InstanceCount ∧
  s.Buffers.InstanceTransformData = vectorData mat4.bytes s.InstanceModel ∧
  s.Buffers.InstanceColorData = vectorData v3.bytes s.InstanceColor

instance (s : demo_instancing) : Decidable (Synced s) := by
  unfold Synced; infer_instance

/-- The condition under which a call is issued: the index is below `InstanceCount` for an
edit or a removal, the 32-bit counter can still be incremented for an addition, and the
`int` loop counter can reach the requested count for a reset. -/
def InstanceCall.inRange : InstanceCall → demo_instancing → Bool
  | .SetCount n _, _ => decide (n ≤ INT_MAX)
  | .Update i _ _, s => decide (i < s.InstanceCount)
  | .Add _ _, s => decide (s.InstanceCount + 1 < UINT_RANGE)
  | .Destroy i, s => decide (i < s.InstanceCount)

/-- Every call of the sequence that is reached is issued in range, in the state it is issued
in (nothing is asked of the calls behind an undefined one). -/
def allInRange (GetModelMatrix : Transform → mat4) :
    List InstanceCall → demo_instancing → Bool
  | [], _ => true
  | c :: cs, s =>
    c.inRange s &&
      match c.run GetModelMatrix s with
      | some s1 => allInRange GetModelMatrix cs s1
      | none => true

/-- Result of `glBufferSubData` on a store: bytes `[offset, offset + new.length)` replaced by
`new` when that range fits, the store itself otherwise. -/
def overwrite (offset : Nat) (new store : List Byte) : List Byte :=
  if offset + new.length ≤ store.length then
    store.take offset ++ new ++ store.drop (offset + new.length)
  else store

/-- What `AddInstanceAttributes` leaves behind, from state `s` to state `s1`: the counter is
one higher, the records at the old indices are the old ones, the new last record is the
additional transform, its model matrix and the additional colour, and both buffers hold
exactly the records of the CPU lists. -/
def Appended (GetModelMatrix : Transform → mat4) (s s1 : demo_instancing) : Prop :=
  s1.InstanceCount = s.InstanceCount + 1 ∧
  (∀ j, j < s.InstanceCount →
    s1.InstanceTransform[j]? = s.InstanceTransform[j]? ∧
    s1.InstanceModel[j]? = s.InstanceModel[j]? ∧
    s1.InstanceColor[j]? = s.InstanceColor[j]?) ∧
  s1.InstanceTransform[s.InstanceCount]? = some s.InstanceAdditionalTransform ∧
  s1.InstanceModel[s.InstanceCount]? = some (GetModelMatrix s.InstanceAdditionalTransform) ∧
  s1.InstanceColor[s.InstanceCount]? = some s.InstanceAdditionalColor ∧
  recordAt sizeof_mat4 s1.Buffers.InstanceTransformData s.InstanceCount
    = (GetModelMatrix s.InstanceAdditionalTransform).bytes ∧
  recordAt sizeof_v3 s1.Buffers.InstanceColorData s.InstanceCount
    = s.InstanceAdditionalColor.bytes ∧
  Synced s1

/-- What `DestroyInstanceAttributes` leaves behind, from state `s` (index `i = InstanceIndex`,
size `N = InstanceCount`) to state `s1`: the counter is `N - 1`; a record below `i` keeps its
index and a record above `i` moves one index down, in the three CPU lists and in both
buffers; each list after the call consists of exactly the entries found at the positions
other than `i` before it; and both buffers hold exactly the records of the CPU lists. -/
def Removed (s s1 : demo_instancing) : Prop :=
  s1.InstanceCount = s.InstanceCount - 1 ∧
  (∀ j, j < s.InstanceIndex →
    s1.InstanceTransform[j]? = s.InstanceTransform[j]? ∧
    s1.InstanceModel[j]? = s.InstanceModel[j]? ∧
    s1.InstanceColor[j]? = s.InstanceColor[j]?) ∧
  (∀ j, s.InstanceIndex < j → j < s.InstanceCount →
    s1.InstanceTransform[j - 1]? = s.InstanceTransform[j]? ∧
    s1.InstanceModel[j - 1]? = s.InstanceModel[j]? ∧
    s1.InstanceColor[j - 1]? = s.InstanceColor[j]?) ∧
  (∀ j m c, j < s.InstanceIndex → s.InstanceModel[j]? = some m → s.InstanceColor[j]? = some c →
    recordAt sizeof_mat4 s1.Buffers.InstanceTransformData j = m.bytes ∧
    recordAt sizeof_v3 s1.Buffers.InstanceColorData j = c.bytes) ∧
  (∀ j m c, s.InstanceIndex < j → s.InstanceModel[j]? = some m → s.InstanceColor[j]? = some c →
    recordAt sizeof_mat4 s1.Buffers.InstanceTransformData (j - 1) = m.bytes ∧
    recordAt sizeof_v3 s1.Buffers.InstanceColorData (j - 1) = c.bytes) ∧
  (∀ x, x ∈ s1.InstanceTransform ↔ ∃ j, j ≠ s.InstanceIndex ∧ s.InstanceTransform[j]? = some x) ∧
  (∀ x, x ∈ s1.InstanceModel ↔ ∃ j, j ≠ s.InstanceIndex ∧ s.InstanceModel[j]? = some x) ∧
  (∀ x, x ∈ s1.InstanceColor ↔ ∃ j, j ≠ s.InstanceIndex ∧ s.InstanceColor[j]? = some x) ∧
  Synced s1

/-- The frame of `UpdateInstanceAttributes`, from state `s` (index `i = InstanceIndex`) to
state `s1`: the counter and the size of both buffers are kept; every byte outside
`[i * sizeof(mat4), (i + 1) * sizeof(mat4))` of the transform buffer and outside
`[i * sizeof(v3), (i + 1) * sizeof(v3))` of the colour buffer is kept, hence every record of
another instance; the transform and colour lists are kept and so is every model matrix at
an index other than `i`. -/
def EditFrame (s s1 : demo_instancing) : Prop :=
  s1.InstanceCount = s.InstanceCount ∧
  s1.Buffers.InstanceTransformData.length = s.Buffers.InstanceTransformData.length ∧
  s1.Buffers.InstanceColorData.length = s.Buffers.InstanceColorData.length ∧
  (∀ p, p < sizeof_mat4 * s.InstanceIndex ∨ sizeof_mat4 * s.InstanceIndex + sizeof_mat4 ≤ p →
    s1.Buffers.InstanceTransformData[p]? = s.Buffers.InstanceTransformData[p]?) ∧
  (∀ p, p < sizeof_v3 * s.InstanceIndex ∨ sizeof_v3 * s.InstanceIndex + sizeof_v3 ≤ p →
    s1.Buffers.InstanceColorData[p]? = s.Buffers.InstanceColorData[p]?) ∧
  (∀ j, j ≠ s.InstanceIndex →
    recordAt sizeof_mat4 s1.Buffers.InstanceTransformData j
      = recordAt sizeof_mat4 s.Buffers.InstanceTransformData j ∧
    recordAt sizeof_v3 s1.Buffers.InstanceColorData j
      = recordAt sizeof_v3 s.Buffers.InstanceColorData j) ∧
  s1.InstanceTransform = s.InstanceTransform ∧
  s1.InstanceColor = s.InstanceColor ∧
  (∀ j, j ≠ s.InstanceIndex → s1.InstanceModel[j]? = s.InstanceModel[j]?)

/-- The GPU buffers hold `InstanceCount` records each and equal the CPU lists at every index
other than `i`. -/
def SyncedExcept (s : demo_instancing) (i : Nat) : Prop :=
  Sized s ∧
  s.Buffers.InstanceTransformData.length = sizeof_mat4 * s.InstanceCount ∧
  s.Buffers.InstanceColorData.length = sizeof_v3 * s.InstanceCount ∧
  (∀ j, j < s.InstanceCount → j ≠ i →
    recordAt sizeof_mat4 s.Buffers.InstanceTransformData j
      = recordAt sizeof_mat4 (vectorData mat4.bytes s.InstanceModel) j) ∧
  (∀ j, j < s.InstanceCount → j ≠ i →
    recordAt sizeof_v3 s.Buffers.InstanceColorData j
      = recordAt sizeof_v3 (vectorData v3.bytes s.InstanceColor) j)

instance (s : demo_instancing) (i : Nat) : Decidable (SyncedExcept s i) := by
  unfold SyncedExcept; infer_instance

/-- The full re-upload the single-record update is compared with: recompute
`InstanceModel[InstanceIndex]`, then upload the whole `InstanceModel` and `InstanceColor`
lists with `glBufferData`, as `AddInstanceAttributes` and `DestroyInstanceAttributes` do
(`demo_instancing.cpp:238-244`). -/
def fullReupload (GetModelMatrix : Transform → mat4) (s : demo_instancing) :
    Option demo_instancing :=
  match s.InstanceTransform[s.InstanceIndex]?, s.InstanceModel[s.InstanceIndex]? with
  | some tf, some _ =>
    let s1 : demo_instancing :=
      { s with InstanceModel := s.InstanceModel.set s.InstanceIndex (GetModelMatrix tf) }
    (glBufferData (sizeof_mat4 * s1.InstanceCount) (vectorData mat4.bytes s1.InstanceModel)
        (glBindBuffer .InstanceTransformVBO s1.Buffers)).bind fun g1 =>
    (glBufferData (sizeof_v3 * s1.InstanceCount) (vectorData v3.bytes s1.InstanceColor)
        (glBindBuffer .InstanceColorVBO g1)).bind fun g2 =>
    some { s1 with Buffers := g2 }
  | _, _ => none

/-! ## GL state for the post-process pipeline -/

/-- A GL object name. -/
abbrev GLuint := Nat

/-- The uniforms set by `demo_postprocess` (values are not tracked, only which one is set). -/
inductive Uniform where
  | uProjection
  | uModel
  | uView
  | uModelNormalMatrix
  | uViewPosition
  | uOffset
  | uKernel
  | uGamma
deriving DecidableEq

/-- The GL calls issued by `demo_postprocess` while rendering a frame or attaching textures to
framebuffers. -/
inductive GLCall where
  | glViewport (x y width height : Int)
  | glBindFramebuffer (framebuffer : GLuint)
  | glFramebufferTexture2D (color : Bool) (texture : GLuint)
  | glClearColor
  | glClear
  | glEnable
  | glUseProgram (program : GLuint)
  | glUniform (program : GLuint) (uniform : Uniform)
  | glBindBufferBase (index : Nat) (buffer : GLuint)
  | glActiveTexture (unit : Nat)
  | glBindTexture (texture : GLuint)
  | glBindVertexArray (array : GLuint)
  | glDrawArrays (first count : Int)
deriving DecidableEq

/-- What a colour buffer holds, by provenance: nothing yet, the clear colour, or the output of
a draw with `program` sampling `source` over the previous content. -/
inductive Picture where
  | unset
  | cleared
  | drawn (program : GLuint) (source : Picture) (over : Picture)
deriving DecidableEq

/-- One draw call with the state it was issued in. -/
structure DrawRecord where
  program : GLuint
  framebuffer : GLuint
  /-- Colour attachment of the bound framebuffer, `0` for the default framebuffer. -/
  target : GLuint
  /-- Texture bound to the active texture unit. -/
  bound : GLuint
  /-- Texture bound to unit 0, the unit the samplers `uRenderTex` refer to (never set, so 0). -/
  sampled : GLuint
  vertexArray : GLuint
  viewport : Int × Int × Int × Int
deriving DecidableEq

/-- The GL context: bindings, framebuffer attachments, colour buffer contents, and the log of
calls and draws. -/
structure Context where
  Viewport : Int × Int × Int × Int
  Framebuffer : GLuint
  CurrentProgram : GLuint
  ActiveTexture : Nat
  TextureBinding2D : Nat → GLuint
  VertexArray : GLuint
  ColorAttachment0 : GLuint → GLuint
  TexImage : GLuint → Picture
  Screen : Picture
  calls : List GLCall
  draws : List DrawRecord

/-- The colour texture drawn into: the attachment of the bound framebuffer object, `0` when
the default framebuffer is bound. -/
def Context.target (g : Context) : GLuint :=
  if g.Framebuffer = 0 then 0 else g.ColorAttachment0 g.Framebuffer

/-- Replace the content of the colour buffer drawn into. -/
def Context.write (g : Context) (f : Picture → Picture) : Context :=
  if g.Framebuffer = 0 then { g with Screen := f g.Screen }
  else { g with TexImage := Function.update g.TexImage g.target (f (g.TexImage g.target)) }

/-- Effect of one GL call on the bindings, attachments and contents. -/
def Context.effect (g : Context) : GLCall → Context
  | .glViewport x y w h => { g with Viewport := (x, y, w, h) }
  | .glBindFramebuffer f => { g with Framebuffer := f }
  | .glFramebufferTexture2D color t =>
    if color ∧ g.Framebuffer ≠ 0 then
      { g with ColorAttachment0 := Function.update g.ColorAttachment0 g.Framebuffer t }
    else g
  | .glClearColor => g
  | .glClear => g.write fun _ => .cleared
  | .glEnable => g
  | .glUseProgram p => { g with CurrentProgram := p }
  | .glUniform _ _ => g
  | .glBindBufferBase _ _ => g
  | .glActiveTexture u => { g with ActiveTexture := u }
  | .glBindTexture t =>
    { g with TextureBinding2D := Function.update g.TextureBinding2D g.ActiveTexture t }
  | .glBindVertexArray a => { g with VertexArray := a }
  | .glDrawArrays _ _ =>
    let g1 := g.write fun old => .drawn g.CurrentProgram (g.TexImage (g.TextureBinding2D 0)) old
    { g1 with
      draws := g1.draws ++
        [{ program := g.CurrentProgram
           framebuffer := g.Framebuffer
           target := g.target
           bound := g.TextureBinding2D g.ActiveTexture
           sampled := g.TextureBinding2D 0
           vertexArray := g.VertexArray
           viewport := g.Viewport }] }

/-- Issue one GL call: apply its effect and log it. -/
def Context.call (g : Context) (c : GLCall) : Context :=
  let g1 := g.effect c
  { g1 with calls := g1.calls ++ [c] }

/-! ## `demo_postprocess` -/

/-- The members of `tavern_scene` used while rendering. -/
structure tavern_scene where
  LightsUniformBuffer : GLuint
  DiffuseTexture : GLuint
  EmissiveTexture : GLuint
  MeshVertexCount : Int

/-- The members of `demo_postprocess` (`demo_postprocess.h:33-59`); the two-element arrays are
functions on `Fin 2`. Float members are only passed on as uniforms and are left out. -/
structure demo_postprocess where
  TavernProgram : GLuint
  TavernVAO : GLuint
  TavernScene : tavern_scene
  RenderVAO : GLuint
  RenderProgram : GLuint
  FBO : GLuint
  RawRenderTex : GLuint
  RenderDepthMap : GLuint
  RenderResolution : Int
  pp : Bool
  PostProcessProgram : GLuint
  ppFBO : Fin 2 → GLuint
  ppRenderTex : Fin 2 → GLuint
  PostProcessCount : Int

/-- A `bool` used as an array index: `false` is 0 and `true` is 1. -/
def index (b : Bool) : Fin 2 := if b then 1 else 0

/-- The framebuffer part of the constructor (`demo_postprocess.cpp:267-285`). -/
def createFramebuffers (s : demo_postprocess) (g : Context) : Context :=
  let g := g.call (.glBindFramebuffer s.FBO)
  let g := g.call (.glFramebufferTexture2D true s.RawRenderTex)
  let g := g.call (.glFramebufferTexture2D false s.RenderDepthMap)
  let g := g.call (.glBindFramebuffer 0)
  let g := (List.range 2).foldl (fun g i =>
    let g := g.call (.glBindFramebuffer (s.ppFBO (Fin.ofNat i)))
    g.call (.glFramebufferTexture2D true (s.ppRenderTex (Fin.ofNat i)))) g
  g.call (.glBindFramebuffer 0)

/-- The method `demo_postprocess::RenderTavernFBO` (`demo_postprocess.cpp:413-448`). -/
def RenderTavernFBO (s : demo_postprocess) (g : Context) : Context :=
  let g := g.call (.glViewport 0 0 s.RenderResolution s.RenderResolution)
  let g := g.call (.glBindFramebuffer s.FBO)
  let g := g.call .glClearColor
  let g := g.call .glClear
  let g := g.call .glEnable
  let g := g.call (.glUseProgram s.TavernProgram)
  let g := g.call (.glUniform s.TavernProgram .uProjection)
  let g := g.call (.glUniform s.TavernProgram .uModel)
  let g := g.call (.glUniform s.TavernProgram .uView)
  let g := g.call (.glUniform s.TavernProgram .uModelNormalMatrix)
  let g := g.call (.glUniform s.TavernProgram .uViewPosition)
  let g := g.call (.glBindBufferBase 0 s.TavernScene.LightsUniformBuffer)
  let g := g.call (.glActiveTexture 0)
  let g := g.call (.glBindTexture s.TavernScene.DiffuseTexture)
  let g := g.call (.glActiveTexture 1)
  let g := g.call (.glBindTexture s.TavernScene.EmissiveTexture)
  let g := g.call (.glActiveTexture 0)
  let g := g.call (.glBindVertexArray s.TavernVAO)
  let g := g.call (.glDrawArrays 0 s.TavernScene.MeshVertexCount)
  g.call (.glBindFramebuffer 0)

/-- Body of the loop of `RenderPingPong` (`demo_postprocess.cpp:458-469`) for loop counter
`i`. -/
def RenderPingPong.body (sg : demo_postprocess × Context) (i : Nat) :
    demo_postprocess × Context :=
  let s := sg.1
  let g := sg.2
  let g := g.call (.glViewport 0 0 s.RenderResolution s.RenderResolution)
  let g := g.call (.glBindFramebuffer (s.ppFBO (index s.pp)))
  let g := g.call .glClearColor
  let g := g.call .glClear
  let g := g.call (.glBindVertexArray s.RenderVAO)
  let g := g.call (.glBindTexture (if i = 0 then s.RawRenderTex else s.ppRenderTex (index (!s.pp))))
  let g := g.call (.glDrawArrays 0 6)
  ({ s with pp := !s.pp }, g)

/-- The method `demo_postprocess::RenderPingPong` (`demo_postprocess.cpp:450-472`); the loop
`for (int i = 0; i < iteration; ++i)` runs `max(iteration, 0)` times. -/
def RenderPingPong (iteration : Int) (s : demo_postprocess) (g : Context) :
    demo_postprocess × Context :=
  let g := g.call (.glUseProgram s.PostProcessProgram)
  let g := g.call (.glUniform s.PostProcessProgram .uOffset)
  let g := g.call (.glUniform s.PostProcessProgram .uKernel)
  let sg := (List.range iteration.toNat).foldl RenderPingPong.body (s, g)
  (sg.1, sg.2.call (.glBindFramebuffer 0))

/-- The method `demo_postprocess::RenderScreen` (`demo_postprocess.cpp:474-487`). -/
def RenderScreen (s : demo_postprocess) (g : Context) : Context :=
  let g := g.call .glClearColor
  let g := g.call .glClear
  let g := g.call (.glUseProgram s.RenderProgram)
  let g := g.call (.glUniform s.RenderProgram .uGamma)
  let g := g.call (.glBindVertexArray s.RenderVAO)
  let g := g.call
    (.glBindTexture (if 0 < s.PostProcessCount then s.ppRenderTex (index (!s.pp))
      else s.RawRenderTex))
  g.call (.glDrawArrays 0 6)

/-- The rendering part of `demo_postprocess::Update` (`demo_postprocess.cpp:343-361`): scene
stage, filter stages, present stage. The wireframe overlay and the debug UI, which follow
the present stage, are left out. -/
def Update (WindowWidth WindowHeight : Int) (s : demo_postprocess) (g : Context) :
    demo_postprocess × Context :=
  let g := g.call (.glViewport 0 0 WindowWidth WindowHeight)
  let g := RenderTavernFBO s g
  let sg := RenderPingPong s.PostProcessCount s g
  let g := sg.2.call (.glViewport 0 0 WindowWidth WindowHeight)
  (sg.1, RenderScreen sg.1 g)

/-! ## Vocabulary for the properties of the post-process pipeline -/

/-- The parity flag after `n` flips, starting from `p`. -/
def parityAfter (p : Bool) (n : Nat) : Bool := if n % 2 = 0 then p else !p

/-- The texture bound for sampling in filter iteration `i` when the flag is `p` on entry of
that iteration (`demo_postprocess.cpp:466`). -/
def filterSource (s : demo_postprocess) (p : Bool) (i : Nat) : GLuint :=
  if i = 0 then s.RawRenderTex else s.ppRenderTex (index (!p))

/-- The draw of filter iteration `i` of a `RenderPingPong` entered with state `s` and context
`g`, in closed form. -/
def filterDraw (s : demo_postprocess) (g : Context) (i : Nat) : DrawRecord :=
  { program := s.PostProcessProgram
    framebuffer := s.ppFBO (index (parityAfter s.pp i))
    target :=
      if s.ppFBO (index (parityAfter s.pp i)) = 0 then 0
      else g.ColorAttachment0 (s.ppFBO (index (parityAfter s.pp i)))
    bound := filterSource s (parityAfter s.pp i) i
    sampled :=
      if g.ActiveTexture = 0 then filterSource s (parityAfter s.pp i) i
      else g.TextureBinding2D 0
    vertexArray := s.RenderVAO
    viewport := (0, 0, s.RenderResolution, s.RenderResolution) }

/-- Each ping-pong framebuffer is a framebuffer object with the ping-pong texture of the same
index as colour attachment, as the constructor sets them up
(`demo_postprocess.cpp:277-284`). -/
def PingPongAttached (s : demo_postprocess) (g : Context) : Prop :=
  s.ppFBO 0 ≠ 0 ∧ s.ppFBO 1 ≠ 0 ∧
  g.ColorAttachment0 (s.ppFBO 0) = s.ppRenderTex 0 ∧
  g.ColorAttachment0 (s.ppFBO 1) = s.ppRenderTex 1

instance (s : demo_postprocess) (g : Context) : Decidable (PingPongAttached s g) := by
  unfold PingPongAttached; infer_instance

/-- The framebuffers as the constructor leaves them (`demo_postprocess.cpp:267-285`): `FBO`
renders into `RawRenderTex` and the ping-pong framebuffers into the ping-pong textures. -/
def Constructed (s : demo_postprocess) (g : Context) : Prop :=
  s.FBO ≠ 0 ∧ g.ColorAttachment0 s.FBO = s.RawRenderTex ∧ PingPongAttached s g

instance (s : demo_postprocess) (g : Context) : Decidable (Constructed s g) := by
  unfold Constructed; infer_instance

/-- The texture `RenderScreen` binds for sampling (`demo_postprocess.cpp:485`). -/
def presentSource (s : demo_postprocess) : GLuint :=
  if 0 < s.PostProcessCount then s.ppRenderTex (index (!s.pp)) else s.RawRenderTex

/-- The draw of `RenderScreen` entered with state `s` and context `g`, in closed form. -/
def presentDraw (s : demo_postprocess) (g : Context) : DrawRecord :=
  { program := s.RenderProgram
    framebuffer := g.Framebuffer
    target := g.target
    bound := presentSource s
    sampled := if g.ActiveTexture = 0 then presentSource s else g.TextureBinding2D 0
    vertexArray := s.RenderVAO
    viewport := g.Viewport }

/-- The draw of `RenderTavernFBO` entered with state `s` and context `g`, in closed form. -/
def sceneDraw (s : demo_postprocess) (g : Context) : DrawRecord :=
  { program := s.TavernProgram
    framebuffer := s.FBO
    target := if s.FBO = 0 then 0 else g.ColorAttachment0 s.FBO
    bound := s.TavernScene.DiffuseTexture
    sampled := s.TavernScene.DiffuseTexture
    vertexArray := s.TavernVAO
    viewport := (0, 0, s.RenderResolution, s.RenderResolution) }

/-- The draw of the present stage in a frame shown in a `W` by `H` window, for the state `s1`
the filter stages leave. -/
def framePresentDraw (W H : Int) (s1 : demo_postprocess) : DrawRecord :=
  { program := s1.RenderProgram
    framebuffer := 0
    target := 0
    bound := presentSource s1
    sampled := presentSource s1
    vertexArray := s1.RenderVAO
    viewport := (0, 0, W, H) }

/-! ## Concrete inputs -/

/-- A float whose first byte is `n`. -/
def sampleFloat (n : Byte) : float := ⟨n, 0, 0, 0⟩

/-- A transform with translation bytes `n`, no rotation and scale bytes `k`. -/
def sampleTransform (n k : Byte) : Transform :=
  { t := ⟨sampleFloat n, sampleFloat n, sampleFloat n⟩
    r := ⟨float.zero, float.zero, float.zero⟩
    s := ⟨sampleFloat k, sampleFloat k, sampleFloat k⟩ }

/-- A colour with channel bytes `r`, `g`, `b`. -/
def sampleColor (r g b : Byte) : v3 := ⟨sampleFloat r, sampleFloat g, sampleFloat b⟩

/-- A stand-in for `Transform::GetModelMatrix` on concrete inputs: scale on the diagonal,
translation in the last column. -/
def sampleModelMatrix (tf : Transform) : mat4 :=
  { c0 := ⟨tf.s.x, float.zero, float.zero, float.zero⟩
    c1 := ⟨float.zero, tf.s.y, float.zero, float.zero⟩
    c2 := ⟨float.zero, float.zero, tf.s.z, float.zero⟩
    c3 := ⟨tf.t.x, tf.t.y, tf.t.z, sampleFloat 1⟩ }

/-- A synchronised instance set of size 2 with the second instance selected. -/
def sampleInstances : demo_instancing :=
  { InstanceCount := 2
    InstanceIndex := 1
    InstanceModel := [sampleModelMatrix (sampleTransform 1 2), sampleModelMatrix (sampleTransform 3 4)]
    InstanceTransform := [sampleTransform 1 2, sampleTransform 3 4]
    InstanceColor := [sampleColor 10 20 30, sampleColor 40 50 60]
    InstanceAdditionalTransform := sampleTransform 5 6
    InstanceAdditionalColor := sampleColor 70 80 90
    Buffers :=
      { ArrayBufferBinding := .InstanceColorVBO
        InstanceTransformData := vectorData mat4.bytes
          [sampleModelMatrix (sampleTransform 1 2), sampleModelMatrix (sampleTransform 3 4)]
        InstanceColorData := vectorData v3.bytes [sampleColor 10 20 30, sampleColor 40 50 60] } }

/-- An instance set whose counter holds the largest `unsigned int`, in sync with its
buffers. -/
def fullInstanceSet : demo_instancing :=
  { InstanceCount := 4294967295
    InstanceIndex := 0
    InstanceModel := List.replicate 4294967295 (sampleModelMatrix (sampleTransform 1 2))
    InstanceTransform := List.replicate 4294967295 (sampleTransform 1 2)
    InstanceColor := List.replicate 4294967295 (sampleColor 10 20 30)
    InstanceAdditionalTransform := sampleTransform 5 6
    InstanceAdditionalColor := sampleColor 70 80 90
    Buffers :=
      { ArrayBufferBinding := .InstanceColorVBO
        InstanceTransformData := vectorData mat4.bytes
          (List.replicate 4294967295 (sampleModelMatrix (sampleTransform 1 2)))
        InstanceColorData := vectorData v3.bytes
          (List.replicate 4294967295 (sampleColor 10 20 30)) } }

/-- Values for the calls of `Rng` on concrete inputs: the `k`-th call returns a float whose
first byte is `k`. -/
def sampleRng (k : Nat) : float := sampleFloat (Fin.ofNat k)

/-- A reset to three instances followed by an addition, an edit of instance 1, and the
removal of instance 0. -/
def sampleCalls : List InstanceCall :=
  [.Add (sampleTransform 5 6) (sampleColor 70 80 90),
   .Update 1 (sampleTransform 7 8) (sampleColor 1 2 3),
   .Destroy 0]

/-- The sample instance set after the widgets have written a new transform and a new colour
for the selected instance 1: both buffers are stale at record 1 only. -/
def editedInstances : demo_instancing :=
  { sampleInstances with
    InstanceTransform := [sampleTransform 1 2, sampleTransform 7 8]
    InstanceColor := [sampleColor 10 20 30, sampleColor 1 2 3] }

/-- A `demo_postprocess` with distinct object names, parity flag `p` and `n` filter
iterations. -/
def samplePostProcess (p : Bool) (n : Int) : demo_postprocess :=
  { TavernProgram := 1
    TavernVAO := 1
    TavernScene := ⟨1, 5, 6, 36⟩
    RenderVAO := 2
    RenderProgram := 3
    FBO := 1
    RawRenderTex := 1
    RenderDepthMap := 2
    RenderResolution := 1024
    pp := p
    PostProcessProgram := 2
    ppFBO := fun i => if i = 0 then 2 else 3
    ppRenderTex := fun i => if i = 0 then 3 else 4
    PostProcessCount := n }

/-- A context before any framebuffer has an attachment. -/
def blankContext : Context :=
  { Viewport := (0, 0, 0, 0)
    Framebuffer := 0
    CurrentProgram := 0
    ActiveTexture := 0
    TextureBinding2D := fun _ => 0
    VertexArray := 0
    ColorAttachment0 := fun _ => 0
    TexImage := fun _ => .unset
    Screen := .unset
    calls := []
    draws := [] }

/-- The context the framebuffer part of the constructor leaves for the sample demo. -/
def sampleContext : Context := createFramebuffers (samplePostProcess false 1) blankContext

/-! ## GL state for the shadow-map pipeline -/

/-- The uniforms set while rendering a `demo_shadowmap` frame (values are not tracked). -/
inductive ShadowUniform where
  | uProjection
  | uModel
  | uView
  | uModelNormalMatrix
  | uLightSpaceMatrix
  | uViewPosition
deriving DecidableEq

/-- The GL calls issued by `demo_shadowmap` while rendering a frame or attaching the depth
texture. -/
inductive ShadowCall where
  | glViewport (x y width height : Int)
  | glBindFramebuffer (framebuffer : GLuint)
  | glFramebufferTexture2D (texture : GLuint)
  | glClearColor
  | glClear
  | glEnable
  | glUseProgram (program : GLuint)
  | glUniform (program : GLuint) (uniform : ShadowUniform)
  | glBindBufferBase (index : Nat) (buffer : GLuint)
  | glActiveTexture (unit : Nat)
  | glBindTexture (texture : GLuint)
  | glBindVertexArray (array : GLuint)
  | glDrawArrays (first count : Int)
deriving DecidableEq

/-- One draw call of `demo_shadowmap` with the state it was issued in. -/
structure ShadowDraw where
  program : GLuint
  framebuffer : GLuint
  /-- Depth attachment of the bound framebuffer, `0` for the default framebuffer. -/
  depthTarget : GLuint
  /-- Texture bound to unit 0, which `uDiffuseTexture` refers to (`demo_shadowmap.cpp:222`). -/
  unit0 : GLuint
  /-- Texture bound to unit 1, which `uEmissiveTexture` refers to (`demo_shadowmap.cpp:223`). -/
  unit1 : GLuint
  /-- Texture bound to unit 2, which `uShadowMap` refers to (`demo_shadowmap.cpp:224`). -/
  unit2 : GLuint
  vertexArray : GLuint
  viewport : Int × Int × Int × Int
deriving DecidableEq

/-- The GL context of `demo_shadowmap`: bindings, depth attachments and the log of calls and
draws. -/
structure ShadowContext where
  Viewport : Int × Int × Int × Int
  Framebuffer : GLuint
  CurrentProgram : GLuint
  ActiveTexture : Nat
  TextureBinding2D : Nat → GLuint
  VertexArray : GLuint
  DepthAttachment : GLuint → GLuint
  calls : List ShadowCall
  draws : List ShadowDraw

/-- Effect of one GL call on the bindings and attachments. -/
def ShadowContext.effect (g : ShadowContext) : ShadowCall → ShadowContext
  | .glViewport x y w h => { g with Viewport := (x, y, w, h) }
  | .glBindFramebuffer f => { g with Framebuffer := f }
  | .glFramebufferTexture2D t =>
    if g.Framebuffer ≠ 0 then
      { g with DepthAttachment := Function.update g.DepthAttachment g.Framebuffer t }
    else g
  | .glClearColor => g
  | .glClear => g
  | .glEnable => g
  | .glUseProgram p => { g with CurrentProgram := p }
  | .glUniform _ _ => g
  | .glBindBufferBase _ _ => g
  | .glActiveTexture u => { g with ActiveTexture := u }
  | .glBindTexture t =>
    { g with TextureBinding2D := Function.update g.TextureBinding2D g.ActiveTexture t }
  | .glBindVertexArray a => { g with VertexArray := a }
  | .glDrawArrays _ _ =>
    { g with
      draws := g.draws ++
        [{ program := g.CurrentProgram
           framebuffer := g.Framebuffer
           depthTarget := if g.Framebuffer = 0 then 0 else g.DepthAttachment g.Framebuffer
           unit0 := g.TextureBinding2D 0
           unit1 := g.TextureBinding2D 1
           unit2 := g.TextureBinding2D 2
           vertexArray := g.VertexArray
           viewport := g.Viewport }] }

/-- Issue one GL call: apply its effect and log it. -/
def ShadowContext.call (g : ShadowContext) (c : ShadowCall) : ShadowContext :=
  let g1 := g.effect c
  { g1 with calls := g1.calls ++ [c] }

/-! ## `demo_shadowmap` -/

/-- The members of `demo_shadowmap` (`demo_shadowmap.h:33-47`); `LightRange` is only used to
build a uniform value and is left out. -/
structure demo_shadowmap where
  TavernProgram : GLuint
  DepthProgram : GLuint
  RenderProgram : GLuint
  TavernVAO : GLuint
  RenderVAO : GLuint
  DepthFBO : GLuint
  DepthMap : GLuint
  DepthMapResolution : Nat
  TavernScene : tavern_scene

/-- The depth framebuffer part of the constructor (`demo_shadowmap.cpp:228-247`); the calls
that size and parametrise the texture and `glDrawBuffer` / `glReadBuffer` are left out. -/
def demo_shadowmap.createDepthFramebuffer (s : demo_shadowmap) (g : ShadowContext) :
    ShadowContext :=
  let g := g.call (.glBindTexture s.DepthMap)
  let g := g.call (.glBindFramebuffer s.DepthFBO)
  let g := g.call (.glFramebufferTexture2D s.DepthMap)
  g.call (.glBindFramebuffer 0)

/-- The method `demo_shadowmap::RenderTavernDepthMap` (`demo_shadowmap.cpp:388-410`). -/
def demo_shadowmap.RenderTavernDepthMap (s : demo_shadowmap) (g : ShadowContext) :
    ShadowContext :=
  let g := g.call (.glViewport 0 0 s.DepthMapResolution s.DepthMapResolution)
  let g := g.call (.glBindFramebuffer s.DepthFBO)
  let g := g.call .glClear
  let g := g.call .glEnable
  let g := g.call (.glUseProgram s.DepthProgram)
  let g := g.call (.glUniform s.DepthProgram .uModel)
  let g := g.call (.glUniform s.DepthProgram .uLightSpaceMatrix)
  let g := g.call (.glBindVertexArray s.TavernVAO)
  let g := g.call (.glDrawArrays 0 s.TavernScene.MeshVertexCount)
  g.call (.glBindFramebuffer 0)

/-- The method `demo_shadowmap::RenderTavern` (`demo_shadowmap.cpp:357-386`). -/
def demo_shadowmap.RenderTavern (s : demo_shadowmap) (g : ShadowContext) : ShadowContext :=
  let g := g.call .glEnable
  let g := g.call (.glUseProgram s.TavernProgram)
  let g := g.call (.glUniform s.TavernProgram .uProjection)
  let g := g.call (.glUniform s.TavernProgram .uModel)
  let g := g.call (.glUniform s.TavernProgram .uView)
  let g := g.call (.glUniform s.TavernProgram .uModelNormalMatrix)
  let g := g.call (.glUniform s.TavernProgram .uLightSpaceMatrix)
  let g := g.call (.glUniform s.TavernProgram .uViewPosition)
  let g := g.call (.glBindBufferBase 0 s.TavernScene.LightsUniformBuffer)
  let g := g.call (.glActiveTexture 0)
  let g := g.call (.glBindTexture s.TavernScene.DiffuseTexture)
  let g := g.call (.glActiveTexture 1)
  let g := g.call (.glBindTexture s.TavernScene.EmissiveTexture)
  let g := g.call (.glActiveTexture 2)
  let g := g.call (.glBindTexture s.DepthMap)
  let g := g.call (.glActiveTexture 0)
  let g := g.call (.glBindVertexArray s.TavernVAO)
  g.call (.glDrawArrays 0 s.TavernScene.MeshVertexCount)

/-- The rendering part of `demo_shadowmap::Update` (`demo_shadowmap.cpp:291-315`): clear,
depth stage, lit stage. The wireframe overlay and the debug UI, which follow the lit stage,
are left out. -/
def demo_shadowmap.Update (WindowWidth WindowHeight : Int) (s : demo_shadowmap)
    (g : ShadowContext) : ShadowContext :=
  let g := g.call .glClearColor
  let g := g.call .glClear
  let g := s.RenderTavernDepthMap g
  let g := g.call (.glViewport 0 0 WindowWidth WindowHeight)
  s.RenderTavern g

/-- The depth framebuffer is a framebuffer object with `DepthMap` as depth attachment, as the
constructor leaves it (`demo_shadowmap.cpp:242-243`). -/
def DepthAttached (s : demo_shadowmap) (g : ShadowContext) : Prop :=
  s.DepthFBO ≠ 0 ∧ g.DepthAttachment s.DepthFBO = s.DepthMap

instance (s : demo_shadowmap) (g : ShadowContext) : Decidable (DepthAttached s g) := by
  unfold DepthAttached; infer_instance

/-- The draw of the depth stage entered with context `g`, in closed form. -/
def depthDraw (s : demo_shadowmap) (g : ShadowContext) : ShadowDraw :=
  { program := s.DepthProgram
    framebuffer := s.DepthFBO
    depthTarget := if s.DepthFBO = 0 then 0 else g.DepthAttachment s.DepthFBO
    unit0 := g.TextureBinding2D 0
    unit1 := g.TextureBinding2D 1
    unit2 := g.TextureBinding2D 2
    vertexArray := s.TavernVAO
    viewport := (0, 0, s.DepthMapResolution, s.DepthMapResolution) }

/-- The draw of the lit stage in a frame shown in a `W` by `H` window, in closed form. -/
def litDraw (W H : Int) (s : demo_shadowmap) : ShadowDraw :=
  { program := s.TavernProgram
    framebuffer := 0
    depthTarget := 0
    unit0 := s.TavernScene.DiffuseTexture
    unit1 := s.TavernScene.EmissiveTexture
    unit2 := s.DepthMap
    vertexArray := s.TavernVAO
    viewport := (0, 0, W, H) }

/-- A `demo_shadowmap` with distinct object names. -/
def sampleShadowMap : demo_shadowmap :=
  { TavernProgram := 1
    DepthProgram := 2
    RenderProgram := 3
    TavernVAO := 1
    RenderVAO := 2
    DepthFBO := 1
    DepthMap := 7
    DepthMapResolution := 1024
    TavernScene := ⟨1, 5, 6, 36⟩ }

/-- A shadow-map context before the depth framebuffer has its attachment. -/
def blankShadowContext : ShadowContext :=
  { Viewport := (0, 0, 0, 0)
    Framebuffer := 0
    CurrentProgram := 0
    ActiveTexture := 0
    TextureBinding2D := fun _ => 0
    VertexArray := 0
    DepthAttachment := fun _ => 0
    calls := []
    draws := [] }

/-- The context the depth framebuffer part of the constructor leaves for the sample demo. -/
def sampleShadowContext : ShadowContext :=
  sampleShadowMap.createDepthFramebuffer blankShadowContext

/-! ## The lit-stage fragment shader of `demo_shadowmap`

The colour arithmetic of `main` is taken in a linearly ordered field `F` (exact arithmetic).
The shadow lookup `enlighten` branches on comparisons of computed values, so it takes the
arithmetic its `float` expressions are evaluated with as a parameter: exact arithmetic and
binary32 arithmetic are two instances. -/

/-- The GLSL type `vec2`. -/
@[ext] structure vec2 (F : Type) where
  x : F
  y : F

/-- The GLSL type `vec3`. -/
@[ext] structure vec3 (F : Type) where
  x : F
  y : F
  z : F

/-- The GLSL type `vec4`. -/
@[ext] structure vec4 (F : Type) where
  x : F
  y : F
  z : F
  w : F

/-- Component-wise sum of two `vec3`. -/
def vec3.add {F : Type} [Add F] (a b : vec3 F) : vec3 F := ⟨a.x + b.x, a.y + b.y, a.z + b.z⟩

/-- Component-wise difference of two `vec3`. -/
def vec3.sub {F : Type} [Sub F] (a b : vec3 F) : vec3 F := ⟨a.x - b.x, a.y - b.y, a.z - b.z⟩

/-- Component-wise product of two `vec3`. -/
def vec3.mul {F : Type} [Mul F] (a b : vec3 F) : vec3 F := ⟨a.x * b.x, a.y * b.y, a.z * b.z⟩

/-- Product of a `float` and a `vec3`. -/
def vec3.scale {F : Type} [Mul F] (s : F) (a : vec3 F) : vec3 F := ⟨s * a.x, s * a.y, s * a.z⟩

instance {F : Type} [Add F] : Add (vec3 F) := ⟨vec3.add⟩

instance {F : Type} [Sub F] : Sub (vec3 F) := ⟨vec3.sub⟩

instance {F : Type} [Mul F] : Mul (vec3 F) := ⟨vec3.mul⟩

instance {F : Type} [Mul F] : HMul F (vec3 F) (vec3 F) := ⟨vec3.scale⟩

/-- A `sampler2D` holding a depth texture: the size reported by `textureSize(_, 0)` and the
red channel returned by `texture` at given coordinates. -/
structure sampler2D (F : Type) where
  width : Nat
  height : Nat
  r : vec2 F → F

/-- The type `light_shade_result` returned by `get_lights_shading`. -/
structure light_shade_result (F : Type) where
  ambient : vec3 F
  diffuse : vec3 F
  specular : vec3 F

/-- The colour members of the material `gDefaultMaterial`. -/
structure material (F : Type) where
  ambient : vec3 F
  diffuse : vec3 F
  specular : vec3 F
  emission : vec3 F

/-- The arithmetic a GLSL implementation evaluates `float` expressions with, on values of
type `F`: the value of a decimal literal, the conversion of an `int`, the four operations,
each delivering its result as the implementation rounds it, and the comparison `>`. -/
structure FloatArithmetic (F : Type) where
  const : ℚ → F
  ofInt : Int → F
  add : F → F → F
  sub : F → F → F
  mul : F → F → F
  div : F → F → F
  gt : F → F → Bool

/-- The GLSL function `enlighten` (`demo_shadowmap.cpp:92-115`), its `float` expressions
evaluated with the arithmetic `A`. The result is the returned `float` together with the list
of texture coordinates fetched from `uShadowMap`, in order. -/
def enlighten {F : Type} (A : FloatArithmetic F) (uShadowMap : sampler2D F)
    (lightSpace : vec4 F) (bias : F) : F × List (vec2 F) :=
  let perspective : vec3 F :=
    ⟨A.div lightSpace.x lightSpace.w, A.div lightSpace.y lightSpace.w,
      A.div lightSpace.z lightSpace.w⟩
  let perspective : vec3 F :=
    ⟨A.add (A.mul perspective.x (A.const 0.5)) (A.const 0.5),
      A.add (A.mul perspective.y (A.const 0.5)) (A.const 0.5),
      A.add (A.mul perspective.z (A.const 0.5)) (A.const 0.5)⟩
  let currentDepth := perspective.z
  if A.gt currentDepth (A.const 1.0) then (A.const 1.0, [])
  else
    let texelSize : vec2 F :=
      ⟨A.div (A.const 1.0) (A.ofInt uShadowMap.width),
        A.div (A.const 1.0) (A.ofInt uShadowMap.height)⟩
    let acc := ([-1, 0, 1] : List Int).foldl (fun acc i =>
      ([-1, 0, 1] : List Int).foldl (fun acc j =>
        let pcfDepth := uShadowMap.r
          ⟨A.add perspective.x (A.mul (A.ofInt i) texelSize.x),
            A.add perspective.y (A.mul (A.ofInt j) texelSize.y)⟩
        (A.add acc.1
            (if A.gt (A.sub currentDepth bias) pcfDepth then A.const 0.0 else A.const 1.0),
          acc.2 ++ [⟨A.add perspective.x (A.mul (A.ofInt i) texelSize.x),
            A.add perspective.y (A.mul (A.ofInt j) texelSize.y)⟩])) acc) (A.const 0.0, [])
    (A.div acc.1 (A.const 9.0), acc.2)

/-- The colour written by the lit-stage fragment shader (`demo_shadowmap.cpp:130`). -/
def shadedColor {F : Type} [LinearOrderedField F]
    (ambientColor diffuseColor specularColor emissiveColor : vec3 F) (shadow : F) : vec3 F :=
  ambientColor + shadow * (diffuseColor + specularColor) + emissiveColor

/-- The function `main` of the lit-stage fragment shader (`demo_shadowmap.cpp:117-131`).
`lightResult` is what `get_lights_shading()` returns, `diffuseTexel` and `emissiveTexel`
are `texture(uDiffuseTexture, vUV).rgb` and `texture(uEmissiveTexture, vUV).rgb`; `A` is the
arithmetic `enlighten` is evaluated with. -/
def fragment_main {F : Type} [LinearOrderedField F] (A : FloatArithmetic F)
    (gDefaultMaterial : material F)
    (lightResult : light_shade_result F) (diffuseTexel emissiveTexel : vec3 F)
    (uShadowMap : sampler2D F) (vLightSpace : vec4 F) : vec4 F :=
  let diffuseColor := gDefaultMaterial.diffuse * lightResult.diffuse * diffuseTexel
  let ambientColor := gDefaultMaterial.ambient * lightResult.ambient * diffuseTexel
  let specularColor := gDefaultMaterial.specular * lightResult.specular
  let emissiveColor := gDefaultMaterial.emission + emissiveTexel
  let shadow := (enlighten A uShadowMap vLightSpace (A.const 0.005)).1
  let c := shadedColor ambientColor diffuseColor specularColor emissiveColor shadow
  ⟨c.x, c.y, c.z, 1.0⟩

/-- Exact arithmetic in a linearly ordered field: no operation rounds. -/
def exactArithmetic (F : Type) [LinearOrderedField F] : FloatArithmetic F :=
  { const := fun q => (q : F)
    ofInt := fun i => (i : F)
    add := fun a b => a + b
    sub := fun a b => a - b
    mul := fun a b => a * b
    div := fun a b => a / b
    gt := fun a b => decide (a > b) }

/-- The exponent `e` of the binade `2 ^ e ≤ |q| < 2 ^ (e + 1)` a binary32 value near `q` is
stored with; it is not below `-126`, the exponent of the subnormal numbers. -/
def binary32_exponent (q : ℚ) : Int := max (Int.log 2 |q|) (-126)

/-- The integer nearest to `q`; of the two nearest ones the even one when `q` lies half-way. -/
def roundHalfEven (q : ℚ) : Int :=
  if q - ⌊q⌋ < 1 / 2 then ⌊q⌋
  else if 1 / 2 < q - ⌊q⌋ then ⌊q⌋ + 1
  else if ⌊q⌋ % 2 = 0 then ⌊q⌋ else ⌊q⌋ + 1

/-- Rounding to binary32, to nearest with ties to even: the nearest multiple of the unit in
the last place `2 ^ (e - 23)` of a 24-bit significand. `none` stands for a result that is
not a finite number: here one whose rounded magnitude reaches `2 ^ 128`. -/
def binary32_round (q : ℚ) : Option ℚ :=
  let ulp : ℚ := 2 ^ (binary32_exponent q - 23)
  let r : ℚ := roundHalfEven (q / ulp) * ulp
  if |r| < 2 ^ 128 then some r else none

/-- An operation of binary32 arithmetic on finite operands: the exact result, rounded. -/
def binary32_op (f : ℚ → ℚ → ℚ) (a b : Option ℚ) : Option ℚ :=
  match a, b with
  | some x, some y => binary32_round (f x y)
  | _, _ => none

/-- Binary32 arithmetic on the finite numbers, every operation rounded to nearest with ties
to even. A value is `some q` for the finite number `q` (the two zeros are one value) and
`none` for anything else: an overflow, a division by zero, or an operation on `none`; the
infinities and NaN are not followed further, and a comparison with `none` is false. -/
def binary32 : FloatArithmetic (Option ℚ) :=
  { const := binary32_round
    ofInt := fun i => binary32_round i
    add := binary32_op fun x y => x + y
    sub := binary32_op fun x y => x - y
    mul := binary32_op fun x y => x * y
    div := fun a b =>
      match a, b with
      | some x, some y => if y = 0 then none else binary32_round (x / y)
      | _, _ => none
    gt := fun a b =>
      match a, b with
      | some x, some y => decide (x > y)
      | _, _ => false }

/-- The nine offsets `(i, j)` of `{-1, 0, 1}^2`, `i` varying slowest. -/
def pcfOffsets : List (Int × Int) :=
  [(-1, -1), (-1, 0), (-1, 1), (0, -1), (0, 0), (0, 1), (1, -1), (1, 0), (1, 1)]

/-- A depth texture of size 1024 by 1024 storing depth `1/2` left of `u = 1/2` and depth 1
elsewhere. -/
def sampleShadowTexture : sampler2D ℚ :=
  { width := 1024, height := 1024, r := fun c => if c.x < 1 / 2 then 1 / 2 else 1 }

/-- The texture `sampleShadowTexture` with binary32 texels. -/
def sampleShadowTexture32 : sampler2D (Option ℚ) :=
  { width := 1024
    height := 1024
    r := fun c =>
      match c.x with
      | some x => if x < 1 / 2 then some (1 / 2) else some 1
      | none => none }

/-- A depth texture of size 1024 by 1024 storing the binary32 value `depth` in every texel. -/
def uniformShadowTexture32 (depth : ℚ) : sampler2D (Option ℚ) :=
  { width := 1024, height := 1024, r := fun _ => some depth }

/-! ## The debug UI of `demo_instancing` -/

/-- The value an `int` written through `(int*)&u` leaves in the `unsigned int` `u`. -/
def asUnsigned (v : Int) : Nat := (v % (UINT_RANGE : Int)).toNat

/-- The `int` an `unsigned int` argument is converted to. -/
def asInt (n : Nat) : Int :=
  if n % UINT_RANGE ≤ INT_MAX then ((n % UINT_RANGE : Nat) : Int)
  else ((n % UINT_RANGE : Nat) : Int) - (UINT_RANGE : Int)

/-- What the widgets of one frame of `demo_instancing::DisplayDebugUI` return
(`demo_instancing.cpp:265-323`): whether each tree node is open, the value each drag or slider
widget writes when the user changed it (`none` when it returns `false`), and whether each button
was pressed. The slider is a function of the upper bound it is called with. `rnd` are the values
of `Rng` in case `SetInstanceAttributes` runs. -/
structure DebugUI where
  demo_instancing_open : Bool
  Instancing_open : Bool
  Instances : Option Int
  rnd : Nat → float
  Instance_index : Int → Option Int
  Instance_position : Option v3
  Instance_rotation : Option v3
  Instance_scale : Option v3
  Instance_color : Option v3
  Destroy : Bool
  Add_instance_open : Bool
  Additional_position : Option v3
  Additional_rotation : Option v3
  Additional_scale : Option v3
  Additional_color : Option v3
  Add : Bool

/-- Counter, selected index and lengths of the three CPU lists at one moment. -/
structure Extent where
  InstanceCount : Nat
  InstanceIndex : Nat
  InstanceTransform : Nat
  InstanceModel : Nat
  InstanceColor : Nat
deriving DecidableEq

/-- The extent of an instance set. -/
def demo_instancing.extent (s : GraphicalEffects.demo_instancing) : Extent :=
  ⟨s.InstanceCount, s.InstanceIndex, s.InstanceTransform.length, s.InstanceModel.length,
    s.InstanceColor.length⟩

/-- What `DisplayDebugUI` does to the instance set, each with the extent it happens at:
an indexing `InstanceTransform[InstanceIndex]` or `InstanceColor[InstanceIndex]`, a call of
`UpdateInstanceAttributes` or `DestroyInstanceAttributes` (extent at the call), and the end of
a mutation (count change, edit, addition, removal; extent after it). -/
inductive UIEvent where
  | indexTransform (e : Extent)
  | indexColor (e : Extent)
  | callUpdate (e : Extent)
  | callDestroy (e : Extent)
  | mutated (e : Extent)
deriving DecidableEq

/-- Sequencing of two parts of the frame: the second runs on the state the first leaves, the
events are concatenated, and an undefined part makes the whole undefined. -/
def andThen (a : Option (demo_instancing × List UIEvent))
    (f : demo_instancing → Option (demo_instancing × List UIEvent)) :
    Option (demo_instancing × List UIEvent) :=
  a.bind fun r => (f r.1).map fun r1 => (r1.1, r.2 ++ r1.2)

/-- Lines 281-285 of `demo_instancing.cpp`: the `DragInt` on `(int*)&InstanceCount`; when it
reports a change, `InstanceIndex = 0` and `SetInstanceAttributes()`. -/
def DisplayDebugUI.instances (GetModelMatrix : Transform → mat4) (ui : DebugUI)
    (s : demo_instancing) : Option (demo_instancing × List UIEvent) :=
  match ui.Instances with
  | none => some (s, [])
  | some n =>
    (SetInstanceAttributes GetModelMatrix ui.rnd
      { s with InstanceCount := asUnsigned n, InstanceIndex := 0 }).map fun s1 =>
        (s1, [.mutated s1.extent])

/-- One `if (ImGui::DragFloat3(label, InstanceTransform[InstanceIndex].f.e))
UpdateInstanceAttributes();` (`demo_instancing.cpp:291-296`): the vector is indexed to pass
the field to the widget, whether or not the widget changes it; indexing past the end of the
vector is undefined. `put` writes the field `f` of the transform. -/
def DisplayDebugUI.editTransform (GetModelMatrix : Transform → mat4) (w : Option v3)
    (put : Transform → v3 → Transform) (s : demo_instancing) :
    Option (demo_instancing × List UIEvent) :=
  match s.InstanceTransform[s.InstanceIndex]? with
  | none => none
  | some tf =>
    match w with
    | none => some (s, [.indexTransform s.extent])
    | some v =>
      let s1 : demo_instancing :=
        { s with InstanceTransform := s.InstanceTransform.set s.InstanceIndex (put tf v) }
      (UpdateInstanceAttributes GetModelMatrix s1).map fun s2 =>
        (s2, [.indexTransform s.extent, .callUpdate s1.extent, .mutated s2.extent])

/-- The statement `if (ImGui::DragFloat3("Instance color", InstanceColor[InstanceIndex].e, ...))
UpdateInstanceAttributes();` (`demo_instancing.cpp:298-299`). -/
def DisplayDebugUI.editColor (GetModelMatrix : Transform → mat4) (w : Option v3)
    (s : demo_instancing) : Option (demo_instancing × List UIEvent) :=
  match s.InstanceColor[s.InstanceIndex]? with
  | none => none
  | some _ =>
    match w with
    | none => some (s, [.indexColor s.extent])
    | some v =>
      let s1 : demo_instancing :=
        { s with InstanceColor := s.InstanceColor.set s.InstanceIndex v }
      (UpdateInstanceAttributes GetModelMatrix s1).map fun s2 =>
        (s2, [.indexColor s.extent, .callUpdate s1.extent, .mutated s2.extent])

/-- The statement `if (ImGui::Button("Destroy")) DestroyInstanceAttributes();`
(`demo_instancing.cpp:301-302`). -/
def DisplayDebugUI.destroy (ui : DebugUI) (s : demo_instancing) :
    Option (demo_instancing × List UIEvent) :=
  if ui.Destroy then
    (DestroyInstanceAttributes s).map fun s1 => (s1, [.callDestroy s.extent, .mutated s1.extent])
  else some (s, [])

/-- The block `if (InstanceCount) { ... }` (`demo_instancing.cpp:287-303`): the slider on
`(int*)&InstanceIndex` with bounds `0` and `InstanceCount - 1` (an unsigned subtraction,
converted to `int`), the four edits in source order, then the Destroy button. -/
def DisplayDebugUI.selected (GetModelMatrix : Transform → mat4) (ui : DebugUI)
    (s : demo_instancing) : Option (demo_instancing × List UIEvent) :=
  if s.InstanceCount ≠ 0 then
    let s0 : demo_instancing :=
      match ui.Instance_index (asInt ((s.InstanceCount + UINT_RANGE - 1) % UINT_RANGE)) with
      | some v => { s with InstanceIndex := asUnsigned v }
      | none => s
    andThen (andThen (andThen (andThen
      (DisplayDebugUI.editTransform GetModelMatrix ui.Instance_position
        (fun tf v => { tf with t := v }) s0)
      (DisplayDebugUI.editTransform GetModelMatrix ui.Instance_rotation
        (fun tf v => { tf with r := v })))
      (DisplayDebugUI.editTransform GetModelMatrix ui.Instance_scale
        (fun tf v => { tf with s := v })))
      (DisplayDebugUI.editColor GetModelMatrix ui.Instance_color))
      (DisplayDebugUI.destroy ui)
  else some (s, [])

/-- The tree node "Add instance" (`demo_instancing.cpp:305-316`): four widgets on the record to
add, then `if (ImGui::Button("Add")) AddInstanceAttributes();`. -/
def DisplayDebugUI.addInstance (GetModelMatrix : Transform → mat4) (ui : DebugUI)
    (s : demo_instancing) : Option (demo_instancing × List UIEvent) :=
  if ui.Add_instance_open then
    let s1 : demo_instancing :=
      { s with
        InstanceAdditionalTransform :=
          { t := ui.Additional_position.getD s.InstanceAdditionalTransform.t
            r := ui.Additional_rotation.getD s.InstanceAdditionalTransform.r
            s := ui.Additional_scale.getD s.InstanceAdditionalTransform.s }
        InstanceAdditionalColor := ui.Additional_color.getD s.InstanceAdditionalColor }
    if ui.Add then
      (AddInstanceAttributes GetModelMatrix s1).map fun s2 => (s2, [.mutated s2.extent])
    else some (s1, [])
  else some (s, [])

/-- One frame of `demo_instancing::DisplayDebugUI` (`demo_instancing.cpp:265-323`): the final
instance set and the events of the frame in order, or `none` when the frame runs into undefined
behaviour. The "Camera" node only prints. -/
def DisplayDebugUI (GetModelMatrix : Transform → mat4) (ui : DebugUI) (s : demo_instancing) :
    Option (demo_instancing × List UIEvent) :=
  if ui.demo_instancing_open && ui.Instancing_open then
    andThen (andThen (DisplayDebugUI.instances GetModelMatrix ui s)
      (DisplayDebugUI.selected GetModelMatrix ui))
      (DisplayDebugUI.addInstance GetModelMatrix ui)
  else some (s, [])

/-- A sequence of frames, one `DisplayDebugUI` call each. -/
def runFrames (GetModelMatrix : Transform → mat4) :
    List DebugUI → demo_instancing → Option (demo_instancing × List UIEvent)
  | [], s => some (s, [])
  | ui :: rest, s => andThen (DisplayDebugUI GetModelMatrix ui s) (runFrames GetModelMatrix rest)

/-- The widgets return values inside their declared ranges: `DragInt("Instances", ..., 0, 9999)`
and `SliderInt("Instance index", ..., 0, v_max)`. -/
def DebugUI.inRange (ui : DebugUI) : Prop :=
  (∀ n, ui.Instances = some n → 0 ≤ n ∧ n ≤ 9999) ∧
  (∀ v_max v, ui.Instance_index v_max = some v → 0 ≤ v ∧ v ≤ v_max)

/-- The bounds an event is expected to happen in: an indexing and a call of
`UpdateInstanceAttributes` or `DestroyInstanceAttributes` with `InstanceCount > 0` and
`InstanceIndex < InstanceCount = list length`; the end of a mutation with `InstanceCount = 0` or
`InstanceIndex < InstanceCount`. -/
def UIEvent.inBounds : UIEvent → Prop
  | .mutated e => e.InstanceCount = 0 ∨ e.InstanceIndex < e.InstanceCount
  | .indexTransform e | .indexColor e | .callUpdate e | .callDestroy e =>
    0 < e.InstanceCount ∧ e.InstanceIndex < e.InstanceCount ∧
    e.InstanceTransform = e.InstanceCount ∧ e.InstanceModel = e.InstanceCount ∧
    e.InstanceColor = e.InstanceCount

instance (e : UIEvent) : Decidable e.inBounds := by
  cases e <;> unfold UIEvent.inBounds <;> infer_instance

/-- An instance set between two frames: the lists have `InstanceCount` entries, the selected
index is below `InstanceCount` or both are zero, and the counter is at most `B`. -/
def Within (B : Nat) (s : demo_instancing) : Prop :=
  Sized s ∧ (s.InstanceIndex < s.InstanceCount ∨ (s.InstanceCount = 0 ∧ s.InstanceIndex = 0)) ∧
  s.InstanceCount ≤ B

instance (B : Nat) (s : demo_instancing) : Decidable (Within B s) := by
  unfold Within; infer_instance

/-- A frame in which only the "Add" button is pressed. -/
def addFrame : DebugUI :=
  { demo_instancing_open := true
    Instancing_open := true
    Instances := none
    rnd := sampleRng
    Instance_index := fun _ => none
    Instance_position := none
    Instance_rotation := none
    Instance_scale := none
    Instance_color := none
    Destroy := false
    Add_instance_open := true
    Additional_position := none
    Additional_rotation := none
    Additional_scale := none
    Additional_color := none
    Add := true }

/-- A frame with the nodes open and no widget touched. -/
def idleFrame : DebugUI := { addFrame with Add := false }

/-- A frame that sets the count to 3, selects instance 1, moves it, destroys it and adds an
instance. -/
def busyFrame : DebugUI :=
  { addFrame with
    Instances := some 3
    Instance_index := fun v_max => if 1 ≤ v_max then some 1 else none
    Instance_position := some (sampleColor 9 9 9)
    Destroy := true }

/-- An instance set inside the block `if (InstanceCount)`: the lists have `InstanceCount`
entries, the selected index is below `InstanceCount`, and the counter is at most `B`. -/
def Selectable (B : Nat) (s : demo_instancing) : Prop :=
  Sized s ∧ s.InstanceIndex < s.InstanceCount ∧ s.InstanceCount ≤ B

/-- Part `f` of the frame, entered in a state with `P`, returns, leaves a state with `Q`, and
each of its events is in bounds. -/
def Leads (P Q : demo_instancing → Prop)
    (f : demo_instancing → Option (demo_instancing × List UIEvent)) : Prop :=
  ∀ s, P s → ∃ s1 log, f s = some (s1, log) ∧ Q s1 ∧ ∀ e ∈ log, e.inBounds

/-! ## GL object names and their lifetime -/

/-- The kinds of GL object the two demos create. -/
inductive ObjectKind where
  | Texture
  | Framebuffer
  | VertexArray
  | Buffer
  | Program
deriving DecidableEq

/-- The object names of a GL context: `live` holds each name that was generated and not deleted
since, `deleted` every non-zero name passed to a `glDelete*` call so far, in call order. -/
structure Objects where
  live : List (ObjectKind × GLuint)
  deleted : List (ObjectKind × GLuint)
deriving DecidableEq

/-- A name of kind `k` that was never in use: one above the largest name of that kind seen so
far. -/
def Objects.unused (o : Objects) (k : ObjectKind) : GLuint :=
  (o.live ++ o.deleted).foldl (fun m p => if p.1 = k then max m p.2 else m) 0 + 1

/-- One name returned by `glGenTextures`, `glGenFramebuffers`, `glGenVertexArrays` or
`glGenBuffers` (a call with `n = 2` is two of these). -/
def glGen (k : ObjectKind) (o : Objects) : GLuint × Objects :=
  (o.unused k, { o with live := o.live ++ [(k, o.unused k)] })

/-- One name passed to `glDeleteTextures`, `glDeleteFramebuffers`, `glDeleteVertexArrays`,
`glDeleteBuffers` or `glDeleteProgram`; the name 0 is silently ignored. -/
def glDelete (k : ObjectKind) (name : GLuint) (o : Objects) : Objects :=
  if name = 0 then o
  else { live := o.live.erase (k, name), deleted := o.deleted ++ [(k, name)] }

set_option linter.dupNamespace false in
/-- The object creation of the constructor `demo_postprocess::demo_postprocess`
(`demo_postprocess.cpp:186-330`), with the default member initialisers of
`demo_postprocess.h:33-59`. `CreateProgramEx` stands for `GL::CreateProgramEx`, which returns
the name of the program it creates. -/
def demo_postprocess.demo_postprocess (CreateProgramEx : Objects → GLuint × Objects)
    (TavernScene : tavern_scene) (o : Objects) : demo_postprocess × Objects :=
  let (TavernProgram, o) := CreateProgramEx o
  let (PostProcessProgram, o) := CreateProgramEx o
  let (RenderProgram, o) := CreateProgramEx o
  let (TavernVAO, o) := glGen .VertexArray o
  let (RawRenderTex, o) := glGen .Texture o
  let (RenderDepthMap, o) := glGen .Texture o
  let (ppRenderTex0, o) := glGen .Texture o
  let (ppRenderTex1, o) := glGen .Texture o
  let (FBO, o) := glGen .Framebuffer o
  let (ppFBO0, o) := glGen .Framebuffer o
  let (ppFBO1, o) := glGen .Framebuffer o
  let (VBO, o) := glGen .Buffer o
  let (RenderVAO, o) := glGen .VertexArray o
  let o := glDelete .Buffer VBO o
  ({ TavernProgram := TavernProgram
     TavernVAO := TavernVAO
     TavernScene := TavernScene
     RenderVAO := RenderVAO
     RenderProgram := RenderProgram
     FBO := FBO
     RawRenderTex := RawRenderTex
     RenderDepthMap := RenderDepthMap
     RenderResolution := 1024
     pp := false
     PostProcessProgram := PostProcessProgram
     ppFBO := fun i => if i = 0 then ppFBO0 else ppFBO1
     ppRenderTex := fun i => if i = 0 then ppRenderTex0 else ppRenderTex1
     PostProcessCount := 1 }, o)

/-- The destructor `demo_postprocess::~demo_postprocess` (`demo_postprocess.cpp:332-341`). -/
def demo_postprocess.destructor (s : GraphicalEffects.demo_postprocess) (o : Objects) :
    Objects :=
  let o := glDelete .VertexArray s.TavernVAO o
  let o := glDelete .VertexArray s.RenderVAO o
  let o := glDelete .Program s.TavernProgram o
  let o := glDelete .Program s.PostProcessProgram o
  glDelete .Framebuffer s.FBO o

set_option linter.dupNamespace false in
/-- The object creation of the constructor `demo_shadowmap::demo_shadowmap`
(`demo_shadowmap.cpp:185-278`), with the default member initialisers of
`demo_shadowmap.h:30-47`. -/
def demo_shadowmap.demo_shadowmap (CreateProgramEx : Objects → GLuint × Objects)
    (TavernScene : tavern_scene) (o : Objects) : demo_shadowmap × Objects :=
  let (TavernProgram, o) := CreateProgramEx o
  let (DepthProgram, o) := CreateProgramEx o
  let (RenderProgram, o) := CreateProgramEx o
  let (TavernVAO, o) := glGen .VertexArray o
  let (DepthFBO, o) := glGen .Framebuffer o
  let (DepthMap, o) := glGen .Texture o
  let (VBO, o) := glGen .Buffer o
  let (RenderVAO, o) := glGen .VertexArray o
  let o := glDelete .Buffer VBO o
  ({ TavernProgram := TavernProgram
     DepthProgram := DepthProgram
     RenderProgram := RenderProgram
     TavernVAO := TavernVAO
     RenderVAO := RenderVAO
     DepthFBO := DepthFBO
     DepthMap := DepthMap
     DepthMapResolution := 1024
     TavernScene := TavernScene }, o)

/-- The destructor `demo_shadowmap::~demo_shadowmap` (`demo_shadowmap.cpp:280-289`). -/
def demo_shadowmap.destructor (s : GraphicalEffects.demo_shadowmap) (o : Objects) : Objects :=
  let o := glDelete .VertexArray s.TavernVAO o
  let o := glDelete .VertexArray s.RenderVAO o
  let o := glDelete .Framebuffer s.DepthFBO o
  let o := glDelete .Program s.TavernProgram o
  let o := glDelete .Program s.DepthProgram o
  glDelete .Program s.RenderProgram o

/-- How often a name was passed to a `glDelete*` call. -/
def Objects.deletions (o : Objects) (k : ObjectKind) (name : GLuint) : Nat :=
  o.deleted.count (k, name)

/-- A context without objects. -/
def noObjects : Objects := ⟨[], []⟩

/-- A stand-in for `GL::CreateProgramEx` on concrete inputs: one new program object. -/
def sampleCreateProgramEx (o : Objects) : GLuint × Objects := glGen .Program o

/-- A tavern scene with distinct object names. -/
def sampleScene : tavern_scene := ⟨1, 5, 6, 36⟩

/-! ## The shader configuration string -/

/-- What the conversion `%d` prints for an `int`. -/
def decimal (n : Int) : List Char :=
  if n < 0 then '-' :: Nat.toDigits 10 n.natAbs else Nat.toDigits 10 n.toNat

/-- The characters `printf` produces for a format whose conversions are `%d`, each printing
`arg`. -/
def format : List Char → Int → List Char
  | '%' :: 'd' :: rest, arg => decimal arg ++ format rest arg
  | c :: rest, arg => c :: format rest arg
  | [], _ => []

/-- The C string left in a buffer of `size` bytes by `snprintf(buffer, size, fmt, arg)`: at most
`size - 1` characters of the output are stored, followed by the terminator. `size` is positive
here (an array has at least the terminator of its initialiser). -/
def snprintf (size : Nat) (fmt : List Char) (arg : Int) : List Char :=
  (format fmt arg).take (size - 1)

/-- The string literal that initialises `FragmentShaderConfig` and is its format
(`demo_postprocess.cpp:192-193`, `demo_shadowmap.cpp:191-192`). -/
def FragmentShaderConfigFormat : List Char := "#define LIGHT_COUNT %d\n".toList

/-- The value `ARRAY_SIZE(FragmentShaderConfig)`: the characters of the initialiser and its
terminator. -/
def FragmentShaderConfigSize : Nat := FragmentShaderConfigFormat.length + 1

/-- The contents of `FragmentShaderConfig` after the `snprintf` call of both constructors, for
`TavernScene.LightCount = LightCount`. -/
def FragmentShaderConfig (LightCount : Int) : List Char :=
  snprintf FragmentShaderConfigSize FragmentShaderConfigFormat LightCount

/-- The configuration string as the specification words it: `#define LIGHT_COUNT `, the decimal
representation of `n`, and a newline. -/
def lightCountDefine (n : Int) : List Char :=
  "#define LIGHT_COUNT ".toList ++ decimal n ++ ['\n']

/-- The post-process demo constructed in a context without objects. -/
def constructedPostProcess : demo_postprocess × Objects :=
  demo_postprocess.demo_postprocess sampleCreateProgramEx sampleScene noObjects

/-- The shadow-map demo constructed in a context without objects. -/
def constructedShadowMap : demo_shadowmap × Objects :=
  demo_shadowmap.demo_shadowmap sampleCreateProgramEx sampleScene noObjects

/-! ## Vocabulary for the model matrices of the instances -/

/-- The condition under which a call is issued when only the selected index is constrained:
the index is below `InstanceCount` for an edit or a removal, and the `int` loop counter can
reach the requested count for a reset; an addition is not constrained. -/
def InstanceCall.indexInRange : InstanceCall → demo_instancing → Bool
  | .SetCount n _, _ => decide (n ≤ INT_MAX)
  | .Update i _ _, s => decide (i < s.InstanceCount)
  | .Add _ _, _ => true
  | .Destroy i, s => decide (i < s.InstanceCount)

/-- Every call of the sequence that is reached is issued with its index in range, in the state
it is issued in. -/
def allIndexInRange (GetModelMatrix : Transform → mat4) :
    List InstanceCall → demo_instancing → Bool
  | [], _ => true
  | c :: cs, s =>
    c.indexInRange s &&
      match c.run GetModelMatrix s with
      | some s1 => allIndexInRange GetModelMatrix cs s1
      | none => true

/-- Every instance below `InstanceCount` has a transform and its model matrix is
`GetModelMatrix` of that transform. -/
def Tracks (GetModelMatrix : Transform → mat4) (s : demo_instancing) : Prop :=
  ∀ i, i < s.InstanceCount →
    ∃ tf, s.InstanceTransform[i]? = some tf ∧ s.InstanceModel[i]? = some (GetModelMatrix tf)

/-- The invariant behind `Tracks`: the counter is an `unsigned int` not above the length of the
lists, the colour list is as long as the transform list, and the model list is the transform
list mapped through `GetModelMatrix`. -/
def Consistent (GetModelMatrix : Transform → mat4) (s : demo_instancing) : Prop :=
  s.InstanceCount < UINT_RANGE ∧ s.InstanceCount ≤ s.InstanceTransform.length ∧
  s.InstanceColor.length = s.InstanceTransform.length ∧
  s.InstanceModel = s.InstanceTransform.map GetModelMatrix

/-! ## Vocabulary for pass isolation and construction -/

/-- The calls of `RenderTavernFBO` in front of its draw call (`demo_postprocess.cpp:415-443`):
the context in which the draw is issued. -/
def RenderTavernFBO.beforeDraw (s : demo_postprocess) (g : Context) : Context :=
  let g := g.call (.glViewport 0 0 s.RenderResolution s.RenderResolution)
  let g := g.call (.glBindFramebuffer s.FBO)
  let g := g.call .glClearColor
  let g := g.call .glClear
  let g := g.call .glEnable
  let g := g.call (.glUseProgram s.TavernProgram)
  let g := g.call (.glUniform s.TavernProgram .uProjection)
  let g := g.call (.glUniform s.TavernProgram .uModel)
  let g := g.call (.glUniform s.TavernProgram .uView)
  let g := g.call (.glUniform s.TavernProgram .uModelNormalMatrix)
  let g := g.call (.glUniform s.TavernProgram .uViewPosition)
  let g := g.call (.glBindBufferBase 0 s.TavernScene.LightsUniformBuffer)
  let g := g.call (.glActiveTexture 0)
  let g := g.call (.glBindTexture s.TavernScene.DiffuseTexture)
  let g := g.call (.glActiveTexture 1)
  let g := g.call (.glBindTexture s.TavernScene.EmissiveTexture)
  let g := g.call (.glActiveTexture 0)
  g.call (.glBindVertexArray s.TavernVAO)

/-- The draw of `demo_shadowmap::RenderTavern` entered with context `g`, in closed form. -/
def tavernDraw (s : demo_shadowmap) (g : ShadowContext) : ShadowDraw :=
  { program := s.TavernProgram
    framebuffer := g.Framebuffer
    depthTarget := if g.Framebuffer = 0 then 0 else g.DepthAttachment g.Framebuffer
    unit0 := s.TavernScene.DiffuseTexture
    unit1 := s.TavernScene.EmissiveTexture
    unit2 := s.DepthMap
    vertexArray := s.TavernVAO
    viewport := g.Viewport }

/-- A context with framebuffer 2 bound, texture unit 1 active and texture 9 bound to every
unit. -/
def foreignContext : Context :=
  { sampleContext with Framebuffer := 2, ActiveTexture := 1, TextureBinding2D := fun _ => 9 }

/-- A shadow-map context with the depth framebuffer left bound. -/
def foreignShadowContext : ShadowContext :=
  { sampleShadowContext with Framebuffer := sampleShadowMap.DepthFBO }

/-- A `GL::CreateProgramEx` whose program creation fails: no object is created and the name
returned is 0. -/
def failedCreateProgramEx (o : Objects) : GLuint × Objects := (0, o)

/-- The post-process demo constructed while every program creation fails. -/
def failedPostProcess : demo_postprocess :=
  (demo_postprocess.demo_postprocess failedCreateProgramEx sampleScene noObjects).1

/-- The shadow-map demo constructed while every program creation fails. -/
def failedShadowMap : demo_shadowmap :=
  (demo_shadowmap.demo_shadowmap failedCreateProgramEx sampleScene noObjects).1

/-! ## The filter shader of `demo_postprocess` -/

/-- Component-wise sum of two `vec2`. -/
def vec2.add {F : Type} [Add F] (a b : vec2 F) : vec2 F := ⟨a.x + b.x, a.y + b.y⟩

instance {F : Type} [Add F] : Add (vec2 F) := ⟨vec2.add⟩

/-- Product of a `vec3` and a `float`. -/
def vec3.scaleRight {F : Type} [Mul F] (a : vec3 F) (s : F) : vec3 F :=
  ⟨a.x * s, a.y * s, a.z * s⟩

instance {F : Type} [Mul F] : HMul (vec3 F) F (vec3 F) := ⟨vec3.scaleRight⟩

/-- The GLSL conversion `vec3(v)` of a `vec4`: its first three components. -/
def vec4.rgb {F : Type} (v : vec4 F) : vec3 F := ⟨v.x, v.y, v.z⟩

/-- The host matrix `mat3`: nine floats `e[9]`, which are also the three columns `c[0..2]` of
three floats each, `c[j].e[k]` being `e[3 * j + k]` (the layout of `mat4`, `float e[16]` in
four columns). -/
structure mat3 (F : Type) where
  e : Fin 9 → F

/-- The position of `c[j].e[k]` in `e`. -/
def mat3.entry (j k : Fin 3) : Fin 9 := ⟨3 * j.val + k.val, by omega⟩

/-- The assignment `Kernel.e[i] = v`. -/
def mat3.set {F : Type} (m : mat3 F) (i : Fin 9) (v : F) : mat3 F := ⟨Function.update m.e i v⟩

/-- The kernel part of the constructor of `demo_postprocess` (`demo_postprocess.cpp:322-329`):
the loop `Kernel.e[i] = 0.f` over `i = 0..8`, then `Kernel.c[1].e[1] = 1.f`. `Kernel` is the
member before the loop (it has no initialiser). -/
def initKernel {F : Type} [LinearOrderedField F] (Kernel : mat3 F) : mat3 F :=
  let Kernel := (List.finRange 9).foldl (fun K i => K.set i 0.0) Kernel
  Kernel.set (mat3.entry 1 1) 1.0

/-- The GLSL `mat3` set by `glUniformMatrix3fv(location, 1, GL_FALSE, value)`: without
transposition, column `j` holds `value[3 * j .. 3 * j + 2]`; GLSL `m[j][k]` is entry `k` of
column `j`. -/
def glUniformMatrix3fv {F : Type} (value : Fin 9 → F) (j k : Fin 3) : F := value (mat3.entry j k)

/-- The array `offsets` of the filter shader (`demo_postprocess.cpp:126-136`). -/
def postprocess_offsets {F : Type} [LinearOrderedField F] (uOffset : F) : Fin 9 → vec2 F :=
  ![⟨-uOffset, uOffset⟩, ⟨0.0, uOffset⟩, ⟨uOffset, uOffset⟩,
    ⟨-uOffset, 0.0⟩, ⟨0.0, 0.0⟩, ⟨uOffset, 0.0⟩,
    ⟨-uOffset, -uOffset⟩, ⟨0.0, -uOffset⟩, ⟨uOffset, -uOffset⟩]

/-- The function `main` of the filter's fragment shader (`demo_postprocess.cpp:124-151`).
`uRenderTex` is what `texture(uRenderTex, _)` returns at given coordinates. -/
def postprocess_main {F : Type} [LinearOrderedField F] (uRenderTex : vec2 F → vec4 F)
    (uOffset : F) (uKernel : Fin 3 → Fin 3 → F) (vUV : vec2 F) : vec4 F :=
  let offsets := postprocess_offsets uOffset
  let surroundingFrags : Fin 9 → vec3 F := fun i => (uRenderTex (vUV + offsets i)).rgb
  let blendedColor : vec3 F := (List.finRange 9).foldl (fun blendedColor i =>
    blendedColor + surroundingFrags i
      * uKernel ⟨i.val / 3, by omega⟩ ⟨i.val % 3, by omega⟩) ⟨0.0, 0.0, 0.0⟩
  ⟨blendedColor.x, blendedColor.y, blendedColor.z, 1.0⟩

/-- One filter iteration as a map on textures: the colour written for the fragment at `vUV`
when `RenderPingPong` has uploaded `PostProcessOffset` and `Kernel`
(`demo_postprocess.cpp:453-454`); the texture written is read back at the coordinates of the
fragment. -/
def filterPass {F : Type} [LinearOrderedField F] (PostProcessOffset : F) (Kernel : mat3 F)
    (uRenderTex : vec2 F → vec4 F) : vec2 F → vec4 F :=
  fun vUV => postprocess_main uRenderTex PostProcessOffset (glUniformMatrix3fv Kernel.e) vUV

/-- A texture whose colour varies with the coordinates. -/
def sampleTexture : vec2 ℚ → vec4 ℚ := fun c => ⟨c.x, c.y, c.x + c.y, 1 / 2⟩

/-- A kernel member holding other values before the constructor runs. -/
def sampleKernelMemory : mat3 ℚ := ⟨fun i => (i.val : ℚ) + 7⟩

/-! ## The vertex shaders of `demo_shadowmap` and the matrices of a frame -/

/-- The GLSL constructor `vec4(v, w)` from a `vec3` and a `float`. -/
def vec4.ofVec3 {F : Type} (v : vec3 F) (w : F) : vec4 F := ⟨v.x, v.y, v.z, w⟩

/-- A `vec4` as a column of four entries. -/
def vec4.toColumn {F : Type} (v : vec4 F) : Fin 4 → F := ![v.x, v.y, v.z, v.w]

/-- The `vec4` made of the four entries of a column. -/
def vec4.ofColumn {F : Type} (c : Fin 4 → F) : vec4 F := ⟨c 0, c 1, c 2, c 3⟩

/-- The GLSL product `mat4 * vec4`; a `mat4` is a 4 by 4 matrix and `mat4 * mat4` is the
matrix product. -/
def mulVec4 {F : Type} [LinearOrderedField F] (m : Matrix (Fin 4) (Fin 4) F) (v : vec4 F) :
    vec4 F :=
  vec4.ofColumn (m.mulVec v.toColumn)

/-- The function `main` of the depth stage's vertex shader (`demo_shadowmap.cpp:136-146`):
the value of `gl_Position`. -/
def depth_vertex_main {F : Type} [LinearOrderedField F]
    (uModel uLightSpaceMatrix : Matrix (Fin 4) (Fin 4) F) (aPos : vec3 F) : vec4 F :=
  mulVec4 (uLightSpaceMatrix * uModel) (vec4.ofVec3 aPos 1.0)

/-- The outputs of the lit stage's vertex shader that depend on the position only. -/
structure tavern_vertex_result (F : Type) where
  vLightSpace : vec4 F
  gl_Position : vec4 F

/-- The function `main` of the lit stage's vertex shader (`demo_shadowmap.cpp:44-53`);
`vUV`, `vPos` and `vNormal` are left out. -/
def tavern_vertex_main {F : Type} [LinearOrderedField F]
    (uProjection uModel uView uLightSpaceMatrix : Matrix (Fin 4) (Fin 4) F)
    (aPosition : vec3 F) : tavern_vertex_result F :=
  let pos4 := mulVec4 uModel (vec4.ofVec3 aPosition 1.0)
  { vLightSpace := mulVec4 uLightSpaceMatrix pos4
    gl_Position := mulVec4 (uProjection * uView) pos4 }

/-- The member `LightRange` of `demo_shadowmap` (`demo_shadowmap.h:45`); no statement of
`demo_shadowmap.cpp` writes it. -/
def LightRange {F : Type} [LinearOrderedField F] : F := 10.0

/-- The functions of the host maths library used by `demo_shadowmap::Update`: the product of
two `mat4`, `Mat4::Orthographic`, `Mat4::LookAt` and `Mat4::Translate`. They are not among
the demo sources and are taken as they come. -/
structure Mat4 (F : Type) where
  mul : Matrix (Fin 4) (Fin 4) F → Matrix (Fin 4) (Fin 4) F → Matrix (Fin 4) (Fin 4) F
  Orthographic : F → F → F → F → F → F → Matrix (Fin 4) (Fin 4) F
  LookAt : vec3 F → vec3 F → vec3 F → Matrix (Fin 4) (Fin 4) F
  Translate : vec3 F → Matrix (Fin 4) (Fin 4) F

/-- The matrices `demo_shadowmap::Update` passes to its two passes
(`demo_shadowmap.cpp:301-308`). -/
structure shadow_frame (F : Type) where
  ProjectionMatrix : Matrix (Fin 4) (Fin 4) F
  ViewMatrix : Matrix (Fin 4) (Fin 4) F
  ModelMatrix : Matrix (Fin 4) (Fin 4) F
  LightSpaceMatrix : Matrix (Fin 4) (Fin 4) F

/-- The matrix computations of `demo_shadowmap::Update` (`demo_shadowmap.cpp:301-308`).
`ProjectionMatrix` and `ViewMatrix` come from the window and the camera, `LightPos` is
`TavernScene.GetLightPositionFromIndex(0)`. -/
def demo_shadowmap.frame {F : Type} [LinearOrderedField F] (M : Mat4 F)
    (ProjectionMatrix ViewMatrix : Matrix (Fin 4) (Fin 4) F) (LightPos : vec3 F) :
    shadow_frame F :=
  let ModelMatrix := M.Translate ⟨0.0, 0.0, 0.0⟩
  let LightProjectionMatrix :=
    M.Orthographic (-LightRange) LightRange (-LightRange) LightRange (-LightRange) LightRange
  let LightViewMatrix := M.LookAt LightPos ⟨0.0, 0.0, 0.0⟩ ⟨0.0, 1.0, 0.0⟩
  let LightSpaceMatrix := M.mul LightProjectionMatrix LightViewMatrix
  { ProjectionMatrix := ProjectionMatrix
    ViewMatrix := ViewMatrix
    ModelMatrix := ModelMatrix
    LightSpaceMatrix := LightSpaceMatrix }

/-- The value of `gl_Position` in the depth stage of a frame: `RenderTavernDepthMap` uploads
`ModelMatrix` as `uModel` and `LightSpaceMatrix` as `uLightSpaceMatrix`
(`demo_shadowmap.cpp:401-402`). -/
def depthStage {F : Type} [LinearOrderedField F] (f : shadow_frame F) (aPos : vec3 F) :
    vec4 F :=
  depth_vertex_main f.ModelMatrix f.LightSpaceMatrix aPos

/-- The outputs of the vertex shader in the lit stage of a frame: `RenderTavern` uploads
`ProjectionMatrix`, `ModelMatrix`, `ViewMatrix` and `LightSpaceMatrix` as `uProjection`,
`uModel`, `uView` and `uLightSpaceMatrix` (`demo_shadowmap.cpp:368-372`). -/
def litStage {F : Type} [LinearOrderedField F] (f : shadow_frame F) (aPosition : vec3 F) :
    tavern_vertex_result F :=
  tavern_vertex_main f.ProjectionMatrix f.ModelMatrix f.ViewMatrix f.LightSpaceMatrix aPosition

/-- A maths library on the rationals: matrix product, a diagonal scaling for the orthographic
projection, and translations for `LookAt` and `Translate`. -/
def sampleMat4 : Mat4 ℚ :=
  { mul := fun a b => a * b
    Orthographic := fun l r b t n f =>
      Matrix.diagonal ![2 / (r - l), 2 / (t - b), -2 / (f - n), 1]
    LookAt := fun eye _ _ =>
      !![1, 0, 0, -eye.x; 0, 1, 0, -eye.y; 0, 0, 1, -eye.z; 0, 0, 0, 1]
    Translate := fun v => !![1, 0, 0, v.x; 0, 1, 0, v.y; 0, 0, 1, v.z; 0, 0, 0, 1] }

/-! ## `demo_skybox` -/

/-- The members of `demo_skybox` used while rendering (`demo_skybox.h:20-31`). -/
structure demo_skybox where
  Program : GLuint
  SkyboxProgram : GLuint
  cubemapTexture : GLuint
  VAO : GLuint
  skyboxVAO : GLuint
  refractive : Bool
deriving DecidableEq

/-- The uniforms `demo_skybox` sets. -/
inductive SkyboxUniform where
  | uViewProj
  | uModel
  | uCameraPos
  | uRefractive
  | uTime
deriving DecidableEq

/-- The GL calls issued by `demo_skybox::Update`; `glDepthFunc` is called with `GL_LEQUAL`
(`true`) or `GL_LESS` (`false`). `DrawAxisGizmo` stands for the call into the debug renderer
(`demo_skybox.cpp:278`). -/
inductive SkyboxCall where
  | glEnable
  | glClearColor
  | glClear
  | glUseProgram (program : GLuint)
  | glBindTexture (texture : GLuint)
  | glBindVertexArray (array : GLuint)
  | glDepthFunc (lequal : Bool)
  | glUniformMatrix4fv (program : GLuint) (uniform : SkyboxUniform) (value : mat4)
  | glUniform3f (program : GLuint) (uniform : SkyboxUniform) (x y z : float)
  | glUniform1i (program : GLuint) (uniform : SkyboxUniform) (value : Bool)
  | glUniform1f (program : GLuint) (uniform : SkyboxUniform)
  | glDrawArrays (first count : Int)
  | DrawAxisGizmo
deriving DecidableEq

/-- The function `DrawCube` (`demo_skybox.cpp:229-236`). -/
def DrawCube (Program : GLuint) (ViewProj Model : mat4) (cameraPos : v3) (refractive : Bool) :
    List SkyboxCall :=
  [.glUniformMatrix4fv Program .uViewProj ViewProj,
    .glUniformMatrix4fv Program .uModel Model,
    .glUniform3f Program .uCameraPos cameraPos.x cameraPos.y cameraPos.z,
    .glUniform1i Program .uRefractive refractive,
    .glDrawArrays 0 36]

/-- The function `DrawSkybox` (`demo_skybox.cpp:238-244`). -/
def DrawSkybox (Program : GLuint) (ViewProj : mat4) : List SkyboxCall :=
  [.glDepthFunc true,
    .glUniformMatrix4fv Program .uViewProj ViewProj,
    .glDrawArrays 0 36,
    .glDepthFunc false]

/-- The statements `mat4 view = ViewMatrix; view.c[3].xyz = v3{ 0, 0, 0 };`
(`demo_skybox.cpp:262-263`). -/
def skyboxView (ViewMatrix : mat4) : mat4 :=
  { ViewMatrix with
    c3 := { ViewMatrix.c3 with x := float.zero, y := float.zero, z := float.zero } }

/-- The `float` `-3.f`, by its object representation (little endian `0xC0400000`). -/
def float.minusThree : float := ⟨0, 0, 64, 192⟩

/-- The method `demo_skybox::Update` (`demo_skybox.cpp:246-289`) as the list of GL calls it
issues, in order. `Camera` is the camera after `CameraUpdateFreefly`, `Position` its member
`Position`; `ProjectionMatrix` is what `Mat4::Perspective` returns for the window; `mul` is
the product of two `mat4`, `CameraGetInverseMatrix` and `Translate` are the functions of
these names: the camera and maths code is not among the demo sources. The debug UI, which
follows the last draw, is left out. -/
def demo_skybox.Update {camera : Type} (mul : mat4 → mat4 → mat4)
    (CameraGetInverseMatrix : camera → mat4) (Position : camera → v3) (Translate : v3 → mat4)
    (ProjectionMatrix : mat4) (s : demo_skybox) (Camera : camera) : List SkyboxCall :=
  let ViewMatrix := CameraGetInverseMatrix Camera
  let view := skyboxView ViewMatrix
  let ObjectPosition : v3 := ⟨float.zero, float.zero, float.minusThree⟩
  let ModelMatrix := Translate ObjectPosition
  [.glEnable, .glEnable, .glClearColor, .glClear,
    .glUseProgram s.SkyboxProgram, .glBindTexture s.cubemapTexture,
    .glBindVertexArray s.skyboxVAO]
  ++ DrawSkybox s.SkyboxProgram (mul ProjectionMatrix view)
  ++ [.glUseProgram s.Program, .glUniform1f s.Program .uTime,
    .glBindTexture s.cubemapTexture, .glBindVertexArray s.VAO, .DrawAxisGizmo]
  ++ DrawCube s.Program (mul ProjectionMatrix ViewMatrix) ModelMatrix (Position Camera)
      s.refractive

/-- The matrix uploaded as `uniform` of `program` by the last such upload in front of each
draw call of a list of calls, `none` for a draw without one. -/
def drawnWith (program : GLuint) (uniform : SkyboxUniform) :
    List SkyboxCall → Option mat4 → List (Option mat4)
  | [], _ => []
  | .glUniformMatrix4fv p u m :: rest, last =>
    drawnWith program uniform rest (if p = program ∧ u = uniform then some m else last)
  | .glDrawArrays _ _ :: rest, last => last :: drawnWith program uniform rest last
  | _ :: rest, last => drawnWith program uniform rest last

/-- Two view matrices differ at most in the x, y, z entries of their fourth column. -/
def SameUpToTranslation (V1 V2 : mat4) : Prop :=
  V1.c0 = V2.c0 ∧ V1.c1 = V2.c1 ∧ V1.c2 = V2.c2 ∧ V1.c3.w = V2.c3.w

instance (V1 V2 : mat4) : Decidable (SameUpToTranslation V1 V2) := by
  unfold SameUpToTranslation; infer_instance

/-- A skybox demo with distinct object names. -/
def sampleSkybox : demo_skybox :=
  { Program := 1, SkyboxProgram := 2, cubemapTexture := 3, VAO := 1, skyboxVAO := 2,
    refractive := false }

/-- A camera given by its position bytes: its view matrix has the identity rotation and the
position in the fourth column. -/
def sampleView (p : Byte) : mat4 :=
  { c0 := ⟨sampleFloat 1, float.zero, float.zero, float.zero⟩
    c1 := ⟨float.zero, sampleFloat 1, float.zero, float.zero⟩
    c2 := ⟨float.zero, float.zero, sampleFloat 1, float.zero⟩
    c3 := ⟨sampleFloat p, sampleFloat p, sampleFloat p, sampleFloat 1⟩ }

/-- A stand-in for the product of two `mat4` on concrete inputs: the columns of the second
matrix with the first column of the first one in front. -/
def sampleMul (a b : mat4) : mat4 := { c0 := a.c0, c1 := b.c1, c2 := b.c2, c3 := b.c3 }

/-! ## Serialisation lemmas -/

theorem float_bytes_length (f : float) : f.bytes.length = 4 := rfl

theorem v3_bytes_length (v : v3) : v.bytes.length = sizeof_v3 := rfl

theorem v4_bytes_length (v : v4) : v.bytes.length = 16 := rfl

theorem mat4_bytes_length (m : mat4) : m.bytes.length = sizeof_mat4 := rfl

theorem vectorData_nil {α : Type} (f : α → List Byte) : vectorData f [] = [] := rfl

theorem vectorData_cons {α : Type} (f : α → List Byte) (a : α) (l : List α) :
    vectorData f (a :: l) = f a ++ vectorData f l := rfl

theorem vectorData_append {α : Type} (f : α → List Byte) (l1 l2 : List α) :
    vectorData f (l1 ++ l2) = vectorData f l1 ++ vectorData f l2 := by
  induction l1 with
  | nil => rfl
  | cons a l ih => simp [vectorData_cons, ih]

theorem vectorData_length {α : Type} (f : α → List Byte) (k : Nat)
    (hk : ∀ a, (f a).length = k) (l : List α) :
    (vectorData f l).length = k * l.length := by
  induction l with
  | nil => simp [vectorData_nil]
  | cons a l ih => simp [vectorData_cons, ih, hk, Nat.mul_succ, Nat.add_comm]

theorem vectorData_take {α : Type} (f : α → List Byte) (k : Nat)
    (hk : ∀ a, (f a).length = k) (l : List α) (i : Nat) :
    (vectorData f l).take (k * i) = vectorData f (l.take i) := by
  induction l generalizing i with
  | nil => simp [vectorData_nil]
  | cons a l ih =>
    cases i with
    | zero => simp [vectorData_nil]
    | succ i =>
      have h : k * (i + 1) = (f a).length + k * i := by rw [hk a, Nat.mul_succ, Nat.add_comm]
      rw [vectorData_cons, List.take_succ_cons, vectorData_cons, h, List.take_append, ih]

theorem vectorData_drop {α : Type} (f : α → List Byte) (k : Nat)
    (hk : ∀ a, (f a).length = k) (l : List α) (i : Nat) :
    (vectorData f l).drop (k * i) = vectorData f (l.drop i) := by
  induction l generalizing i with
  | nil => simp [vectorData_nil]
  | cons a l ih =>
    cases i with
    | zero => simp
    | succ i =>
      have h : k * (i + 1) = (f a).length + k * i := by rw [hk a, Nat.mul_succ, Nat.add_comm]
      rw [vectorData_cons, List.drop_succ_cons, h, List.drop_append, ih]

theorem vectorData_set {α : Type} (f : α → List Byte) (k : Nat)
    (hk : ∀ a, (f a).length = k) (l : List α) (i : Nat) (x : α) (hi : i < l.length) :
    vectorData f (l.set i x) =
      (vectorData f l).take (k * i) ++ f x ++ (vectorData f l).drop (k * i + k) := by
  have h1 : k * i + k = k * (i + 1) := by rw [Nat.mul_succ]
  rw [h1, vectorData_take f k hk, vectorData_drop f k hk, List.set_eq_take_append_cons_drop,
    if_pos hi, vectorData_append, vectorData_cons, List.append_assoc]

theorem recordAt_vectorData {α : Type} (f : α → List Byte) (k : Nat)
    (hk : ∀ a, (f a).length = k) (l : List α) (i : Nat) (hi : i < l.length) :
    recordAt k (vectorData f l) i = f l[i] := by
  unfold recordAt
  rw [vectorData_drop f k hk, List.drop_eq_getElem_cons hi, vectorData_cons,
    List.take_left' (hk _)]

theorem getElem?_recordAt (k : Nat) (data : List Byte) (j r : Nat) (hr : r < k) :
    (recordAt k data j)[r]? = data[k * j + r]? := by
  unfold recordAt
  rw [List.getElem?_take, if_pos hr, List.getElem?_drop]

/-- Two buffers of `n` records that agree on every record but number `i` agree on every byte
outside the byte range of record `i`. -/
theorem bytes_eq_of_records_eq (k n i : Nat) (A B : List Byte) (hk : 0 < k)
    (hA : A.length = k * n) (hB : B.length = k * n)
    (h : ∀ j, j < n → j ≠ i → recordAt k A j = recordAt k B j)
    (p : Nat) (hp : p < k * i ∨ k * i + k ≤ p) : A[p]? = B[p]? := by
  by_cases hpn : p < k * n
  · have hj : p / k < n := (Nat.div_lt_iff_lt_mul hk).2 (by rw [Nat.mul_comm]; exact hpn)
    have hne : p / k ≠ i := by
      intro he
      have h1 : k * (p / k) ≤ p := Nat.mul_div_le p k
      have h2 : p < k * (p / k) + k := Nat.lt_mul_div_succ p hk |> fun h => by
        rw [Nat.mul_succ] at h; exact h
      rw [he] at h1 h2
      omega
    have hr : p % k < k := Nat.mod_lt p hk
    have hpe : k * (p / k) + p % k = p := Nat.div_add_mod p k
    have e := congrArg (fun l => l[p % k]?) (h (p / k) hj hne)
    simp only [getElem?_recordAt k _ _ _ hr, hpe] at e
    exact e
  · rw [List.getElem?_eq_none (by omega), List.getElem?_eq_none (by omega)]

theorem take_eq_of_records_eq (k n i : Nat) (A B : List Byte) (hk : 0 < k)
    (hA : A.length = k * n) (hB : B.length = k * n)
    (h : ∀ j, j < n → j ≠ i → recordAt k A j = recordAt k B j) :
    A.take (k * i) = B.take (k * i) := by
  apply List.ext_getElem?
  intro p
  rw [List.getElem?_take, List.getElem?_take]
  split
  · next hp => exact bytes_eq_of_records_eq k n i A B hk hA hB h p (Or.inl hp)
  · rfl

theorem drop_eq_of_records_eq (k n i : Nat) (A B : List Byte) (hk : 0 < k)
    (hA : A.length = k * n) (hB : B.length = k * n)
    (h : ∀ j, j < n → j ≠ i → recordAt k A j = recordAt k B j) :
    A.drop (k * i + k) = B.drop (k * i + k) := by
  apply List.ext_getElem?
  intro p
  rw [List.getElem?_drop, List.getElem?_drop]
  exact bytes_eq_of_records_eq k n i A B hk hA hB h _ (Or.inr (by omega))

/-! ## What each instance operation computes -/

theorem upload_fits {α : Type} (f : α → List Byte) (k : Nat) (hk : ∀ a, (f a).length = k)
    (l : List α) (n : Nat) (h : l.length = n) :
    k * n ≤ (vectorData f l).length ∧ (vectorData f l).take (k * n) = vectorData f l := by
  have hl := vectorData_length f k hk l
  rw [h] at hl
  exact ⟨by rw [hl], List.take_of_length_le (by rw [hl])⟩

/-- Both `glBufferData` uploads of a method, when each list has as many entries as the counter
says. -/
theorem reupload_eq (g : BufferState) (n : Nat) (M : List mat4) (C : List v3)
    (hM : M.length = n) (hC : C.length = n) :
    ((glBufferData (sizeof_mat4 * n) (vectorData mat4.bytes M)
        (glBindBuffer .InstanceTransformVBO g)).bind fun g1 =>
      glBufferData (sizeof_v3 * n) (vectorData v3.bytes C) (glBindBuffer .InstanceColorVBO g1))
      = some ⟨.InstanceColorVBO, vectorData mat4.bytes M, vectorData v3.bytes C⟩ := by
  obtain ⟨h1, h2⟩ := upload_fits mat4.bytes sizeof_mat4 mat4_bytes_length M n hM
  obtain ⟨h3, h4⟩ := upload_fits v3.bytes sizeof_v3 v3_bytes_length C n hC
  simp [glBufferData, glBindBuffer, BufferState.setBoundData, h1, h2, h3, h4]

theorem bind_bind_some {β γ δ : Type} {a : Option β} {b : β → Option γ} {k : γ → δ} {x : γ}
    (h : a.bind b = some x) :
    (a.bind fun u => (b u).bind fun v => some (k v)) = some (k x) := by
  cases a with
  | none => simp at h
  | some u => simp only [Option.some_bind] at h ⊢; rw [h]; rfl

theorem AddInstanceAttributes_eq (GetModelMatrix : Transform → mat4) (s : demo_instancing)
    (hs : Sized s) (hN : s.InstanceCount + 1 < UINT_RANGE) :
    AddInstanceAttributes GetModelMatrix s = some
      { s with
        InstanceTransform := s.InstanceTransform ++ [s.InstanceAdditionalTransform]
        InstanceModel := s.InstanceModel ++ [GetModelMatrix s.InstanceAdditionalTransform]
        InstanceColor := s.InstanceColor ++ [s.InstanceAdditionalColor]
        InstanceCount := s.InstanceCount + 1
        Buffers := ⟨.InstanceColorVBO,
          vectorData mat4.bytes
            (s.InstanceModel ++ [GetModelMatrix s.InstanceAdditionalTransform]),
          vectorData v3.bytes (s.InstanceColor ++ [s.InstanceAdditionalColor])⟩ } := by
  obtain ⟨_, _, hM, hC⟩ := hs
  have hmod : (s.InstanceCount + 1) % UINT_RANGE = s.InstanceCount + 1 := Nat.mod_eq_of_lt hN
  have hM1 : (s.InstanceModel ++ [GetModelMatrix s.InstanceAdditionalTransform]).length
      = s.InstanceCount + 1 := by simp [hM]
  have hC1 : (s.InstanceColor ++ [s.InstanceAdditionalColor]).length
      = s.InstanceCount + 1 := by simp [hC]
  have h := reupload_eq s.Buffers _ _ _ hM1 hC1
  unfold AddInstanceAttributes
  simp only [hmod]
  exact bind_bind_some h

theorem DestroyInstanceAttributes_eq (s : demo_instancing) (hs : Sized s)
    (hi : s.InstanceIndex < s.InstanceCount) :
    DestroyInstanceAttributes s = some
      { s with
        InstanceTransform := s.InstanceTransform.eraseIdx s.InstanceIndex
        InstanceModel := s.InstanceModel.eraseIdx s.InstanceIndex
        InstanceColor := s.InstanceColor.eraseIdx s.InstanceIndex
        InstanceCount := s.InstanceCount - 1
        InstanceIndex := 0
        Buffers := ⟨.InstanceColorVBO,
          vectorData mat4.bytes (s.InstanceModel.eraseIdx s.InstanceIndex),
          vectorData v3.bytes (s.InstanceColor.eraseIdx s.InstanceIndex)⟩ } := by
  obtain ⟨hR, hT, hM, hC⟩ := hs
  have hmod : (s.InstanceCount + UINT_RANGE - 1) % UINT_RANGE = s.InstanceCount - 1 := by
    have e : s.InstanceCount + UINT_RANGE - 1 = (s.InstanceCount - 1) + UINT_RANGE := by omega
    rw [e, Nat.add_mod_right]
    exact Nat.mod_eq_of_lt (by omega)
  have hM1 : (s.InstanceModel.eraseIdx s.InstanceIndex).length = s.InstanceCount - 1 := by
    rw [List.length_eraseIdx_of_lt (by omega), hM]
  have hC1 : (s.InstanceColor.eraseIdx s.InstanceIndex).length = s.InstanceCount - 1 := by
    rw [List.length_eraseIdx_of_lt (by omega), hC]
  have h := reupload_eq s.Buffers _ _ _ hM1 hC1
  unfold DestroyInstanceAttributes
  rw [if_pos ⟨by omega, by omega, by omega⟩]
  simp only [hmod]
  exact bind_bind_some h

theorem overwrite_length (offset : Nat) (new store : List Byte) :
    (overwrite offset new store).length = store.length := by
  unfold overwrite
  split
  · simp only [List.length_append, List.length_take, List.length_drop]; omega
  · rfl

theorem overwrite_getElem? (offset : Nat) (new store : List Byte) (p : Nat)
    (hp : p < offset ∨ offset + new.length ≤ p) :
    (overwrite offset new store)[p]? = store[p]? := by
  unfold overwrite
  split
  · next hfit =>
    rcases hp with hp | hp
    · rw [List.append_assoc, List.getElem?_append_left (by rw [List.length_take]; omega),
        List.getElem?_take_of_lt hp]
    · have h1 : (List.take offset store ++ new).length = offset + new.length := by
        rw [List.length_append, List.length_take]; omega
      rw [List.getElem?_append_right (by rw [h1]; exact hp), h1, List.getElem?_drop]
      congr 1
      omega
  · rfl

theorem recordAt_congr (k : Nat) (A B : List Byte) (j : Nat)
    (h : ∀ r, r < k → A[k * j + r]? = B[k * j + r]?) : recordAt k A j = recordAt k B j := by
  apply List.ext_getElem?
  intro r
  unfold recordAt
  rw [List.getElem?_take, List.getElem?_take]
  split
  · next hr => rw [List.getElem?_drop, List.getElem?_drop]; exact h r hr
  · rfl

theorem recordAt_overwrite (k i j : Nat) (new store : List Byte) (hn : new.length = k)
    (hj : j ≠ i) : recordAt k (overwrite (k * i) new store) j = recordAt k store j := by
  apply recordAt_congr
  intro r hr
  apply overwrite_getElem?
  rw [hn]
  rcases Nat.lt_or_gt_of_ne hj with h | h
  · left
    have := Nat.mul_le_mul_left k (Nat.succ_le_of_lt h)
    rw [Nat.mul_succ] at this
    omega
  · right
    have := Nat.mul_le_mul_left k (Nat.succ_le_of_lt h)
    rw [Nat.mul_succ] at this
    omega

theorem glBufferSubData_transform (g : BufferState) (offset : Nat) (m : mat4) :
    glBufferSubData offset sizeof_mat4 m.bytes (glBindBuffer .InstanceTransformVBO g) =
      some ⟨.InstanceTransformVBO, overwrite offset m.bytes g.InstanceTransformData,
        g.InstanceColorData⟩ := by
  unfold glBufferSubData overwrite
  simp only [mat4_bytes_length, Nat.le_refl, if_true, glBindBuffer, BufferState.boundData,
    BufferState.setBoundData]
  have ht : List.take sizeof_mat4 m.bytes = m.bytes :=
    List.take_of_length_le (by rw [mat4_bytes_length])
  split <;> simp [ht]

theorem glBufferSubData_color (g : BufferState) (offset : Nat) (c : v3) :
    glBufferSubData offset sizeof_v3 c.bytes (glBindBuffer .InstanceColorVBO g) =
      some ⟨.InstanceColorVBO, g.InstanceTransformData,
        overwrite offset c.bytes g.InstanceColorData⟩ := by
  unfold glBufferSubData overwrite
  simp only [v3_bytes_length, Nat.le_refl, if_true, glBindBuffer, BufferState.boundData,
    BufferState.setBoundData]
  have ht : List.take sizeof_v3 c.bytes = c.bytes :=
    List.take_of_length_le (by rw [v3_bytes_length])
  split <;> simp [ht]

theorem UpdateInstanceAttributes_eq (GetModelMatrix : Transform → mat4) (s : demo_instancing)
    (tf : Transform) (m0 : mat4) (c : v3)
    (hT : s.InstanceTransform[s.InstanceIndex]? = some tf)
    (hM : s.InstanceModel[s.InstanceIndex]? = some m0)
    (hC : s.InstanceColor[s.InstanceIndex]? = some c) :
    UpdateInstanceAttributes GetModelMatrix s = some
      { s with
        InstanceModel := s.InstanceModel.set s.InstanceIndex (GetModelMatrix tf)
        Buffers := ⟨.InstanceColorVBO,
          overwrite (sizeof_mat4 * s.InstanceIndex) (GetModelMatrix tf).bytes
            s.Buffers.InstanceTransformData,
          overwrite (sizeof_v3 * s.InstanceIndex) c.bytes s.Buffers.InstanceColorData⟩ } := by
  unfold UpdateInstanceAttributes
  rw [hT, hM, hC]
  simp only [glBufferSubData_transform, Option.some_bind, glBufferSubData_color]

theorem SetInstanceAttributes_loop (GetModelMatrix : Transform → mat4) (rnd : Nat → float)
    (s : demo_instancing) (n : Nat) :
    let s1 := (List.range n).foldl (SetInstanceAttributes.body GetModelMatrix rnd) s
    s1.InstanceCount = s.InstanceCount ∧ s1.InstanceIndex = s.InstanceIndex ∧
    s1.Buffers = s.Buffers ∧
    s1.InstanceTransform.length = s.InstanceTransform.length + n ∧
    s1.InstanceModel.length = s.InstanceModel.length + n ∧
    s1.InstanceColor.length = s.InstanceColor.length + n := by
  induction n with
  | zero => simp
  | succ n ih =>
    simp only [List.range_succ, List.foldl_append, List.foldl_cons, List.foldl_nil]
    obtain ⟨h1, h2, h3, h4, h5, h6⟩ := ih
    refine ⟨h1, h2, h3, ?_, ?_, ?_⟩ <;>
      simp only [SetInstanceAttributes.body, List.length_append, List.length_singleton] <;>
      omega

theorem SetInstanceAttributes_synced (GetModelMatrix : Transform → mat4) (rnd : Nat → float)
    (s : demo_instancing) (hN : s.InstanceCount ≤ INT_MAX) :
    ∃ s1, SetInstanceAttributes GetModelMatrix rnd s = some s1 ∧
      s1.InstanceCount = s.InstanceCount ∧ s1.InstanceIndex = s.InstanceIndex ∧ Synced s1 := by
  have hloop := SetInstanceAttributes_loop GetModelMatrix rnd
    { s with InstanceModel := [], InstanceTransform := [], InstanceColor := [] } s.InstanceCount
  unfold SetInstanceAttributes
  rw [if_pos hN]
  simp only [List.length_nil, Nat.zero_add] at hloop ⊢
  generalize (List.range s.InstanceCount).foldl (SetInstanceAttributes.body GetModelMatrix rnd)
    { s with InstanceModel := [], InstanceTransform := [], InstanceColor := [] } = s1 at hloop ⊢
  obtain ⟨h1, h2, _, h4, h5, h6⟩ := hloop
  have h := reupload_eq s1.Buffers s1.InstanceCount s1.InstanceModel s1.InstanceColor
    (h5.trans h1.symm) (h6.trans h1.symm)
  refine ⟨{ s1 with Buffers := ⟨.InstanceColorVBO, vectorData mat4.bytes s1.InstanceModel,
    vectorData v3.bytes s1.InstanceColor⟩ }, bind_bind_some h, h1, h2, ⟨?_, ?_, ?_, ?_⟩,
    ?_, ?_, rfl, rfl⟩
  · show s1.InstanceCount < UINT_RANGE
    rw [h1]; unfold INT_MAX at hN; unfold UINT_RANGE; omega
  · exact h4.trans h1.symm
  · exact h5.trans h1.symm
  · exact h6.trans h1.symm
  · show (vectorData mat4.bytes s1.InstanceModel).length = _
    rw [vectorData_length mat4.bytes sizeof_mat4 mat4_bytes_length, h5, h1]
  · show (vectorData v3.bytes s1.InstanceColor).length = _
    rw [vectorData_length v3.bytes sizeof_v3 v3_bytes_length, h6, h1]

/-! ## The synchronisation invariant is kept by every call -/

theorem Synced_of_uploaded (s : demo_instancing) (hs : Sized s)
    (hT : s.Buffers.InstanceTransformData = vectorData mat4.bytes s.InstanceModel)
    (hC : s.Buffers.InstanceColorData = vectorData v3.bytes s.InstanceColor) : Synced s := by
  refine ⟨hs, ?_, ?_, hT, hC⟩
  · rw [hT, vectorData_length mat4.bytes sizeof_mat4 mat4_bytes_length, hs.2.2.1]
  · rw [hC, vectorData_length v3.bytes sizeof_v3 v3_bytes_length, hs.2.2.2]

theorem Synced_Add (GetModelMatrix : Transform → mat4) (s : demo_instancing)
    (hs : Sized s) (hN : s.InstanceCount + 1 < UINT_RANGE) :
    ∃ s1, AddInstanceAttributes GetModelMatrix s = some s1 ∧ Synced s1 := by
  refine ⟨_, AddInstanceAttributes_eq GetModelMatrix s hs hN, ?_⟩
  obtain ⟨_, hT, hM, hC⟩ := hs
  refine Synced_of_uploaded _ ⟨hN, ?_, ?_, ?_⟩ rfl rfl
  · simp [hT]
  · simp [hM]
  · simp [hC]

theorem Synced_Destroy (s : demo_instancing) (hs : Sized s)
    (hi : s.InstanceIndex < s.InstanceCount) :
    ∃ s1, DestroyInstanceAttributes s = some s1 ∧ Synced s1 := by
  refine ⟨_, DestroyInstanceAttributes_eq s hs hi, ?_⟩
  obtain ⟨hR, hT, hM, hC⟩ := hs
  refine Synced_of_uploaded _ ⟨?_, ?_, ?_, ?_⟩ rfl rfl
  · show s.InstanceCount - 1 < UINT_RANGE
    omega
  · show (s.InstanceTransform.eraseIdx s.InstanceIndex).length = s.InstanceCount - 1
    rw [List.length_eraseIdx_of_lt (by omega), hT]
  · show (s.InstanceModel.eraseIdx s.InstanceIndex).length = s.InstanceCount - 1
    rw [List.length_eraseIdx_of_lt (by omega), hM]
  · show (s.InstanceColor.eraseIdx s.InstanceIndex).length = s.InstanceCount - 1
    rw [List.length_eraseIdx_of_lt (by omega), hC]

/-- An edit: the widgets write the selected transform and colour, then
`UpdateInstanceAttributes` brings the model matrix and both buffers up to date. -/
theorem Synced_Update (GetModelMatrix : Transform → mat4) (s : demo_instancing)
    (i : Nat) (tf : Transform) (c : v3) (hs : Synced s) (hi : i < s.InstanceCount) :
    ∃ s1, (InstanceCall.Update i tf c).run GetModelMatrix s = some s1 ∧ Synced s1 := by
  obtain ⟨⟨hR, hT, hM, hC⟩, _, _, hTd, hCd⟩ := hs
  have hiT : i < s.InstanceTransform.length := by omega
  have hiM : i < s.InstanceModel.length := by omega
  have hiC : i < s.InstanceColor.length := by omega
  have e := UpdateInstanceAttributes_eq GetModelMatrix
    { s with
      InstanceIndex := i
      InstanceTransform := s.InstanceTransform.set i tf
      InstanceColor := s.InstanceColor.set i c } tf s.InstanceModel[i] c
    (List.getElem?_set_self hiT) (List.getElem?_eq_getElem hiM)
    (List.getElem?_set_self hiC)
  refine ⟨_, e, Synced_of_uploaded _ ⟨hR, ?_, ?_, ?_⟩ ?_ ?_⟩
  · simp [hT]
  · simp [hM]
  · simp [hC]
  · show overwrite (sizeof_mat4 * i) (GetModelMatrix tf).bytes s.Buffers.InstanceTransformData
      = vectorData mat4.bytes (s.InstanceModel.set i (GetModelMatrix tf))
    rw [vectorData_set mat4.bytes sizeof_mat4 mat4_bytes_length _ _ _ (by omega), hTd]
    unfold overwrite
    rw [if_pos, mat4_bytes_length]
    rw [mat4_bytes_length, vectorData_length mat4.bytes sizeof_mat4 mat4_bytes_length, hM,
      ← Nat.mul_succ]
    exact Nat.mul_le_mul_left _ hi
  · show overwrite (sizeof_v3 * i) c.bytes s.Buffers.InstanceColorData
      = vectorData v3.bytes (s.InstanceColor.set i c)
    rw [vectorData_set v3.bytes sizeof_v3 v3_bytes_length _ _ _ (by omega), hCd]
    unfold overwrite
    rw [if_pos, v3_bytes_length]
    rw [v3_bytes_length, vectorData_length v3.bytes sizeof_v3 v3_bytes_length, hC,
      ← Nat.mul_succ]
    exact Nat.mul_le_mul_left _ hi

theorem Synced_step (GetModelMatrix : Transform → mat4) (c : InstanceCall)
    (s : demo_instancing) (hs : Synced s) (hc : c.inRange s = true) :
    ∃ s1, c.run GetModelMatrix s = some s1 ∧ Synced s1 := by
  cases c with
  | SetCount n rnd =>
    have hn : n ≤ INT_MAX := by simpa [InstanceCall.inRange] using hc
    obtain ⟨s1, h1, _, _, h2⟩ := SetInstanceAttributes_synced GetModelMatrix rnd
      { s with InstanceCount := n, InstanceIndex := 0 } hn
    exact ⟨s1, h1, h2⟩
  | Update i tf c =>
    exact Synced_Update GetModelMatrix s i tf c hs (by simpa [InstanceCall.inRange] using hc)
  | Add tf c =>
    exact Synced_Add GetModelMatrix _ hs.1 (by simpa [InstanceCall.inRange] using hc)
  | Destroy i =>
    exact Synced_Destroy { s with InstanceIndex := i } hs.1
      (by simpa [InstanceCall.inRange] using hc)

theorem Synced_runCalls (GetModelMatrix : Transform → mat4) (cs : List InstanceCall)
    (s : demo_instancing) (hs : Synced s) (hcs : allInRange GetModelMatrix cs s = true) :
    ∃ s1, runCalls GetModelMatrix cs s = some s1 ∧ Synced s1 := by
  induction cs generalizing s with
  | nil => exact ⟨s, rfl, hs⟩
  | cons c cs ih =>
    simp only [allInRange, Bool.and_eq_true] at hcs
    obtain ⟨s1, h1, h2⟩ := Synced_step GetModelMatrix c s hs hcs.1
    have h3 := hcs.2
    rw [h1] at h3
    obtain ⟨s2, h4, h5⟩ := ih s1 h2 h3
    exact ⟨s2, by simp only [runCalls, h1, Option.some_bind, h4], h5⟩

theorem recordAt_vectorData_of_getElem? {α : Type} (f : α → List Byte) (k : Nat)
    (hk : ∀ a, (f a).length = k) (l : List α) (i : Nat) (a : α) (h : l[i]? = some a) :
    recordAt k (vectorData f l) i = f a := by
  obtain ⟨hi, rfl⟩ := List.getElem?_eq_some_iff.1 h
  exact recordAt_vectorData f k hk l i hi

/-! ## Addition -/

/-- C5 (amended): on an instance set of size `N` with `N + 1 < 2^32`,
`AddInstanceAttributes` returns, leaves `InstanceCount = N + 1`, the records at indices
`0..N-1` unchanged and the record at index `N` equal to the additional transform, its model
matrix and the additional colour; both buffers are re-uploaded with the `N + 1` records of
the CPU lists. -/
theorem AddInstanceAttributes_appends (GetModelMatrix : Transform → mat4)
    (s : demo_instancing) (hs : Sized s) (hN : s.InstanceCount + 1 < UINT_RANGE) :
    ∃ s1, AddInstanceAttributes GetModelMatrix s = some s1 ∧
      Appended GetModelMatrix s s1 := by
  refine ⟨_, AddInstanceAttributes_eq GetModelMatrix s hs hN, ?_⟩
  obtain ⟨s2, h2, hsync⟩ := Synced_Add GetModelMatrix s hs hN
  rw [AddInstanceAttributes_eq GetModelMatrix s hs hN] at h2
  cases h2
  obtain ⟨hR, hT, hM, hC⟩ := hs
  have eM : (s.InstanceModel ++ [GetModelMatrix s.InstanceAdditionalTransform])[s.InstanceCount]?
      = some (GetModelMatrix s.InstanceAdditionalTransform) := by
    rw [← hM]; exact List.getElem?_concat_length _ _
  have eC : (s.InstanceColor ++ [s.InstanceAdditionalColor])[s.InstanceCount]?
      = some s.InstanceAdditionalColor := by
    rw [← hC]; exact List.getElem?_concat_length _ _
  refine ⟨rfl, ?_, ?_, eM, eC, ?_, ?_, hsync⟩
  · intro j hj
    exact ⟨List.getElem?_append_left (by omega), List.getElem?_append_left (by omega),
      List.getElem?_append_left (by omega)⟩
  · show (s.InstanceTransform ++ [s.InstanceAdditionalTransform])[s.InstanceCount]? = _
    rw [← hT]; exact List.getElem?_concat_length _ _
  · exact recordAt_vectorData_of_getElem? mat4.bytes sizeof_mat4 mat4_bytes_length _ _ _ eM
  · exact recordAt_vectorData_of_getElem? v3.bytes sizeof_v3 v3_bytes_length _ _ _ eC

/-- Witness of `AddInstanceAttributes_appends` on the sample instance set. -/
theorem AddInstanceAttributes_appends_witness :
    Sized sampleInstances ∧ sampleInstances.InstanceCount + 1 < UINT_RANGE ∧
    ∃ s1, AddInstanceAttributes sampleModelMatrix sampleInstances = some s1 ∧
      Appended sampleModelMatrix sampleInstances s1 :=
  ⟨by decide, by decide,
    AddInstanceAttributes_appends sampleModelMatrix sampleInstances (by decide) (by decide)⟩

theorem fullInstanceSet_sized : Sized fullInstanceSet :=
  ⟨by decide, List.length_replicate _ _, List.length_replicate _ _, List.length_replicate _ _⟩

theorem AddInstanceAttributes_full (GetModelMatrix : Transform → mat4) (s : demo_instancing)
    (h : s.InstanceCount = 4294967295) :
    AddInstanceAttributes GetModelMatrix s = some
      { s with
        InstanceTransform := s.InstanceTransform ++ [s.InstanceAdditionalTransform]
        InstanceModel := s.InstanceModel ++ [GetModelMatrix s.InstanceAdditionalTransform]
        InstanceColor := s.InstanceColor ++ [s.InstanceAdditionalColor]
        InstanceCount := 0
        Buffers := ⟨.InstanceColorVBO, [], []⟩ } := by
  have hmod : (s.InstanceCount + 1) % UINT_RANGE = 0 := by rw [h]; decide
  unfold AddInstanceAttributes
  simp only [hmod, Nat.mul_zero, glBufferData, Nat.zero_le, if_true, List.take_zero,
    Option.some_bind, glBindBuffer, BufferState.setBoundData]

/-- C5, counterexample: on the instance set of size `N = 2^32 - 1` the counter wraps, so
`AddInstanceAttributes` leaves `InstanceCount = 0`, not `N + 1`, with `N + 1` entries in the
CPU lists and two empty buffers. -/
theorem AddInstanceAttributes_wraps :
    Sized fullInstanceSet ∧ fullInstanceSet.InstanceCount = 4294967295 ∧
    ∃ s1, AddInstanceAttributes sampleModelMatrix fullInstanceSet = some s1 ∧
      s1.InstanceCount = 0 ∧ s1.InstanceCount ≠ fullInstanceSet.InstanceCount + 1 ∧
      s1.InstanceModel.length = 4294967296 ∧ s1.InstanceColor.length = 4294967296 ∧
      s1.Buffers.InstanceTransformData = [] ∧ s1.Buffers.InstanceColorData = [] ∧
      ¬ Appended sampleModelMatrix fullInstanceSet s1 := by
  refine ⟨fullInstanceSet_sized, rfl, _,
    AddInstanceAttributes_full sampleModelMatrix fullInstanceSet rfl, rfl, ?_, ?_, ?_, rfl, rfl,
    ?_⟩
  · show (0 : Nat) ≠ 4294967295 + 1
    decide
  · show (fullInstanceSet.InstanceModel ++ _).length = _
    rw [List.length_append, fullInstanceSet_sized.2.2.1]; rfl
  · show (fullInstanceSet.InstanceColor ++ _).length = _
    rw [List.length_append, fullInstanceSet_sized.2.2.2]; rfl
  · intro h
    have h0 := h.1
    have : (0 : Nat) = 4294967295 + 1 := h0
    exact absurd this (by decide)

/-! ## Removal -/

theorem getElem?_eraseIdx_below {α : Type} (l : List α) (i j : Nat) (h : j < i) :
    (l.eraseIdx i)[j]? = l[j]? := by
  rw [List.getElem?_eraseIdx, if_pos h]

theorem getElem?_eraseIdx_above {α : Type} (l : List α) (i j : Nat) (h : i < j) :
    (l.eraseIdx i)[j - 1]? = l[j]? := by
  rw [List.getElem?_eraseIdx, if_neg (by omega)]
  congr 1
  omega

/-- C4: on an instance set of size `N` with `InstanceIndex = i < N` (so `N >= 1`),
`DestroyInstanceAttributes` returns and leaves `InstanceCount = N - 1`; every record at an
index `j < i` stays at `j` and every record at an index `j > i` is at `j - 1`, with the same
transform, model matrix and colour in the CPU lists and in both re-uploaded buffers; the
lists consist of exactly the records that were at the positions other than `i`. -/
theorem DestroyInstanceAttributes_removes (s : demo_instancing) (hs : Sized s)
    (hi : s.InstanceIndex < s.InstanceCount) :
    ∃ s1, DestroyInstanceAttributes s = some s1 ∧ Removed s s1 := by
  refine ⟨_, DestroyInstanceAttributes_eq s hs hi, ?_⟩
  obtain ⟨s2, h2, hsync⟩ := Synced_Destroy s hs hi
  rw [DestroyInstanceAttributes_eq s hs hi] at h2
  cases h2
  refine ⟨rfl, ?_, ?_, ?_, ?_, ?_, ?_, ?_, hsync⟩
  · intro j hj
    exact ⟨getElem?_eraseIdx_below _ _ _ hj, getElem?_eraseIdx_below _ _ _ hj,
      getElem?_eraseIdx_below _ _ _ hj⟩
  · intro j hj _
    exact ⟨getElem?_eraseIdx_above _ _ _ hj, getElem?_eraseIdx_above _ _ _ hj,
      getElem?_eraseIdx_above _ _ _ hj⟩
  · intro j m c hj hm hc
    exact ⟨recordAt_vectorData_of_getElem? mat4.bytes sizeof_mat4 mat4_bytes_length _ _ _
        ((getElem?_eraseIdx_below _ _ _ hj).trans hm),
      recordAt_vectorData_of_getElem? v3.bytes sizeof_v3 v3_bytes_length _ _ _
        ((getElem?_eraseIdx_below _ _ _ hj).trans hc)⟩
  · intro j m c hj hm hc
    exact ⟨recordAt_vectorData_of_getElem? mat4.bytes sizeof_mat4 mat4_bytes_length _ _ _
        ((getElem?_eraseIdx_above _ _ _ hj).trans hm),
      recordAt_vectorData_of_getElem? v3.bytes sizeof_v3 v3_bytes_length _ _ _
        ((getElem?_eraseIdx_above _ _ _ hj).trans hc)⟩
  · intro x; exact List.mem_eraseIdx_iff_getElem?
  · intro x; exact List.mem_eraseIdx_iff_getElem?
  · intro x; exact List.mem_eraseIdx_iff_getElem?

/-- Witness of `DestroyInstanceAttributes_removes`: removing the first of the two sample
instances. -/
theorem DestroyInstanceAttributes_removes_witness :
    Sized { sampleInstances with InstanceIndex := 0 } ∧
    0 < sampleInstances.InstanceCount ∧
    ∃ s1, DestroyInstanceAttributes { sampleInstances with InstanceIndex := 0 } = some s1 ∧
      Removed { sampleInstances with InstanceIndex := 0 } s1 :=
  ⟨by decide, by decide,
    DestroyInstanceAttributes_removes { sampleInstances with InstanceIndex := 0 }
      (by decide) (by decide)⟩

/-! ## The synchronisation invariant over call sequences -/

/-- C1 (amended): for every requested count up to `INT_MAX`, after
`SetInstanceAttributes` and after every sequence of resets, edits, additions and removals
that follows it, where edits and removals are made with `InstanceIndex < InstanceCount` and
additions with `InstanceCount < 2^32 - 1`, every call returns, the three CPU lists have
length `InstanceCount`, the transform buffer holds exactly the `InstanceCount` records of
`InstanceModel` and the colour buffer exactly the `InstanceCount` records of
`InstanceColor`. -/
theorem instance_buffers_stay_synced (GetModelMatrix : Transform → mat4)
    (s : demo_instancing) (n : Nat) (rnd : Nat → float) (cs : List InstanceCall)
    (h : allInRange GetModelMatrix (.SetCount n rnd :: cs) s = true) :
    ∃ s0 s1, SetInstanceAttributes GetModelMatrix rnd
        { s with InstanceCount := n, InstanceIndex := 0 } = some s0 ∧
      s0.InstanceCount = n ∧ Synced s0 ∧
      runCalls GetModelMatrix cs s0 = some s1 ∧ Synced s1 := by
  simp only [allInRange, Bool.and_eq_true] at h
  have hn : n ≤ INT_MAX := by simpa [InstanceCall.inRange] using h.1
  obtain ⟨s0, h0, hc, _, hs0⟩ := SetInstanceAttributes_synced GetModelMatrix rnd
    { s with InstanceCount := n, InstanceIndex := 0 } hn
  have h3 := h.2
  simp only [InstanceCall.run, h0] at h3
  obtain ⟨s1, h1, hs1⟩ := Synced_runCalls GetModelMatrix cs s0 hs0 h3
  exact ⟨s0, s1, h0, hc, hs0, h1, hs1⟩

set_option maxRecDepth 100000 in
/-- Witness of `instance_buffers_stay_synced` on the sample call sequence. -/
theorem instance_buffers_stay_synced_witness :
    allInRange sampleModelMatrix (.SetCount 3 sampleRng :: sampleCalls) sampleInstances = true ∧
    ∃ s0 s1, SetInstanceAttributes sampleModelMatrix sampleRng
        { sampleInstances with InstanceCount := 3, InstanceIndex := 0 } = some s0 ∧
      s0.InstanceCount = 3 ∧ Synced s0 ∧
      runCalls sampleModelMatrix sampleCalls s0 = some s1 ∧ Synced s1 :=
  ⟨by decide, instance_buffers_stay_synced sampleModelMatrix sampleInstances 3 sampleRng
    sampleCalls (by decide)⟩

/-- C1, counterexample: (1) with `InstanceCount = 2^31` the `int` loop counter of
`SetInstanceAttributes` overflows, so the method has no defined result; (2) on the
synchronised instance set of size `2^32 - 1`, where `InstanceIndex = 0 < InstanceCount`, one
`AddInstanceAttributes` call returns with `InstanceCount = 0`, `2^32` entries in the CPU lists
and two empty buffers, which is not synchronised. -/
theorem sync_lost_at_counter_limits :
    SetInstanceAttributes sampleModelMatrix sampleRng
      { sampleInstances with InstanceCount := 2147483648 } = none ∧
    Synced fullInstanceSet ∧ fullInstanceSet.InstanceIndex < fullInstanceSet.InstanceCount ∧
    ∃ s1, runCalls sampleModelMatrix [.Add (sampleTransform 5 6) (sampleColor 70 80 90)]
        fullInstanceSet = some s1 ∧
      s1.InstanceCount = 0 ∧ s1.InstanceModel.length = 4294967296 ∧
      s1.Buffers.InstanceTransformData = [] ∧ ¬ Synced s1 := by
  have hlen : (fullInstanceSet.InstanceModel
      ++ [sampleModelMatrix (sampleTransform 5 6)]).length = 4294967296 := by
    rw [List.length_append, fullInstanceSet_sized.2.2.1]; rfl
  refine ⟨?set, Synced_of_uploaded _ fullInstanceSet_sized rfl rfl, by decide,
    { fullInstanceSet with
      InstanceCount := 0
      InstanceModel := fullInstanceSet.InstanceModel ++ [sampleModelMatrix (sampleTransform 5 6)]
      InstanceTransform := fullInstanceSet.InstanceTransform ++ [sampleTransform 5 6]
      InstanceColor := fullInstanceSet.InstanceColor ++ [sampleColor 70 80 90]
      Buffers := ⟨.InstanceColorVBO, [], []⟩ }, ?run, ?cnt, ?len, ?buf, ?ns⟩
  case set =>
    unfold SetInstanceAttributes
    rw [if_neg (by decide)]
  case run =>
    simp only [runCalls, InstanceCall.run]
    rw [AddInstanceAttributes_full sampleModelMatrix _ rfl]
    rfl
  case cnt => rfl
  case len => exact hlen
  case buf => rfl
  case ns =>
    intro hsync
    have h2 := hsync.1.2.2.1
    rw [hlen] at h2
    exact absurd h2 (by decide)

/-! ## Single-record update -/

/-- C2: on every instance set with `InstanceIndex < InstanceCount`,
`UpdateInstanceAttributes` returns and writes only the byte range of record `InstanceIndex`
in each buffer: every other instance's GPU-side record, both buffer sizes, `InstanceCount`
and every CPU-side record at another index are unchanged. -/
theorem UpdateInstanceAttributes_frame (GetModelMatrix : Transform → mat4)
    (s : demo_instancing) (hs : Sized s) (hi : s.InstanceIndex < s.InstanceCount) :
    ∃ s1, UpdateInstanceAttributes GetModelMatrix s = some s1 ∧ EditFrame s s1 := by
  obtain ⟨_, hT, hM, hC⟩ := hs
  have hiT : s.InstanceIndex < s.InstanceTransform.length := by omega
  have hiM : s.InstanceIndex < s.InstanceModel.length := by omega
  have hiC : s.InstanceIndex < s.InstanceColor.length := by omega
  refine ⟨_, UpdateInstanceAttributes_eq GetModelMatrix s _ _ _
    (List.getElem?_eq_getElem hiT) (List.getElem?_eq_getElem hiM)
    (List.getElem?_eq_getElem hiC), rfl, overwrite_length _ _ _, overwrite_length _ _ _,
    ?_, ?_, ?_, rfl, rfl, ?_⟩
  · intro p hp
    exact overwrite_getElem? _ _ _ p (by rw [mat4_bytes_length]; exact hp)
  · intro p hp
    exact overwrite_getElem? _ _ _ p (by rw [v3_bytes_length]; exact hp)
  · intro j hj
    exact ⟨recordAt_overwrite _ _ _ _ _ (mat4_bytes_length _) hj,
      recordAt_overwrite _ _ _ _ _ (v3_bytes_length _) hj⟩
  · intro j hj
    exact List.getElem?_set_ne (Ne.symm hj)

/-- Witness of `UpdateInstanceAttributes_frame` on the sample instance set. -/
theorem UpdateInstanceAttributes_frame_witness :
    Sized sampleInstances ∧ sampleInstances.InstanceIndex < sampleInstances.InstanceCount ∧
    ∃ s1, UpdateInstanceAttributes sampleModelMatrix sampleInstances = some s1 ∧
      EditFrame sampleInstances s1 :=
  ⟨by decide, by decide,
    UpdateInstanceAttributes_frame sampleModelMatrix sampleInstances (by decide) (by decide)⟩

theorem set_getElem?_same {α : Type} (l : List α) (i : Nat) (a : α) (h : l[i]? = some a) :
    l.set i a = l := by
  induction l generalizing i with
  | nil => rfl
  | cons b l ih =>
    cases i with
    | zero =>
      simp only [List.getElem?_cons_zero, Option.some.injEq] at h
      rw [List.set_cons_zero, h]
    | succ i =>
      simp only [List.getElem?_cons_succ] at h
      rw [List.set_cons_succ, ih i h]

theorem overwrite_eq_vectorData_set {α : Type} (f : α → List Byte) (k : Nat) (hk0 : 0 < k)
    (hk : ∀ a, (f a).length = k) (l : List α) (i : Nat) (x : α) (store : List Byte)
    (hi : i < l.length) (hlen : store.length = k * l.length)
    (h : ∀ j, j < l.length → j ≠ i → recordAt k store j = recordAt k (vectorData f l) j) :
    overwrite (k * i) (f x) store = vectorData f (l.set i x) := by
  have hv := vectorData_length f k hk l
  have hfit : k * i + k ≤ k * l.length := by
    rw [← Nat.mul_succ]; exact Nat.mul_le_mul_left _ hi
  unfold overwrite
  rw [hk, if_pos (by rw [hlen]; exact hfit), vectorData_set f k hk l i x hi,
    take_eq_of_records_eq k l.length i store _ hk0 hlen hv h,
    drop_eq_of_records_eq k l.length i store _ hk0 hlen hv h]

/-- C3: in every state in which the GPU buffers equal the CPU lists at every index other than
`InstanceIndex`, with `InstanceIndex < InstanceCount`, `UpdateInstanceAttributes` (two
`glBufferSubData` calls) and the full re-upload both return, and they return the same
state. -/
theorem UpdateInstanceAttributes_eq_fullReupload (GetModelMatrix : Transform → mat4)
    (s : demo_instancing) (hs : SyncedExcept s s.InstanceIndex)
    (hi : s.InstanceIndex < s.InstanceCount) :
    ∃ s1, UpdateInstanceAttributes GetModelMatrix s = some s1 ∧
      fullReupload GetModelMatrix s = some s1 := by
  obtain ⟨⟨hR, hT, hM, hC⟩, hTl, hCl, hTr, hCr⟩ := hs
  have hiT : s.InstanceIndex < s.InstanceTransform.length := by omega
  have hiM : s.InstanceIndex < s.InstanceModel.length := by omega
  have hiC : s.InstanceIndex < s.InstanceColor.length := by omega
  have eT := List.getElem?_eq_getElem hiT
  have eM := List.getElem?_eq_getElem hiM
  have eC := List.getElem?_eq_getElem hiC
  have hup := UpdateInstanceAttributes_eq GetModelMatrix s _ _ _ eT eM eC
  have h1 : overwrite (sizeof_mat4 * s.InstanceIndex)
      (GetModelMatrix s.InstanceTransform[s.InstanceIndex]).bytes s.Buffers.InstanceTransformData
      = vectorData mat4.bytes (s.InstanceModel.set s.InstanceIndex
          (GetModelMatrix s.InstanceTransform[s.InstanceIndex])) :=
    overwrite_eq_vectorData_set mat4.bytes sizeof_mat4 (by decide) mat4_bytes_length _ _ _ _ hiM
      (by rw [hTl, hM]) (by rw [hM]; exact hTr)
  have h2 : overwrite (sizeof_v3 * s.InstanceIndex) s.InstanceColor[s.InstanceIndex].bytes
      s.Buffers.InstanceColorData = vectorData v3.bytes s.InstanceColor := by
    have := overwrite_eq_vectorData_set v3.bytes sizeof_v3 (by decide) v3_bytes_length
      s.InstanceColor s.InstanceIndex s.InstanceColor[s.InstanceIndex]
      s.Buffers.InstanceColorData hiC (by rw [hCl, hC]) (by rw [hC]; exact hCr)
    rw [this, set_getElem?_same _ _ _ eC]
  rw [h1, h2] at hup
  refine ⟨_, hup, ?_⟩
  unfold fullReupload
  rw [eT, eM]
  exact bind_bind_some (reupload_eq s.Buffers s.InstanceCount _ _
    (by rw [List.length_set, hM]) hC)

set_option maxRecDepth 100000 in
/-- Witness of `UpdateInstanceAttributes_eq_fullReupload` on the edited sample set. -/
theorem UpdateInstanceAttributes_eq_fullReupload_witness :
    SyncedExcept editedInstances editedInstances.InstanceIndex ∧
    editedInstances.InstanceIndex < editedInstances.InstanceCount ∧
    ∃ s1, UpdateInstanceAttributes sampleModelMatrix editedInstances = some s1 ∧
      fullReupload sampleModelMatrix editedInstances = some s1 :=
  ⟨by decide, by decide,
    UpdateInstanceAttributes_eq_fullReupload sampleModelMatrix editedInstances
      (by decide) (by decide)⟩

/-! ## Construction and the add / remove scenario -/

/-- C6: a freshly constructed `demo_instancing` has 10 instances and instance buffers of
`10 * sizeof(mat4)` and `10 * sizeof(v3)` bytes; after one `AddInstanceAttributes` the buffers
have `11` records and the 11th is the added transform's model matrix and the added colour;
after `DestroyInstanceAttributes` with `InstanceIndex = 0` the buffers have 10 records again
and the record that was at index 1 is at index 0, in the buffers and in the CPU lists. -/
theorem construct_add_destroy_scenario (GetModelMatrix : Transform → mat4)
    (rnd : Nat → float) (addT : Transform) (addC : v3) (tf : Transform) (c : v3) :
    ∃ s0 s1 s2,
      demo_instancing.demo_instancing GetModelMatrix rnd addT addC = some s0 ∧
      s0.InstanceCount = 10 ∧
      s0.Buffers.InstanceTransformData.length = 10 * sizeof_mat4 ∧
      s0.Buffers.InstanceColorData.length = 10 * sizeof_v3 ∧
      Synced s0 ∧
      (InstanceCall.Add tf c).run GetModelMatrix s0 = some s1 ∧
      s1.InstanceCount = 11 ∧
      s1.Buffers.InstanceTransformData.length = 11 * sizeof_mat4 ∧
      s1.Buffers.InstanceColorData.length = 11 * sizeof_v3 ∧
      recordAt sizeof_mat4 s1.Buffers.InstanceTransformData 10 = (GetModelMatrix tf).bytes ∧
      recordAt sizeof_v3 s1.Buffers.InstanceColorData 10 = c.bytes ∧
      s1.InstanceTransform[10]? = some tf ∧
      (InstanceCall.Destroy 0).run GetModelMatrix s1 = some s2 ∧
      s2.InstanceCount = 10 ∧
      s2.Buffers.InstanceTransformData.length = 10 * sizeof_mat4 ∧
      s2.Buffers.InstanceColorData.length = 10 * sizeof_v3 ∧
      recordAt sizeof_mat4 s2.Buffers.InstanceTransformData 0
        = recordAt sizeof_mat4 s1.Buffers.InstanceTransformData 1 ∧
      recordAt sizeof_v3 s2.Buffers.InstanceColorData 0
        = recordAt sizeof_v3 s1.Buffers.InstanceColorData 1 ∧
      s2.InstanceTransform[0]? = s1.InstanceTransform[1]? ∧
      s2.InstanceModel[0]? = s1.InstanceModel[1]? ∧
      s2.InstanceColor[0]? = s1.InstanceColor[1]? := by
  obtain ⟨s0, h0, hc0, _, hs0⟩ := SetInstanceAttributes_synced GetModelMatrix rnd
    { InstanceCount := 10, InstanceIndex := 0, InstanceModel := [], InstanceTransform := [],
      InstanceColor := [], InstanceAdditionalTransform := addT, InstanceAdditionalColor := addC,
      Buffers := ⟨.VertexBuffer, [], []⟩ } (show (10 : Nat) ≤ INT_MAX by decide)
  have hc0 : s0.InstanceCount = 10 := hc0
  obtain ⟨_, hT0, hM0, hC0⟩ := hs0.1
  rw [hc0] at hT0 hM0 hC0
  -- the addition
  have hsz0 : Sized { s0 with InstanceAdditionalTransform := tf, InstanceAdditionalColor := c } :=
    hs0.1
  have hN0 : s0.InstanceCount + 1 < UINT_RANGE := by rw [hc0]; decide
  obtain ⟨s1, h1, hs1⟩ := Synced_Add GetModelMatrix _ hsz0 hN0
  have h1e := AddInstanceAttributes_eq GetModelMatrix _ hsz0 hN0
  rw [h1] at h1e
  have h1e := Option.some.inj h1e
  have hc1 : s1.InstanceCount = 11 := by rw [h1e]; exact congrArg (· + 1) hc0
  have hT1 : s1.InstanceTransform = s0.InstanceTransform ++ [tf] := by rw [h1e]
  have hM1 : s1.InstanceModel = s0.InstanceModel ++ [GetModelMatrix tf] := by rw [h1e]
  have hC1 : s1.InstanceColor = s0.InstanceColor ++ [c] := by rw [h1e]
  have eT1 : s1.InstanceTransform[10]? = some tf := by
    rw [hT1, ← hT0]; exact List.getElem?_concat_length _ _
  have eM1 : s1.InstanceModel[10]? = some (GetModelMatrix tf) := by
    rw [hM1, ← hM0]; exact List.getElem?_concat_length _ _
  have eC1 : s1.InstanceColor[10]? = some c := by
    rw [hC1, ← hC0]; exact List.getElem?_concat_length _ _
  -- the removal
  have hsz1 : Sized { s1 with InstanceIndex := 0 } := hs1.1
  have hi1 : (0 : Nat) < s1.InstanceCount := by rw [hc1]; decide
  obtain ⟨s2, h2, hs2⟩ := Synced_Destroy { s1 with InstanceIndex := 0 } hsz1 hi1
  have h2e := DestroyInstanceAttributes_eq { s1 with InstanceIndex := 0 } hsz1 hi1
  rw [h2] at h2e
  have h2e := Option.some.inj h2e
  have hc2 : s2.InstanceCount = 10 := by rw [h2e]; show s1.InstanceCount - 1 = 10; rw [hc1]
  have hT2 : s2.InstanceTransform = s1.InstanceTransform.eraseIdx 0 := by rw [h2e]
  have hM2 : s2.InstanceModel = s1.InstanceModel.eraseIdx 0 := by rw [h2e]
  have hC2 : s2.InstanceColor = s1.InstanceColor.eraseIdx 0 := by rw [h2e]
  have l1M : 1 < s1.InstanceModel.length := by rw [hs1.1.2.2.1, hc1]; decide
  have l1C : 1 < s1.InstanceColor.length := by rw [hs1.1.2.2.2, hc1]; decide
  have e1 : s2.InstanceTransform[0]? = s1.InstanceTransform[1]? := by
    rw [hT2]; exact getElem?_eraseIdx_above _ 0 1 (by decide)
  have e2 : s2.InstanceModel[0]? = s1.InstanceModel[1]? := by
    rw [hM2]; exact getElem?_eraseIdx_above _ 0 1 (by decide)
  have e3 : s2.InstanceColor[0]? = s1.InstanceColor[1]? := by
    rw [hC2]; exact getElem?_eraseIdx_above _ 0 1 (by decide)
  refine ⟨s0, s1, s2, h0, hc0, ?_, ?_, hs0, h1, hc1, ?_, ?_, ?_, ?_, eT1, h2, hc2, ?_, ?_,
    ?_, ?_, e1, e2, e3⟩
  · rw [hs0.2.1, hc0, Nat.mul_comm]
  · rw [hs0.2.2.1, hc0, Nat.mul_comm]
  · rw [hs1.2.1, hc1, Nat.mul_comm]
  · rw [hs1.2.2.1, hc1, Nat.mul_comm]
  · rw [hs1.2.2.2.1]
    exact recordAt_vectorData_of_getElem? mat4.bytes sizeof_mat4 mat4_bytes_length _ _ _ eM1
  · rw [hs1.2.2.2.2]
    exact recordAt_vectorData_of_getElem? v3.bytes sizeof_v3 v3_bytes_length _ _ _ eC1
  · rw [hs2.2.1, hc2, Nat.mul_comm]
  · rw [hs2.2.2.1, hc2, Nat.mul_comm]
  · rw [hs2.2.2.2.1, hs1.2.2.2.1,
      recordAt_vectorData mat4.bytes sizeof_mat4 mat4_bytes_length _ 1 l1M,
      recordAt_vectorData_of_getElem? mat4.bytes sizeof_mat4 mat4_bytes_length _ 0 _
        (e2.trans (List.getElem?_eq_getElem l1M))]
  · rw [hs2.2.2.2.2, hs1.2.2.2.2,
      recordAt_vectorData v3.bytes sizeof_v3 v3_bytes_length _ 1 l1C,
      recordAt_vectorData_of_getElem? v3.bytes sizeof_v3 v3_bytes_length _ 0 _
        (e3.trans (List.getElem?_eq_getElem l1C))]

/-! ## The post-process passes in closed form -/

theorem parityAfter_zero (p : Bool) : parityAfter p 0 = p := rfl

theorem parityAfter_succ (p : Bool) (n : Nat) : parityAfter p (n + 1) = !parityAfter p n := by
  unfold parityAfter
  rcases Nat.mod_two_eq_zero_or_one n with h | h
  · have h1 : (n + 1) % 2 = 1 := by omega
    simp [h, h1]
  · have h1 : (n + 1) % 2 = 0 := by omega
    simp [h, h1]

@[simp] theorem write_Viewport (g : Context) (f : Picture → Picture) :
    (g.write f).Viewport = g.Viewport := by unfold Context.write; split <;> rfl

@[simp] theorem write_Framebuffer (g : Context) (f : Picture → Picture) :
    (g.write f).Framebuffer = g.Framebuffer := by unfold Context.write; split <;> rfl

@[simp] theorem write_CurrentProgram (g : Context) (f : Picture → Picture) :
    (g.write f).CurrentProgram = g.CurrentProgram := by unfold Context.write; split <;> rfl

@[simp] theorem write_ActiveTexture (g : Context) (f : Picture → Picture) :
    (g.write f).ActiveTexture = g.ActiveTexture := by unfold Context.write; split <;> rfl

@[simp] theorem write_TextureBinding2D (g : Context) (f : Picture → Picture) :
    (g.write f).TextureBinding2D = g.TextureBinding2D := by unfold Context.write; split <;> rfl

@[simp] theorem write_VertexArray (g : Context) (f : Picture → Picture) :
    (g.write f).VertexArray = g.VertexArray := by unfold Context.write; split <;> rfl

@[simp] theorem write_ColorAttachment0 (g : Context) (f : Picture → Picture) :
    (g.write f).ColorAttachment0 = g.ColorAttachment0 := by unfold Context.write; split <;> rfl

@[simp] theorem write_calls (g : Context) (f : Picture → Picture) :
    (g.write f).calls = g.calls := by unfold Context.write; split <;> rfl

@[simp] theorem write_draws (g : Context) (f : Picture → Picture) :
    (g.write f).draws = g.draws := by unfold Context.write; split <;> rfl

/-- State and context after `n` iterations of the loop of `RenderPingPong`, entered with the
post-process program current. -/
theorem RenderPingPong_loop (s : demo_postprocess) (g : Context) (n : Nat)
    (hp : g.CurrentProgram = s.PostProcessProgram) :
    let sg := (List.range n).foldl RenderPingPong.body (s, g)
    sg.1 = { s with pp := parityAfter s.pp n } ∧
    sg.2.CurrentProgram = s.PostProcessProgram ∧
    sg.2.ActiveTexture = g.ActiveTexture ∧
    sg.2.ColorAttachment0 = g.ColorAttachment0 ∧
    (g.ActiveTexture ≠ 0 → sg.2.TextureBinding2D 0 = g.TextureBinding2D 0) ∧
    sg.2.draws = g.draws ++ (List.range n).map (filterDraw s g) := by
  induction n with
  | zero => exact ⟨rfl, hp, rfl, rfl, fun _ => rfl, by simp⟩
  | succ n ih =>
    simp only [List.range_succ, List.foldl_append, List.foldl_cons, List.foldl_nil,
      List.map_append, List.map_cons, List.map_nil]
    generalize (List.range n).foldl RenderPingPong.body (s, g) = sg at ih
    obtain ⟨s1, g1⟩ := sg
    obtain ⟨h1, h2, h3, h4, h5, h6⟩ := ih
    simp only at h1 h2 h3 h4 h5 h6
    subst h1
    refine ⟨?_, ?_, ?_, ?_, ?_, ?_⟩
    · simp [RenderPingPong.body, parityAfter_succ]
    · simp [RenderPingPong.body, Context.call, Context.effect, h2]
    · simp [RenderPingPong.body, Context.call, Context.effect, h3]
    · simp [RenderPingPong.body, Context.call, Context.effect, h4]
    · intro hne
      have hns : ¬ 0 = g.ActiveTexture := fun h => hne h.symm
      simp [RenderPingPong.body, Context.call, Context.effect, h3, Function.update_apply, hns,
        h5 hne]
    · simp only [RenderPingPong.body, Context.call, Context.effect, write_draws,
        write_CurrentProgram, write_Framebuffer, write_ActiveTexture, write_TextureBinding2D,
        write_VertexArray, write_Viewport, write_ColorAttachment0, Context.target, h6,
        List.append_assoc, filterDraw, filterSource, h2, h3, h4, Function.update_same]
      by_cases h0 : g.ActiveTexture = 0
      · simp [h0, Function.update_apply]
      · have h0s : ¬ 0 = g.ActiveTexture := fun h => h0 h.symm
        simp [h0, h0s, Function.update_apply, h5 h0]

theorem index_not (p : Bool) : index (!p) ≠ index p := by
  cases p <;> decide

theorem index_cases (p : Bool) : (index p = 0 ∧ index (!p) = 1) ∨ (index p = 1 ∧ index (!p) = 0) := by
  cases p <;> decide

theorem filterDraw_congr (s : demo_postprocess) (g g1 : Context)
    (h1 : g1.ColorAttachment0 = g.ColorAttachment0) (h2 : g1.ActiveTexture = g.ActiveTexture)
    (h3 : g1.TextureBinding2D = g.TextureBinding2D) : filterDraw s g1 = filterDraw s g := by
  funext i
  simp only [filterDraw, h1, h2, h3]

theorem RenderPingPong_spec (iteration : Int) (s : demo_postprocess) (g : Context) :
    (RenderPingPong iteration s g).1 = { s with pp := parityAfter s.pp iteration.toNat } ∧
    (RenderPingPong iteration s g).2.Framebuffer = 0 ∧
    (RenderPingPong iteration s g).2.ActiveTexture = g.ActiveTexture ∧
    (RenderPingPong iteration s g).2.ColorAttachment0 = g.ColorAttachment0 ∧
    (RenderPingPong iteration s g).2.draws
      = g.draws ++ (List.range iteration.toNat).map (filterDraw s g) := by
  have h := RenderPingPong_loop s
    (((g.call (.glUseProgram s.PostProcessProgram)).call
      (.glUniform s.PostProcessProgram .uOffset)).call
      (.glUniform s.PostProcessProgram .uKernel)) iteration.toNat rfl
  have hc : filterDraw s (((g.call (.glUseProgram s.PostProcessProgram)).call
      (.glUniform s.PostProcessProgram .uOffset)).call
      (.glUniform s.PostProcessProgram .uKernel)) = filterDraw s g :=
    filterDraw_congr s g _ rfl rfl rfl
  rw [hc] at h
  obtain ⟨h1, _, h3, h4, _, h6⟩ := h
  exact ⟨h1, rfl, h3, h4, h6⟩

theorem RenderScreen_spec (s : demo_postprocess) (g : Context) :
    (RenderScreen s g).draws = g.draws ++ [presentDraw s g] := by
  simp only [RenderScreen, Context.call, Context.effect, write_draws, write_CurrentProgram,
    write_Framebuffer, write_ActiveTexture, write_TextureBinding2D, write_VertexArray,
    write_Viewport, write_ColorAttachment0, Context.target, presentDraw, Function.update_apply]
  by_cases h0 : g.ActiveTexture = 0
  · simp [h0, presentSource]
  · have h0s : ¬ 0 = g.ActiveTexture := fun h => h0 h.symm
    simp [h0, h0s, presentSource]

theorem RenderTavernFBO_spec (s : demo_postprocess) (g : Context) :
    (RenderTavernFBO s g).Framebuffer = 0 ∧
    (RenderTavernFBO s g).ActiveTexture = 0 ∧
    (RenderTavernFBO s g).ColorAttachment0 = g.ColorAttachment0 ∧
    (RenderTavernFBO s g).draws = g.draws ++ [sceneDraw s g] := by
  refine ⟨rfl, ?_, ?_, ?_⟩
  · simp [RenderTavernFBO, Context.call, Context.effect]
  · simp [RenderTavernFBO, Context.call, Context.effect]
  · simp [RenderTavernFBO, Context.call, Context.effect, Context.target, sceneDraw,
      Function.update_apply]

theorem presentDraw_after_viewport (W H : Int) (s1 : demo_postprocess) (g : Context)
    (hF : g.Framebuffer = 0) (hA : g.ActiveTexture = 0) :
    presentDraw s1 (g.call (.glViewport 0 0 W H)) = framePresentDraw W H s1 := by
  simp only [presentDraw, framePresentDraw, Context.call, Context.effect, Context.target, hF,
    hA, if_true]

theorem Update_spec (W H : Int) (s : demo_postprocess) (g : Context) :
    (Update W H s g).1 = { s with pp := parityAfter s.pp s.PostProcessCount.toNat } ∧
    (Update W H s g).2.draws = g.draws ++ sceneDraw s g ::
      ((List.range s.PostProcessCount.toNat).map (filterDraw s { g with ActiveTexture := 0 })
        ++ [framePresentDraw W H { s with pp := parityAfter s.pp s.PostProcessCount.toNat }]) := by
  obtain ⟨t1, t2, t3, t4⟩ := RenderTavernFBO_spec s (g.call (.glViewport 0 0 W H))
  obtain ⟨p1, p2, p3, p4, p5⟩ := RenderPingPong_spec s.PostProcessCount s
    (RenderTavernFBO s (g.call (.glViewport 0 0 W H)))
  have hf : filterDraw s (RenderTavernFBO s (g.call (.glViewport 0 0 W H)))
      = filterDraw s { g with ActiveTexture := 0 } := by
    funext i
    simp only [filterDraw, t2, t3, if_true]
    rfl
  have hs : sceneDraw s (g.call (.glViewport 0 0 W H)) = sceneDraw s g := rfl
  refine ⟨p1, ?_⟩
  unfold Update
  simp only [RenderScreen_spec]
  have hd : ((RenderPingPong s.PostProcessCount s
      (RenderTavernFBO s (g.call (.glViewport 0 0 W H)))).2.call (.glViewport 0 0 W H)).draws
      = (RenderPingPong s.PostProcessCount s
        (RenderTavernFBO s (g.call (.glViewport 0 0 W H)))).2.draws := rfl
  have hpd : presentDraw (RenderPingPong s.PostProcessCount s
        (RenderTavernFBO s (g.call (.glViewport 0 0 W H)))).1
      ((RenderPingPong s.PostProcessCount s
        (RenderTavernFBO s (g.call (.glViewport 0 0 W H)))).2.call (.glViewport 0 0 W H))
      = framePresentDraw W H { s with pp := parityAfter s.pp s.PostProcessCount.toNat } := by
    rw [p1]
    exact presentDraw_after_viewport W H _ _ p2 (p3.trans t2)
  have hv : (g.call (.glViewport 0 0 W H)).draws = g.draws := rfl
  rw [hd, hpd, p5, t4, hf, hs, hv]
  simp only [List.append_assoc, List.singleton_append, List.cons_append, List.nil_append]

/-! ## Present stage, bypass, parity and hazard freedom -/

/-- C7: in a frame, with the framebuffers attached as the constructor leaves them and for
every initial parity, the draws are the scene draw into `RawRenderTex`, one filter draw per
iteration, and the present draw into framebuffer 0. If `PostProcessCount <= 0` (in
particular 0) the present draw samples `RawRenderTex`; if `PostProcessCount > 0` it samples
`ppRenderTex[!pp]`, which is the colour attachment of the framebuffer the last filter
iteration drew into. -/
theorem present_stage_source (W H : Int) (s : demo_postprocess) (g : Context)
    (hc : Constructed s g) :
    ∃ scene filters present,
      (Update W H s g).2.draws = g.draws ++ scene :: (filters ++ [present]) ∧
      filters.length = s.PostProcessCount.toNat ∧
      scene.program = s.TavernProgram ∧ scene.target = s.RawRenderTex ∧
      (∀ d ∈ filters, d.program = s.PostProcessProgram) ∧
      present.program = s.RenderProgram ∧ present.framebuffer = 0 ∧
      (s.PostProcessCount ≤ 0 → filters = [] ∧ present.sampled = s.RawRenderTex) ∧
      (0 < s.PostProcessCount →
        present.sampled = s.ppRenderTex (index (!(Update W H s g).1.pp)) ∧
        ∃ last, filters[s.PostProcessCount.toNat - 1]? = some last ∧
          last.framebuffer = s.ppFBO (index (!(Update W H s g).1.pp)) ∧
          last.target = present.sampled) := by
  obtain ⟨hF, hFa, hP0, hP1, hA0, hA1⟩ := hc
  obtain ⟨u1, u2⟩ := Update_spec W H s g
  refine ⟨_, _, _, u2, by simp, rfl, ?_, ?_, rfl, rfl, ?_, ?_⟩
  · simp only [sceneDraw, if_neg hF, hFa]
  · intro d hd
    obtain ⟨i, _, rfl⟩ := List.mem_map.1 hd
    rfl
  · intro hle
    have hn : s.PostProcessCount.toNat = 0 := Int.toNat_eq_zero.2 hle
    refine ⟨by rw [hn]; rfl, ?_⟩
    simp only [framePresentDraw, presentSource, if_neg (not_lt.2 hle)]
  · intro hpos
    have hn : 0 < s.PostProcessCount.toNat := Int.lt_toNat.2 hpos
    obtain ⟨m, hm⟩ : ∃ m, s.PostProcessCount.toNat = m + 1 := ⟨_, (Nat.succ_pred_eq_of_pos hn).symm⟩
    rw [u1]
    have hsrc : (framePresentDraw W H
        { s with pp := parityAfter s.pp s.PostProcessCount.toNat }).sampled
        = s.ppRenderTex (index (!parityAfter s.pp s.PostProcessCount.toNat)) := by
      simp only [framePresentDraw, presentSource, if_pos hpos]
    refine ⟨hsrc, filterDraw s { g with ActiveTexture := 0 } m, ?_, ?_, ?_⟩
    · rw [hm]
      simp [List.getElem?_map, List.getElem?_range]
    · simp only [filterDraw, hm, parityAfter_succ, Bool.not_not]
    · rw [hsrc, hm, parityAfter_succ, Bool.not_not]
      simp only [filterDraw]
      rcases index_cases (parityAfter s.pp m) with ⟨h, _⟩ | ⟨h, _⟩
      · rw [h, if_neg hP0, hA0]
      · rw [h, if_neg hP1, hA1]

/-- The constructor attaches the textures as `Constructed` says, provided the three
framebuffer names generated by `glGenFramebuffers` are non-zero and distinct. -/
theorem createFramebuffers_constructed (s : demo_postprocess) (g : Context)
    (h0 : s.FBO ≠ 0) (h1 : s.ppFBO 0 ≠ 0) (h2 : s.ppFBO 1 ≠ 0)
    (h01 : s.ppFBO 0 ≠ s.FBO) (h02 : s.ppFBO 1 ≠ s.FBO) (h12 : s.ppFBO 0 ≠ s.ppFBO 1) :
    Constructed s (createFramebuffers s g) := by
  have e0 : (Fin.ofNat 0 : Fin 2) = 0 := rfl
  have e1 : (Fin.ofNat 1 : Fin 2) = 1 := rfl
  refine ⟨h0, ?_, h1, h2, ?_, ?_⟩ <;>
    simp [createFramebuffers, Context.call, Context.effect, List.range_succ, e0, e1, h0, h1, h2,
      Function.update_apply, h01, h02, h12, Ne.symm h01, Ne.symm h02, Ne.symm h12]

/-- Witness of `present_stage_source`: a frame with one filter iteration. -/
theorem present_stage_source_witness :
    Constructed (samplePostProcess false 1) sampleContext ∧
    ∃ scene filters present,
      (Update 800 600 (samplePostProcess false 1) sampleContext).2.draws
        = sampleContext.draws ++ scene :: (filters ++ [present]) ∧
      filters.length = (samplePostProcess false 1).PostProcessCount.toNat ∧
      scene.program = (samplePostProcess false 1).TavernProgram ∧
      scene.target = (samplePostProcess false 1).RawRenderTex ∧
      (∀ d ∈ filters, d.program = (samplePostProcess false 1).PostProcessProgram) ∧
      present.program = (samplePostProcess false 1).RenderProgram ∧ present.framebuffer = 0 ∧
      ((samplePostProcess false 1).PostProcessCount ≤ 0 →
        filters = [] ∧ present.sampled = (samplePostProcess false 1).RawRenderTex) ∧
      (0 < (samplePostProcess false 1).PostProcessCount →
        present.sampled = (samplePostProcess false 1).ppRenderTex
          (index (!(Update 800 600 (samplePostProcess false 1) sampleContext).1.pp)) ∧
        ∃ last, filters[(samplePostProcess false 1).PostProcessCount.toNat - 1]? = some last ∧
          last.framebuffer = (samplePostProcess false 1).ppFBO
            (index (!(Update 800 600 (samplePostProcess false 1) sampleContext).1.pp)) ∧
          last.target = present.sampled) :=
  ⟨by decide, present_stage_source 800 600 (samplePostProcess false 1) sampleContext (by decide)⟩

/-- C8: for every iteration count `<= 0` (in particular 0), `RenderPingPong` issues exactly
four calls (use the program, set two uniforms, bind framebuffer 0): the only framebuffer it
binds is the default one, so neither `ppFBO[0]` nor `ppFBO[1]` (framebuffer object names are
non-zero); it issues no clear and no draw, binds no texture, and leaves `pp`, every texture
and the screen unchanged; the `RenderScreen` that follows in the frame binds `RawRenderTex`,
and samples it when texture unit 0 is the active one. -/
theorem RenderPingPong_bypass (iteration : Int) (s : demo_postprocess) (g : Context)
    (hk : iteration ≤ 0) :
    (RenderPingPong iteration s g).1 = s ∧
    (RenderPingPong iteration s g).2.calls = g.calls ++
      [.glUseProgram s.PostProcessProgram, .glUniform s.PostProcessProgram .uOffset,
       .glUniform s.PostProcessProgram .uKernel, .glBindFramebuffer 0] ∧
    (∀ c ∈ (RenderPingPong iteration s g).2.calls.drop g.calls.length,
      (∀ f, c = .glBindFramebuffer f → f = 0) ∧
      (∀ i, s.ppFBO i ≠ 0 → c ≠ .glBindFramebuffer (s.ppFBO i)) ∧
      (∀ a b, c ≠ .glDrawArrays a b) ∧ (∀ t, c ≠ .glBindTexture t) ∧ c ≠ .glClear) ∧
    (RenderPingPong iteration s g).2.draws = g.draws ∧
    (RenderPingPong iteration s g).2.TexImage = g.TexImage ∧
    (RenderPingPong iteration s g).2.Screen = g.Screen ∧
    (s.PostProcessCount = iteration → ∀ W H : Int, ∃ d,
      (RenderScreen (RenderPingPong iteration s g).1
        ((RenderPingPong iteration s g).2.call (.glViewport 0 0 W H))).draws = g.draws ++ [d] ∧
      d.framebuffer = 0 ∧ d.bound = s.RawRenderTex ∧
      (g.ActiveTexture = 0 → d.sampled = s.RawRenderTex)) := by
  have h0 : iteration.toNat = 0 := Int.toNat_eq_zero.2 hk
  have hs : (RenderPingPong iteration s g).1 = s := by
    simp only [RenderPingPong, h0, List.range_zero, List.foldl_nil]
  have hc : (RenderPingPong iteration s g).2.calls = g.calls ++
      [.glUseProgram s.PostProcessProgram, .glUniform s.PostProcessProgram .uOffset,
       .glUniform s.PostProcessProgram .uKernel, .glBindFramebuffer 0] := by
    simp [RenderPingPong, h0, Context.call, Context.effect]
  have hd : (RenderPingPong iteration s g).2.draws = g.draws := by
    simp [RenderPingPong, h0, Context.call, Context.effect]
  refine ⟨hs, hc, ?_, hd, ?_, ?_, ?_⟩
  · intro c hmem
    rw [hc, List.drop_left] at hmem
    simp only [List.mem_cons, List.mem_singleton, List.not_mem_nil, or_false] at hmem
    rcases hmem with rfl | rfl | rfl | rfl
    · simp
    · simp
    · simp
    · refine ⟨fun f h => ?_, fun i hi h => ?_, by simp, by simp, by simp⟩
      · injection h with h
        exact h.symm
      · injection h with h
        exact hi h.symm
  · simp [RenderPingPong, h0, Context.call, Context.effect]
  · simp [RenderPingPong, h0, Context.call, Context.effect]
  · intro hcount W H
    refine ⟨presentDraw (RenderPingPong iteration s g).1
      ((RenderPingPong iteration s g).2.call (.glViewport 0 0 W H)), ?_, ?_, ?_, ?_⟩
    · rw [RenderScreen_spec]
      show (RenderPingPong iteration s g).2.draws ++ _ = _
      rw [hd]
    · simp [presentDraw, RenderPingPong, Context.call, Context.effect]
    · rw [hs]
      simp only [presentDraw, presentSource, if_neg (not_lt.2 (hcount ▸ hk))]
    · intro ha
      rw [hs]
      simp [presentDraw, presentSource, not_lt.2 (hcount ▸ hk), RenderPingPong, h0,
        Context.call, Context.effect, ha]

/-- Witness of `RenderPingPong_bypass`: zero iterations on the sample demo. -/
theorem RenderPingPong_bypass_witness :
    (0 : Int) ≤ 0 ∧
    (RenderPingPong 0 (samplePostProcess true 0) sampleContext).1 = samplePostProcess true 0 ∧
    (RenderPingPong 0 (samplePostProcess true 0) sampleContext).2.draws = sampleContext.draws ∧
    (RenderPingPong 0 (samplePostProcess true 0) sampleContext).2.TexImage
      = sampleContext.TexImage :=
  have h := RenderPingPong_bypass 0 (samplePostProcess true 0) sampleContext (by decide)
  ⟨by decide, h.1, h.2.2.2.1, h.2.2.2.2.1⟩

/-- C9 (amended): for every iteration count `k > 0` and every initial parity `p`, after
`RenderPingPong` has run its `k` iterations the flag `pp` (false = 0, true = 1) equals
`(p + k) mod 2`; it equals `k mod 2` when the flag is false on entry, as in the first frame
after construction. -/
theorem RenderPingPong_parity (k : Int) (s : demo_postprocess) (g : Context) (hk : 0 < k) :
    (((RenderPingPong k s g).1.pp.toNat : Int) = (s.pp.toNat + k) % 2) ∧
    (s.pp = false → ((RenderPingPong k s g).1.pp.toNat : Int) = k % 2) := by
  obtain ⟨h1, _⟩ := RenderPingPong_spec k s g
  have hn : (k.toNat : Int) = k := Int.toNat_of_nonneg (Int.le_of_lt hk)
  rw [h1]
  simp only [parityAfter]
  rcases Nat.mod_two_eq_zero_or_one k.toNat with h | h
  · have hk2 : k % 2 = 0 := by omega
    cases hp : s.pp
    · simp [h, hk2]
    · simp [h, hk2]; omega
  · have hk2 : k % 2 = 1 := by omega
    cases hp : s.pp
    · simp [h, hk2]
    · simp [h, hk2]; omega

/-- Witness of `RenderPingPong_parity`: three iterations. -/
theorem RenderPingPong_parity_witness :
    (0 : Int) < 3 ∧
    (((RenderPingPong 3 (samplePostProcess true 3) sampleContext).1.pp.toNat : Int)
      = ((samplePostProcess true 3).pp.toNat + 3) % 2) ∧
    ((samplePostProcess true 3).pp = false →
      ((RenderPingPong 3 (samplePostProcess true 3) sampleContext).1.pp.toNat : Int) = 3 % 2) :=
  ⟨by decide, RenderPingPong_parity 3 (samplePostProcess true 3) sampleContext (by decide)⟩

/-- C9, counterexample: entered with `pp = true` (as after a first frame with one iteration),
`RenderPingPong(1)` leaves `pp = false`, that is 0, while `1 mod 2 = 1`. -/
theorem RenderPingPong_parity_depends_on_entry :
    (0 : Int) < 1 ∧
    (RenderPingPong 1 (samplePostProcess true 1) sampleContext).1.pp = false ∧
    ((RenderPingPong 1 (samplePostProcess true 1) sampleContext).1.pp.toNat : Int) ≠ 1 % 2 := by
  have h : (RenderPingPong 1 (samplePostProcess true 1) sampleContext).1.pp = false := by
    rw [(RenderPingPong_spec 1 (samplePostProcess true 1) sampleContext).1]
    rfl
  refine ⟨by decide, h, ?_⟩
  rw [h]
  decide

/-- C10: in every iteration `i` of `RenderPingPong`, for every initial parity and every
iteration count, with the ping-pong framebuffers attached as the constructor leaves them and
`RawRenderTex`, `ppRenderTex[0]`, `ppRenderTex[1]` distinct: the draw goes to `ppFBO[pp]`,
whose colour attachment is `ppRenderTex[pp]`; the texture bound for sampling is
`RawRenderTex` when `i == 0` and `ppRenderTex[!pp]` otherwise; and the two differ. When
texture unit 0 is the active one the bound texture is the one sampled. -/
theorem RenderPingPong_no_hazard (iteration : Int) (s : demo_postprocess) (g : Context)
    (hatt : PingPongAttached s g)
    (hdist : s.RawRenderTex ≠ s.ppRenderTex 0 ∧ s.RawRenderTex ≠ s.ppRenderTex 1 ∧
      s.ppRenderTex 0 ≠ s.ppRenderTex 1) :
    (RenderPingPong iteration s g).2.draws.length = g.draws.length + iteration.toNat ∧
    ∀ i, i < iteration.toNat → ∃ d,
      (RenderPingPong iteration s g).2.draws[g.draws.length + i]? = some d ∧
      d.framebuffer = s.ppFBO (index (parityAfter s.pp i)) ∧
      d.target = s.ppRenderTex (index (parityAfter s.pp i)) ∧
      d.bound = (if i = 0 then s.RawRenderTex
        else s.ppRenderTex (index (!parityAfter s.pp i))) ∧
      d.bound ≠ d.target ∧
      (g.ActiveTexture = 0 → d.sampled = d.bound) := by
  obtain ⟨hP0, hP1, hA0, hA1⟩ := hatt
  obtain ⟨hd0, hd1, hd01⟩ := hdist
  obtain ⟨_, _, _, _, h5⟩ := RenderPingPong_spec iteration s g
  refine ⟨by rw [h5]; simp, ?_⟩
  intro i hi
  have htarget : (filterDraw s g i).target = s.ppRenderTex (index (parityAfter s.pp i)) := by
    simp only [filterDraw]
    rcases index_cases (parityAfter s.pp i) with ⟨h, _⟩ | ⟨h, _⟩
    · rw [h, if_neg hP0, hA0]
    · rw [h, if_neg hP1, hA1]
  refine ⟨filterDraw s g i, ?_, rfl, htarget, rfl, ?_, ?_⟩
  · rw [h5, List.getElem?_append_right (Nat.le_add_right _ _), Nat.add_sub_cancel_left]
    simp [List.getElem?_map, List.getElem?_range, hi]
  · rw [htarget]
    simp only [filterDraw, filterSource]
    rcases index_cases (parityAfter s.pp i) with ⟨h, h'⟩ | ⟨h, h'⟩
    · rw [h, h']
      split
      · exact hd0
      · exact Ne.symm hd01
    · rw [h, h']
      split
      · exact hd1
      · exact hd01
  · intro ha
    simp only [filterDraw, if_pos ha]

/-- Witness of `RenderPingPong_no_hazard`: three iterations on the sample demo. -/
theorem RenderPingPong_no_hazard_witness :
    PingPongAttached (samplePostProcess false 3) sampleContext ∧
    ((samplePostProcess false 3).RawRenderTex ≠ (samplePostProcess false 3).ppRenderTex 0 ∧
      (samplePostProcess false 3).RawRenderTex ≠ (samplePostProcess false 3).ppRenderTex 1 ∧
      (samplePostProcess false 3).ppRenderTex 0 ≠ (samplePostProcess false 3).ppRenderTex 1) ∧
    (RenderPingPong 3 (samplePostProcess false 3) sampleContext).2.draws.length
      = sampleContext.draws.length + (3 : Int).toNat :=
  ⟨by decide, by decide,
    (RenderPingPong_no_hazard 3 (samplePostProcess false 3) sampleContext (by decide)
      (by decide)).1⟩

/-! ## Filter input chaining -/

theorem filterDraw_target (s : demo_postprocess) (g : Context) (hatt : PingPongAttached s g)
    (i : Nat) : (filterDraw s g i).target = s.ppRenderTex (index (parityAfter s.pp i)) := by
  obtain ⟨hP0, hP1, hA0, hA1⟩ := hatt
  simp only [filterDraw]
  rcases index_cases (parityAfter s.pp i) with ⟨h, _⟩ | ⟨h, _⟩
  · rw [h, if_neg hP0, hA0]
  · rw [h, if_neg hP1, hA1]

theorem RenderPingPong_draw_at (iteration : Int) (s : demo_postprocess) (g : Context)
    (i : Nat) (hi : i < iteration.toNat) :
    (RenderPingPong iteration s g).2.draws[g.draws.length + i]? = some (filterDraw s g i) := by
  obtain ⟨_, _, _, _, h5⟩ := RenderPingPong_spec iteration s g
  rw [h5, List.getElem?_append_right (Nat.le_add_right _ _), Nat.add_sub_cancel_left]
  simp [List.getElem?_map, List.getElem?_range, hi]

/-- C11: in `RenderPingPong(n)`, for every initial parity and with the ping-pong framebuffers
attached as the constructor leaves them, iteration 0 binds the scene stage's output
`RawRenderTex` for sampling, and every iteration `k` with `0 < k < n` binds exactly the texture
iteration `k - 1` rendered into, the colour attachment of the framebuffer bound in iteration
`k - 1`; the bound texture is the one sampled when texture unit 0 is active. Each iteration
draws into `ppFBO[pp]` and then flips `pp`. -/
theorem RenderPingPong_chaining (n : Int) (s : demo_postprocess) (g : Context)
    (hatt : PingPongAttached s g) :
    (∀ (s1 : demo_postprocess) (g1 : Context) (i : Nat),
      (RenderPingPong.body (s1, g1) i).1.pp = (!s1.pp) ∧
      ∃ d, (RenderPingPong.body (s1, g1) i).2.draws = g1.draws ++ [d] ∧
        d.framebuffer = s1.ppFBO (index s1.pp)) ∧
    (RenderPingPong n s g).1.pp = parityAfter s.pp n.toNat ∧
    ∀ k, k < n.toNat → ∃ d,
      (RenderPingPong n s g).2.draws[g.draws.length + k]? = some d ∧
      d.framebuffer = s.ppFBO (index (parityAfter s.pp k)) ∧
      d.target = s.ppRenderTex (index (parityAfter s.pp k)) ∧
      (g.ActiveTexture = 0 → d.sampled = d.bound) ∧
      (k = 0 → d.bound = s.RawRenderTex) ∧
      (0 < k → ∃ dprev,
        (RenderPingPong n s g).2.draws[g.draws.length + (k - 1)]? = some dprev ∧
        dprev.framebuffer = s.ppFBO (index (parityAfter s.pp (k - 1))) ∧
        parityAfter s.pp k = (!parityAfter s.pp (k - 1)) ∧
        d.bound = dprev.target ∧
        d.bound = g.ColorAttachment0 dprev.framebuffer) := by
  refine ⟨?_, ?_, ?_⟩
  · intro s1 g1 i
    refine ⟨rfl, ?_⟩
    simp only [RenderPingPong.body, Context.call, Context.effect, write_draws,
      write_Framebuffer]
    exact ⟨_, rfl, rfl⟩
  · rw [(RenderPingPong_spec n s g).1]
  · intro k hk
    refine ⟨filterDraw s g k, RenderPingPong_draw_at n s g k hk, rfl,
      filterDraw_target s g hatt k, ?_, ?_, ?_⟩
    · intro ha
      simp only [filterDraw, if_pos ha]
    · intro h0
      simp only [filterDraw, filterSource, if_pos h0]
    · intro hpos
      obtain ⟨m, rfl⟩ : ∃ m, k = m + 1 := ⟨k - 1, (Nat.succ_pred_eq_of_pos hpos).symm⟩
      have hb : (filterDraw s g (m + 1)).bound = s.ppRenderTex (index (parityAfter s.pp m)) := by
        simp only [filterDraw, filterSource, parityAfter_succ, Bool.not_not]
        rw [if_neg (Nat.succ_ne_zero m)]
      have ht := filterDraw_target s g hatt m
      refine ⟨filterDraw s g m, RenderPingPong_draw_at n s g m (by omega), rfl,
        parityAfter_succ s.pp m, by rw [hb, ht], ?_⟩
      rw [hb]
      obtain ⟨hP0, hP1, hA0, hA1⟩ := hatt
      simp only [filterDraw]
      rcases index_cases (parityAfter s.pp m) with ⟨h, _⟩ | ⟨h, _⟩
      · rw [h, hA0]
      · rw [h, hA1]

/-- Witness of `RenderPingPong_chaining`: three iterations on the sample demo. -/
theorem RenderPingPong_chaining_witness :
    PingPongAttached (samplePostProcess true 3) sampleContext ∧
    (RenderPingPong 3 (samplePostProcess true 3) sampleContext).1.pp
      = parityAfter (samplePostProcess true 3).pp (3 : Int).toNat :=
  ⟨by decide,
    (RenderPingPong_chaining 3 (samplePostProcess true 3) sampleContext (by decide)).2.1⟩

/-! ## Pass order and final target -/

theorem demo_shadowmap_Update_spec (W H : Int) (s : demo_shadowmap) (g : ShadowContext) :
    (s.Update W H g).draws = g.draws ++ [depthDraw s g, litDraw W H s] := by
  simp [demo_shadowmap.Update, demo_shadowmap.RenderTavern, demo_shadowmap.RenderTavernDepthMap,
    ShadowContext.call, ShadowContext.effect, depthDraw, litDraw, Function.update_apply]

theorem createDepthFramebuffer_attached (s : demo_shadowmap) (g : ShadowContext)
    (h0 : s.DepthFBO ≠ 0) : DepthAttached s (s.createDepthFramebuffer g) := by
  refine ⟨h0, ?_⟩
  simp [demo_shadowmap.createDepthFramebuffer, ShadowContext.call, ShadowContext.effect, h0]

theorem filterDraw_frame_sampled (s : demo_postprocess) (g : Context) (i : Nat) :
    (filterDraw s { g with ActiveTexture := 0 } i).sampled
      = filterSource s (parityAfter s.pp i) i := by
  simp only [filterDraw, if_true]

theorem presentSource_after (s : demo_postprocess) (m : Nat)
    (hm : s.PostProcessCount.toNat = m + 1) :
    presentSource { s with pp := parityAfter s.pp s.PostProcessCount.toNat }
      = s.ppRenderTex (index (parityAfter s.pp m)) := by
  have hpos : 0 < s.PostProcessCount := by
    by_contra h
    rw [Int.toNat_eq_zero.2 (not_lt.1 h)] at hm
    exact Nat.succ_ne_zero m hm.symm
  simp only [presentSource, if_pos hpos, hm, parityAfter_succ, Bool.not_not]

/-- C19: in one `demo_postprocess::Update`, for every iteration count and every initial
parity, with the framebuffers attached as the constructor leaves them, the draws of the frame
are the scene draw, the filter draws and the present draw, in this order, and the texture
sampled by each filter draw and by the present draw is the colour attachment drawn into by
the draw just before it (scene stage before iteration 0, iteration `k - 1` before iteration
`k`, last iteration or scene stage before the present stage). In one
`demo_shadowmap::Update`, with `DepthMap` attached to `DepthFBO`, the draws are the depth
stage's draw into `DepthMap` followed by the lit stage's draw whose shadow sampler unit holds
`DepthMap`. -/
theorem passes_follow_their_inputs (W H : Int) (s : demo_postprocess) (g : Context)
    (hc : Constructed s g) (t : demo_shadowmap) (gt : ShadowContext)
    (ht : DepthAttached t gt) :
    (∃ scene filters present,
      (Update W H s g).2.draws = g.draws ++ scene :: (filters ++ [present]) ∧
      filters.length = s.PostProcessCount.toNat ∧
      scene.program = s.TavernProgram ∧ scene.target = s.RawRenderTex ∧
      (∀ (k : Nat) (d : DrawRecord), filters[k]? = some d →
        d.program = s.PostProcessProgram ∧
        ∃ dprev : DrawRecord, (scene :: filters)[k]? = some dprev ∧
          d.sampled = dprev.target) ∧
      present.program = s.RenderProgram ∧
      ∃ dlast : DrawRecord, (scene :: filters)[filters.length]? = some dlast ∧
        present.sampled = dlast.target) ∧
    (∃ depth lit,
      (t.Update W H gt).draws = gt.draws ++ [depth, lit] ∧
      depth.program = t.DepthProgram ∧ depth.framebuffer = t.DepthFBO ∧
      depth.depthTarget = t.DepthMap ∧
      lit.program = t.TavernProgram ∧ lit.unit2 = t.DepthMap) := by
  constructor
  · obtain ⟨hF, hFa, hatt⟩ := hc
    have hatt0 : PingPongAttached s { g with ActiveTexture := 0 } := hatt
    obtain ⟨_, u2⟩ := Update_spec W H s g
    have hscene : (sceneDraw s g).target = s.RawRenderTex := by
      simp only [sceneDraw, if_neg hF, hFa]
    refine ⟨_, _, _, u2, by simp, rfl, hscene, ?_, rfl, ?_⟩
    · intro k d hk
      rw [List.getElem?_map] at hk
      have hlt : k < s.PostProcessCount.toNat := by
        by_contra hge
        rw [List.getElem?_eq_none (by simpa using hge)] at hk
        simp at hk
      rw [List.getElem?_range hlt] at hk
      simp only [Option.map_some', Option.some.injEq] at hk
      subst hk
      refine ⟨rfl, ?_⟩
      cases k with
      | zero =>
        refine ⟨sceneDraw s g, List.getElem?_cons_zero, ?_⟩
        rw [filterDraw_frame_sampled, hscene]
        simp only [filterSource, if_true]
      | succ m =>
        refine ⟨filterDraw s { g with ActiveTexture := 0 } m, ?_, ?_⟩
        · rw [List.getElem?_cons_succ, List.getElem?_map,
            List.getElem?_range (Nat.lt_of_succ_lt hlt)]
          rfl
        · rw [filterDraw_frame_sampled, filterDraw_target s _ hatt0 m]
          simp only [filterSource, if_neg (Nat.succ_ne_zero m), parityAfter_succ, Bool.not_not]
    · simp only [List.length_map, List.length_range]
      cases hn : s.PostProcessCount.toNat with
      | zero =>
        refine ⟨sceneDraw s g, List.getElem?_cons_zero, ?_⟩
        have hle : s.PostProcessCount ≤ 0 := Int.toNat_eq_zero.1 hn
        rw [hscene]
        simp only [framePresentDraw, presentSource, if_neg (not_lt.2 hle)]
      | succ m =>
        refine ⟨filterDraw s { g with ActiveTexture := 0 } m, ?_, ?_⟩
        · rw [List.getElem?_cons_succ, List.getElem?_map,
            List.getElem?_range (Nat.lt_succ_self m)]
          rfl
        · rw [filterDraw_target s _ hatt0 m]
          have := presentSource_after s m hn
          rw [hn] at this
          exact this
  · obtain ⟨h0, h1⟩ := ht
    refine ⟨_, _, demo_shadowmap_Update_spec W H t gt, rfl, rfl, ?_, rfl, rfl⟩
    simp only [depthDraw, if_neg h0, h1]

/-- Witness of `passes_follow_their_inputs`: a frame with two filter iterations and a frame of
the sample shadow-map demo. -/
theorem passes_follow_their_inputs_witness :
    Constructed (samplePostProcess false 2) sampleContext ∧
    DepthAttached sampleShadowMap sampleShadowContext ∧
    (∃ depth lit,
      (sampleShadowMap.Update 800 600 sampleShadowContext).draws
        = sampleShadowContext.draws ++ [depth, lit] ∧
      depth.program = sampleShadowMap.DepthProgram ∧
      depth.framebuffer = sampleShadowMap.DepthFBO ∧
      depth.depthTarget = sampleShadowMap.DepthMap ∧
      lit.program = sampleShadowMap.TavernProgram ∧ lit.unit2 = sampleShadowMap.DepthMap) :=
  ⟨by decide, by decide,
    (passes_follow_their_inputs 800 600 (samplePostProcess false 2) sampleContext (by decide)
      sampleShadowMap sampleShadowContext (by decide)).2⟩

/-- C20: in every frame of `demo_postprocess::Update`, for every iteration count (zero and
negative counts included) and every entry state, the draw of `RenderScreen`, which follows the
scene draw and the filter draws, is issued with framebuffer 0 bound and the viewport set to
the window size; in every frame of `demo_shadowmap::Update` the draw of `RenderTavern`, which
follows the depth stage's draw, is issued with framebuffer 0 bound and the viewport set to the
window size. -/
theorem final_pass_targets_default_surface (W H : Int) (s : demo_postprocess) (g : Context)
    (t : demo_shadowmap) (gt : ShadowContext) :
    (∃ earlier present,
      (Update W H s g).2.draws = g.draws ++ earlier ++ [present] ∧
      earlier.length = 1 + s.PostProcessCount.toNat ∧
      present.program = s.RenderProgram ∧ present.vertexArray = s.RenderVAO ∧
      present.framebuffer = 0 ∧ present.target = 0 ∧ present.viewport = (0, 0, W, H)) ∧
    (∃ depth lit,
      (t.Update W H gt).draws = gt.draws ++ [depth, lit] ∧
      lit.program = t.TavernProgram ∧ lit.vertexArray = t.TavernVAO ∧
      lit.framebuffer = 0 ∧ lit.viewport = (0, 0, W, H)) := by
  constructor
  · obtain ⟨_, u2⟩ := Update_spec W H s g
    refine ⟨sceneDraw s g ::
      (List.range s.PostProcessCount.toNat).map (filterDraw s { g with ActiveTexture := 0 }),
      framePresentDraw W H { s with pp := parityAfter s.pp s.PostProcessCount.toNat },
      ?_, ?_, rfl, rfl, rfl, rfl, rfl⟩
    · rw [u2]
      simp only [List.append_assoc, List.cons_append]
    · simp only [List.length_cons, List.length_map, List.length_range]
      omega
  · exact ⟨_, _, demo_shadowmap_Update_spec W H t gt, rfl, rfl, rfl, rfl⟩

/-! ## Shadow lookup -/

@[simp] theorem vec3_add_x {F : Type} [Add F] (a b : vec3 F) : (a + b).x = a.x + b.x := rfl

@[simp] theorem vec3_add_y {F : Type} [Add F] (a b : vec3 F) : (a + b).y = a.y + b.y := rfl

@[simp] theorem vec3_add_z {F : Type} [Add F] (a b : vec3 F) : (a + b).z = a.z + b.z := rfl

@[simp] theorem vec3_sub_x {F : Type} [Sub F] (a b : vec3 F) : (a - b).x = a.x - b.x := rfl

@[simp] theorem vec3_sub_y {F : Type} [Sub F] (a b : vec3 F) : (a - b).y = a.y - b.y := rfl

@[simp] theorem vec3_sub_z {F : Type} [Sub F] (a b : vec3 F) : (a - b).z = a.z - b.z := rfl

@[simp] theorem vec3_scale_x {F : Type} [Mul F] (s : F) (a : vec3 F) : (s * a).x = s * a.x := rfl

@[simp] theorem vec3_scale_y {F : Type} [Mul F] (s : F) (a : vec3 F) : (s * a).y = s * a.y := rfl

@[simp] theorem vec3_scale_z {F : Type} [Mul F] (s : F) (a : vec3 F) : (s * a).z = s * a.z := rfl

theorem enlighten_outside {F : Type} (A : FloatArithmetic F) (uShadowMap : sampler2D F)
    (lightSpace : vec4 F) (bias : F)
    (hd : A.gt (A.add (A.mul (A.div lightSpace.z lightSpace.w) (A.const 0.5)) (A.const 0.5))
      (A.const 1.0) = true) :
    enlighten A uShadowMap lightSpace bias = (A.const 1.0, []) := by
  unfold enlighten
  simp only [hd, if_true]

theorem enlighten_inside {F : Type} (A : FloatArithmetic F) (uShadowMap : sampler2D F)
    (lightSpace : vec4 F) (bias : F) (px py d tx ty : F)
    (hpx : px = A.add (A.mul (A.div lightSpace.x lightSpace.w) (A.const 0.5)) (A.const 0.5))
    (hpy : py = A.add (A.mul (A.div lightSpace.y lightSpace.w) (A.const 0.5)) (A.const 0.5))
    (hd : d = A.add (A.mul (A.div lightSpace.z lightSpace.w) (A.const 0.5)) (A.const 0.5))
    (htx : tx = A.div (A.const 1.0) (A.ofInt uShadowMap.width))
    (hty : ty = A.div (A.const 1.0) (A.ofInt uShadowMap.height))
    (hgt : A.gt d (A.const 1.0) = false) :
    enlighten A uShadowMap lightSpace bias
      = (A.div (pcfOffsets.foldl (fun acc o =>
            (A.add acc.1
              (if A.gt (A.sub d bias)
                  (uShadowMap.r
                    ⟨A.add px (A.mul (A.ofInt o.1) tx), A.add py (A.mul (A.ofInt o.2) ty)⟩)
                then A.const 0.0 else A.const 1.0),
              acc.2 ++
                [(⟨A.add px (A.mul (A.ofInt o.1) tx), A.add py (A.mul (A.ofInt o.2) ty)⟩ :
                  vec2 F)]))
          (A.const 0.0, [])).1 (A.const 9.0),
        (pcfOffsets.foldl (fun acc o =>
            (A.add acc.1
              (if A.gt (A.sub d bias)
                  (uShadowMap.r
                    ⟨A.add px (A.mul (A.ofInt o.1) tx), A.add py (A.mul (A.ofInt o.2) ty)⟩)
                then A.const 0.0 else A.const 1.0),
              acc.2 ++
                [(⟨A.add px (A.mul (A.ofInt o.1) tx), A.add py (A.mul (A.ofInt o.2) ty)⟩ :
                  vec2 F)]))
          (A.const 0.0, [])).2) := by
  subst hpx hpy hd htx hty
  unfold enlighten
  simp only [hgt, Bool.false_eq_true, if_false, pcfOffsets, List.foldl_cons, List.foldl_nil]

theorem pcf_fold {F : Type} (A : FloatArithmetic F)
    (hsum : ∀ n : Nat, n < 9 →
      A.add (A.ofInt n) (A.const 0.0) = A.ofInt n ∧
      A.add (A.ofInt n) (A.const 1.0) = A.ofInt (n + 1 : Nat))
    (shadowed : Int × Int → Bool) (coord : Int × Int → vec2 F) (L : List (Int × Int)) (n : Nat)
    (cs : List (vec2 F)) (hn : n + L.length ≤ 9) :
    L.foldl (fun acc o =>
        (A.add acc.1 (if shadowed o then A.const 0.0 else A.const 1.0), acc.2 ++ [coord o]))
        (A.ofInt n, cs)
      = (A.ofInt ((n + (L.filter fun o => !shadowed o).length : Nat)), cs ++ L.map coord) := by
  induction L generalizing n cs with
  | nil => simp
  | cons o L ih =>
    have hlen : (o :: L).length = L.length + 1 := rfl
    rw [hlen] at hn
    rw [List.foldl_cons]
    cases h : shadowed o with
    | true =>
      simp only [if_true, (hsum n (by omega)).1]
      rw [ih n _ (by omega)]
      simp [List.filter_cons, h]
    | false =>
      simp only [Bool.false_eq_true, if_false, (hsum n (by omega)).2]
      rw [ih (n + 1) _ (by omega)]
      simp [List.filter_cons, h]
      congr 1
      omega

theorem exact_const {K : Type} [LinearOrderedField K] :
    (exactArithmetic K).const 0.0 = 0 ∧ (exactArithmetic K).const 0.5 = 1 / 2 ∧
    (exactArithmetic K).const 1.0 = 1 ∧ (exactArithmetic K).const 9.0 = 9 := by
  simp only [exactArithmetic]
  norm_num


theorem binary32_const_eq (q : ℚ) : binary32.const q = binary32_round q := by
  simp only [binary32]

theorem binary32_ofInt_eq (i : Int) : binary32.ofInt i = binary32_round i := by
  simp only [binary32]

theorem binary32_add_some (x y : ℚ) :
    binary32.add (some x) (some y) = binary32_round (x + y) := by
  simp only [binary32, binary32_op]

theorem binary32_sub_some (x y : ℚ) :
    binary32.sub (some x) (some y) = binary32_round (x - y) := by
  simp only [binary32, binary32_op]

theorem binary32_mul_some (x y : ℚ) :
    binary32.mul (some x) (some y) = binary32_round (x * y) := by
  simp only [binary32, binary32_op]

theorem binary32_div_some (x y : ℚ) (h : y ≠ 0) :
    binary32.div (some x) (some y) = binary32_round (x / y) := by
  simp only [binary32, if_neg h]

theorem binary32_gt_some (x y : ℚ) : binary32.gt (some x) (some y) = decide (x > y) := by
  simp only [binary32]

theorem binary32_exponent_eq (q : ℚ) (e : Int) (he : -126 ≤ e) (h1 : 2 ^ e ≤ |q|)
    (h2 : |q| < 2 ^ (e + 1)) : binary32_exponent q = e := by
  have hpos : 0 < |q| := lt_of_lt_of_le (by positivity) h1
  have hc : ((2 : ℕ) : ℚ) = 2 := by norm_num
  have hle : e ≤ Int.log 2 |q| := by
    rw [← Int.zpow_le_iff_le_log (by norm_num) hpos, hc]
    exact h1
  have hlt : Int.log 2 |q| < e + 1 := by
    rw [← Int.lt_zpow_iff_log_lt (by norm_num) hpos, hc]
    exact h2
  unfold binary32_exponent
  omega

theorem roundHalfEven_of_lt (q : ℚ) (n : Int) (h1 : (n : ℚ) - 1 / 2 < q)
    (h2 : q < (n : ℚ) + 1 / 2) : roundHalfEven q = n := by
  unfold roundHalfEven
  rcases lt_or_le q (n : ℚ) with h | h
  · have hf : ⌊q⌋ = n - 1 := by
      rw [Int.floor_eq_iff]
      push_cast
      constructor <;> linarith
    rw [hf]
    push_cast
    rw [if_neg (by linarith), if_pos (by linarith)]
    omega
  · have hf : ⌊q⌋ = n := by
      rw [Int.floor_eq_iff]
      constructor <;> linarith
    rw [hf, if_pos (by linarith)]

theorem roundHalfEven_tie (q : ℚ) (n : Int) (h : q = (n : ℚ) + 1 / 2) :
    roundHalfEven q = if n % 2 = 0 then n else n + 1 := by
  unfold roundHalfEven
  have hf : ⌊q⌋ = n := by
    rw [Int.floor_eq_iff]
    constructor <;> linarith
  rw [hf, if_neg (by linarith), if_neg (by linarith)]

theorem binary32_round_eq (q r : ℚ) (e n : Int) (he : -126 ≤ e) (h1 : 2 ^ e ≤ |q|)
    (h2 : |q| < 2 ^ (e + 1)) (hn : roundHalfEven (q / 2 ^ (e - 23)) = n)
    (hr : r = (n : ℚ) * 2 ^ (e - 23)) (hfin : |r| < 2 ^ 128) : binary32_round q = some r := by
  unfold binary32_round
  simp only [binary32_exponent_eq q e he h1 h2, hn, ← hr, if_pos hfin]

theorem binary32_round_zero : binary32_round 0 = some 0 := by
  unfold binary32_round roundHalfEven
  simp

theorem binary32_round_table :
    binary32_round 0 = some 0 ∧
    binary32_round (1) = some (1) ∧
    binary32_round (2) = some (2) ∧
    binary32_round (3) = some (3) ∧
    binary32_round (4) = some (4) ∧
    binary32_round (5) = some (5) ∧
    binary32_round (6) = some (6) ∧
    binary32_round (7) = some (7) ∧
    binary32_round (8) = some (8) ∧
    binary32_round (9) = some (9) ∧
    binary32_round (1024) = some (1024) ∧
    binary32_round (-1) = some (-1) ∧
    binary32_round (1 / 2) = some (1 / 2) ∧
    binary32_round (1 / 4) = some (1 / 4) ∧
    binary32_round (3 / 4) = some (3 / 4) ∧
    binary32_round (1 / 8) = some (1 / 8) ∧
    binary32_round (3 / 2) = some (3 / 2) ∧
    binary32_round (-(3 / 4)) = some (-(3 / 4)) ∧
    binary32_round (-(3 / 8)) = some (-(3 / 8)) ∧
    binary32_round (1 / 1024) = some (1 / 1024) ∧
    binary32_round (-(1 / 1024)) = some (-(1 / 1024)) ∧
    binary32_round (511 / 1024) = some (511 / 1024) ∧
    binary32_round (513 / 1024) = some (513 / 1024) ∧
    binary32_round (8388609 / 8388608) = some (8388609 / 8388608) ∧
    binary32_round (8388609 / 16777216) = some (8388609 / 16777216) ∧
    binary32_round (16777217 / 16777216) = some (1) ∧
    binary32_round (1 / 200) = some (5368709 / 1073741824) ∧
    binary32_round (1068373115 / 1073741824) = some (8346665 / 8388608) ∧
    binary32_round (799937659 / 1073741824) = some (6249513 / 8388608) ∧
    binary32_round (128849019 / 1073741824) = some (16106127 / 134217728) ∧
    binary32_round (16106127 / 134217728) = some (16106127 / 134217728) ∧
    binary32_round (8346665 / 8388608) = some (8346665 / 8388608) ∧
    binary32_round (6249513 / 8388608) = some (6249513 / 8388608) ∧
    binary32_round (5368709 / 1073741824) = some (5368709 / 1073741824) ∧
    binary32_round (1 / 9) = some (14913081 / 134217728) ∧
    binary32_round (2 / 9) = some (14913081 / 67108864) ∧
    binary32_round (1 / 3) = some (11184811 / 33554432) ∧
    binary32_round (4 / 9) = some (14913081 / 33554432) ∧
    binary32_round (5 / 9) = some (2330169 / 4194304) ∧
    binary32_round (2 / 3) = some (11184811 / 16777216) ∧
    binary32_round (7 / 9) = some (6524473 / 8388608) ∧
    binary32_round (8 / 9) = some (14913081 / 16777216) :=
  ⟨binary32_round_zero,
    binary32_round_eq _ _ (0) (8388608) (by norm_num) (by norm_num [abs_of_pos])
      (by norm_num [abs_of_pos]) (roundHalfEven_of_lt _ _ (by norm_num) (by norm_num))
      (by norm_num) (by norm_num [abs_of_pos]),
    binary32_round_eq _ _ (1) (8388608) (by norm_num) (by norm_num [abs_of_pos])
      (by norm_num [abs_of_pos]) (roundHalfEven_of_lt _ _ (by norm_num) (by norm_num))
      (by norm_num) (by norm_num [abs_of_pos]),
    binary32_round_eq _ _ (1) (12582912) (by norm_num) (by norm_num [abs_of_pos])
      (by norm_num [abs_of_pos]) (roundHalfEven_of_lt _ _ (by norm_num) (by norm_num))
      (by norm_num) (by norm_num [abs_of_pos]),
    binary32_round_eq _ _ (2) (8388608) (by norm_num) (by norm_num [abs_of_pos])
      (by norm_num [abs_of_pos]) (roundHalfEven_of_lt _ _ (by norm_num) (by norm_num))
      (by norm_num) (by norm_num [abs_of_pos]),
    binary32_round_eq _ _ (2) (10485760) (by norm_num) (by norm_num [abs_of_pos])
      (by norm_num [abs_of_pos]) (roundHalfEven_of_lt _ _ (by norm_num) (by norm_num))
      (by norm_num) (by norm_num [abs_of_pos]),
    binary32_round_eq _ _ (2) (12582912) (by norm_num) (by norm_num [abs_of_pos])
      (by norm_num [abs_of_pos]) (roundHalfEven_of_lt _ _ (by norm_num) (by norm_num))
      (by norm_num) (by norm_num [abs_of_pos]),
    binary32_round_eq _ _ (2) (14680064) (by norm_num) (by norm_num [abs_of_pos])
      (by norm_num [abs_of_pos]) (roundHalfEven_of_lt _ _ (by norm_num) (by norm_num))
      (by norm_num) (by norm_num [abs_of_pos]),
    binary32_round_eq _ _ (3) (8388608) (by norm_num) (by norm_num [abs_of_pos])
      (by norm_num [abs_of_pos]) (roundHalfEven_of_lt _ _ (by norm_num) (by norm_num))
      (by norm_num) (by norm_num [abs_of_pos]),
    binary32_round_eq _ _ (3) (9437184) (by norm_num) (by norm_num [abs_of_pos])
      (by norm_num [abs_of_pos]) (roundHalfEven_of_lt _ _ (by norm_num) (by norm_num))
      (by norm_num) (by norm_num [abs_of_pos]),
    binary32_round_eq _ _ (10) (8388608) (by norm_num) (by norm_num [abs_of_pos])
      (by norm_num [abs_of_pos]) (roundHalfEven_of_lt _ _ (by norm_num) (by norm_num))
      (by norm_num) (by norm_num [abs_of_pos]),
    binary32_round_eq _ _ (0) (-8388608) (by norm_num) (by norm_num [abs_of_neg])
      (by norm_num [abs_of_neg]) (roundHalfEven_of_lt _ _ (by norm_num) (by norm_num))
      (by norm_num) (by norm_num [abs_of_neg]),
    binary32_round_eq _ _ (-1) (8388608) (by norm_num) (by norm_num [abs_of_pos])
      (by norm_num [abs_of_pos]) (roundHalfEven_of_lt _ _ (by norm_num) (by norm_num))
      (by norm_num) (by norm_num [abs_of_pos]),
    binary32_round_eq _ _ (-2) (8388608) (by norm_num) (by norm_num [abs_of_pos])
      (by norm_num [abs_of_pos]) (roundHalfEven_of_lt _ _ (by norm_num) (by norm_num))
      (by norm_num) (by norm_num [abs_of_pos]),
    binary32_round_eq _ _ (-1) (12582912) (by norm_num) (by norm_num [abs_of_pos])
      (by norm_num [abs_of_pos]) (roundHalfEven_of_lt _ _ (by norm_num) (by norm_num))
      (by norm_num) (by norm_num [abs_of_pos]),
    binary32_round_eq _ _ (-3) (8388608) (by norm_num) (by norm_num [abs_of_pos])
      (by norm_num [abs_of_pos]) (roundHalfEven_of_lt _ _ (by norm_num) (by norm_num))
      (by norm_num) (by norm_num [abs_of_pos]),
    binary32_round_eq _ _ (0) (12582912) (by norm_num) (by norm_num [abs_of_pos])
      (by norm_num [abs_of_pos]) (roundHalfEven_of_lt _ _ (by norm_num) (by norm_num))
      (by norm_num) (by norm_num [abs_of_pos]),
    binary32_round_eq _ _ (-1) (-12582912) (by norm_num) (by norm_num [abs_of_neg])
      (by norm_num [abs_of_neg]) (roundHalfEven_of_lt _ _ (by norm_num) (by norm_num))
      (by norm_num) (by norm_num [abs_of_neg]),
    binary32_round_eq _ _ (-2) (-12582912) (by norm_num) (by norm_num [abs_of_neg])
      (by norm_num [abs_of_neg]) (roundHalfEven_of_lt _ _ (by norm_num) (by norm_num))
      (by norm_num) (by norm_num [abs_of_neg]),
    binary32_round_eq _ _ (-10) (8388608) (by norm_num) (by norm_num [abs_of_pos])
      (by norm_num [abs_of_pos]) (roundHalfEven_of_lt _ _ (by norm_num) (by norm_num))
      (by norm_num) (by norm_num [abs_of_pos]),
    binary32_round_eq _ _ (-10) (-8388608) (by norm_num) (by norm_num [abs_of_neg])
      (by norm_num [abs_of_neg]) (roundHalfEven_of_lt _ _ (by norm_num) (by norm_num))
      (by norm_num) (by norm_num [abs_of_neg]),
    binary32_round_eq _ _ (-2) (16744448) (by norm_num) (by norm_num [abs_of_pos])
      (by norm_num [abs_of_pos]) (roundHalfEven_of_lt _ _ (by norm_num) (by norm_num))
      (by norm_num) (by norm_num [abs_of_pos]),
    binary32_round_eq _ _ (-1) (8404992) (by norm_num) (by norm_num [abs_of_pos])
      (by norm_num [abs_of_pos]) (roundHalfEven_of_lt _ _ (by norm_num) (by norm_num))
      (by norm_num) (by norm_num [abs_of_pos]),
    binary32_round_eq _ _ (0) (8388609) (by norm_num) (by norm_num [abs_of_pos])
      (by norm_num [abs_of_pos]) (roundHalfEven_of_lt _ _ (by norm_num) (by norm_num))
      (by norm_num) (by norm_num [abs_of_pos]),
    binary32_round_eq _ _ (-1) (8388609) (by norm_num) (by norm_num [abs_of_pos])
      (by norm_num [abs_of_pos]) (roundHalfEven_of_lt _ _ (by norm_num) (by norm_num))
      (by norm_num) (by norm_num [abs_of_pos]),
    binary32_round_eq _ _ (0) (8388608) (by norm_num) (by norm_num [abs_of_pos])
      (by norm_num [abs_of_pos]) ((roundHalfEven_tie _ (8388608) (by norm_num)).trans (by norm_num))
      (by norm_num) (by norm_num [abs_of_pos]),
    binary32_round_eq _ _ (-8) (10737418) (by norm_num) (by norm_num [abs_of_pos])
      (by norm_num [abs_of_pos]) (roundHalfEven_of_lt _ _ (by norm_num) (by norm_num))
      (by norm_num) (by norm_num [abs_of_pos]),
    binary32_round_eq _ _ (-1) (16693330) (by norm_num) (by norm_num [abs_of_pos])
      (by norm_num [abs_of_pos]) (roundHalfEven_of_lt _ _ (by norm_num) (by norm_num))
      (by norm_num) (by norm_num [abs_of_pos]),
    binary32_round_eq _ _ (-1) (12499026) (by norm_num) (by norm_num [abs_of_pos])
      (by norm_num [abs_of_pos]) (roundHalfEven_of_lt _ _ (by norm_num) (by norm_num))
      (by norm_num) (by norm_num [abs_of_pos]),
    binary32_round_eq _ _ (-4) (16106127) (by norm_num) (by norm_num [abs_of_pos])
      (by norm_num [abs_of_pos]) (roundHalfEven_of_lt _ _ (by norm_num) (by norm_num))
      (by norm_num) (by norm_num [abs_of_pos]),
    binary32_round_eq _ _ (-4) (16106127) (by norm_num) (by norm_num [abs_of_pos])
      (by norm_num [abs_of_pos]) (roundHalfEven_of_lt _ _ (by norm_num) (by norm_num))
      (by norm_num) (by norm_num [abs_of_pos]),
    binary32_round_eq _ _ (-1) (16693330) (by norm_num) (by norm_num [abs_of_pos])
      (by norm_num [abs_of_pos]) (roundHalfEven_of_lt _ _ (by norm_num) (by norm_num))
      (by norm_num) (by norm_num [abs_of_pos]),
    binary32_round_eq _ _ (-1) (12499026) (by norm_num) (by norm_num [abs_of_pos])
      (by norm_num [abs_of_pos]) (roundHalfEven_of_lt _ _ (by norm_num) (by norm_num))
      (by norm_num) (by norm_num [abs_of_pos]),
    binary32_round_eq _ _ (-8) (10737418) (by norm_num) (by norm_num [abs_of_pos])
      (by norm_num [abs_of_pos]) (roundHalfEven_of_lt _ _ (by norm_num) (by norm_num))
      (by norm_num) (by norm_num [abs_of_pos]),
    binary32_round_eq _ _ (-4) (14913081) (by norm_num) (by norm_num [abs_of_pos])
      (by norm_num [abs_of_pos]) (roundHalfEven_of_lt _ _ (by norm_num) (by norm_num))
      (by norm_num) (by norm_num [abs_of_pos]),
    binary32_round_eq _ _ (-3) (14913081) (by norm_num) (by norm_num [abs_of_pos])
      (by norm_num [abs_of_pos]) (roundHalfEven_of_lt _ _ (by norm_num) (by norm_num))
      (by norm_num) (by norm_num [abs_of_pos]),
    binary32_round_eq _ _ (-2) (11184811) (by norm_num) (by norm_num [abs_of_pos])
      (by norm_num [abs_of_pos]) (roundHalfEven_of_lt _ _ (by norm_num) (by norm_num))
      (by norm_num) (by norm_num [abs_of_pos]),
    binary32_round_eq _ _ (-2) (14913081) (by norm_num) (by norm_num [abs_of_pos])
      (by norm_num [abs_of_pos]) (roundHalfEven_of_lt _ _ (by norm_num) (by norm_num))
      (by norm_num) (by norm_num [abs_of_pos]),
    binary32_round_eq _ _ (-1) (9320676) (by norm_num) (by norm_num [abs_of_pos])
      (by norm_num [abs_of_pos]) (roundHalfEven_of_lt _ _ (by norm_num) (by norm_num))
      (by norm_num) (by norm_num [abs_of_pos]),
    binary32_round_eq _ _ (-1) (11184811) (by norm_num) (by norm_num [abs_of_pos])
      (by norm_num [abs_of_pos]) (roundHalfEven_of_lt _ _ (by norm_num) (by norm_num))
      (by norm_num) (by norm_num [abs_of_pos]),
    binary32_round_eq _ _ (-1) (13048946) (by norm_num) (by norm_num [abs_of_pos])
      (by norm_num [abs_of_pos]) (roundHalfEven_of_lt _ _ (by norm_num) (by norm_num))
      (by norm_num) (by norm_num [abs_of_pos]),
    binary32_round_eq _ _ (-1) (14913081) (by norm_num) (by norm_num [abs_of_pos])
      (by norm_num [abs_of_pos]) (roundHalfEven_of_lt _ _ (by norm_num) (by norm_num))
      (by norm_num) (by norm_num [abs_of_pos])⟩

theorem enlighten_count {F : Type} (A : FloatArithmetic F) (uShadowMap : sampler2D F)
    (lightSpace : vec4 F) (bias : F) (px py d tx ty : F)
    (hpx : px = A.add (A.mul (A.div lightSpace.x lightSpace.w) (A.const 0.5)) (A.const 0.5))
    (hpy : py = A.add (A.mul (A.div lightSpace.y lightSpace.w) (A.const 0.5)) (A.const 0.5))
    (hd : d = A.add (A.mul (A.div lightSpace.z lightSpace.w) (A.const 0.5)) (A.const 0.5))
    (htx : tx = A.div (A.const 1.0) (A.ofInt uShadowMap.width))
    (hty : ty = A.div (A.const 1.0) (A.ofInt uShadowMap.height))
    (hgt : A.gt d (A.const 1.0) = false)
    (hzero : A.const 0.0 = A.ofInt 0)
    (hsum : ∀ n : Nat, n < 9 →
      A.add (A.ofInt n) (A.const 0.0) = A.ofInt n ∧
      A.add (A.ofInt n) (A.const 1.0) = A.ofInt (n + 1 : Nat)) :
    enlighten A uShadowMap lightSpace bias
      = (A.div
          (A.ofInt ((pcfOffsets.filter fun o =>
            !A.gt (A.sub d bias)
              (uShadowMap.r
                ⟨A.add px (A.mul (A.ofInt o.1) tx), A.add py (A.mul (A.ofInt o.2) ty)⟩)).length :
            Nat))
          (A.const 9.0),
        pcfOffsets.map fun o =>
          (⟨A.add px (A.mul (A.ofInt o.1) tx), A.add py (A.mul (A.ofInt o.2) ty)⟩ : vec2 F)) := by
  have hfold := pcf_fold A hsum
    (fun o => A.gt (A.sub d bias)
      (uShadowMap.r ⟨A.add px (A.mul (A.ofInt o.1) tx), A.add py (A.mul (A.ofInt o.2) ty)⟩))
    (fun o => ⟨A.add px (A.mul (A.ofInt o.1) tx), A.add py (A.mul (A.ofInt o.2) ty)⟩)
    pcfOffsets 0 [] (by decide)
  rw [enlighten_inside A uShadowMap lightSpace bias px py d tx ty hpx hpy hd htx hty hgt]
  simp only [Nat.cast_zero, Nat.zero_add, List.nil_append] at hfold
  rw [hzero] at hfold ⊢
  rw [hfold]

theorem exact_counts {K : Type} [LinearOrderedField K] :
    (exactArithmetic K).const 0.0 = (exactArithmetic K).ofInt 0 ∧
    ∀ n : Nat, n < 9 →
      (exactArithmetic K).add ((exactArithmetic K).ofInt n) ((exactArithmetic K).const 0.0)
        = (exactArithmetic K).ofInt n ∧
      (exactArithmetic K).add ((exactArithmetic K).ofInt n) ((exactArithmetic K).const 1.0)
        = (exactArithmetic K).ofInt (n + 1 : Nat) := by
  refine ⟨?_, fun n _ => ⟨?_, ?_⟩⟩ <;> simp only [exactArithmetic] <;> push_cast <;> norm_num

theorem binary32_counts :
    binary32.const 0.0 = binary32.ofInt 0 ∧
    ∀ n : Nat, n < 9 →
      binary32.add (binary32.ofInt n) (binary32.const 0.0) = binary32.ofInt n ∧
      binary32.add (binary32.ofInt n) (binary32.const 1.0) = binary32.ofInt (n + 1 : Nat) := by
  refine ⟨by norm_num [binary32_const_eq, binary32_ofInt_eq], fun n hn => ?_⟩
  interval_cases n <;>
    norm_num [binary32_const_eq, binary32_ofInt_eq, binary32_add_some, binary32_round_table]

theorem binary32_ninths :
    (List.range 10).map (fun n : Nat => binary32.div (binary32.ofInt n) (binary32.const 9.0))
      = [some 0, some (14913081 / 134217728), some (14913081 / 67108864),
          some (11184811 / 33554432), some (14913081 / 33554432), some (2330169 / 4194304),
          some (11184811 / 16777216), some (6524473 / 8388608), some (14913081 / 16777216),
          some 1] := by
  norm_num [List.range, List.range.loop, binary32_const_eq, binary32_ofInt_eq,
    binary32_div_some, binary32_round_table]

theorem binary32_ninths_range (n : Nat) (hn : n ≤ 9) :
    ∃ q : ℚ, binary32.div (binary32.ofInt n) (binary32.const 9.0) = some q ∧ 0 ≤ q ∧ q ≤ 1 := by
  interval_cases n <;>
    norm_num [binary32_const_eq, binary32_ofInt_eq, binary32_div_some, binary32_round_table]

theorem enlighten_exact {K : Type} [LinearOrderedField K] (uShadowMap : sampler2D K)
    (p : vec4 K) (b : K) (hd : p.z / p.w * 0.5 + 0.5 ≤ 1.0) :
    (enlighten (exactArithmetic K) uShadowMap p b).1
      = ((pcfOffsets.filter fun o =>
          !decide (p.z / p.w * 0.5 + 0.5 - b >
            uShadowMap.r
              ⟨p.x / p.w * 0.5 + 0.5 + (o.1 : K) * (1.0 / (uShadowMap.width : K)),
                p.y / p.w * 0.5 + 0.5 + (o.2 : K) * (1.0 / (uShadowMap.height : K))⟩)).length :
          K) / 9 := by
  have hgt : (exactArithmetic K).gt
      ((exactArithmetic K).add ((exactArithmetic K).mul ((exactArithmetic K).div p.z p.w)
        ((exactArithmetic K).const 0.5)) ((exactArithmetic K).const 0.5))
      ((exactArithmetic K).const 1.0) = false := by
    rw [exact_const.2.1, exact_const.2.2.1]
    simp only [exactArithmetic, decide_eq_false_iff_not, not_lt]
    norm_num at hd ⊢
    linarith
  rw [enlighten_count (exactArithmetic K) uShadowMap p b _ _ _ _ _ rfl rfl rfl rfl rfl hgt
    exact_counts.1 exact_counts.2]
  simp only [exact_const.2.1, exact_const.2.2.1, exact_const.2.2.2]
  simp only [exactArithmetic]
  norm_num

theorem uniformShadowTexture32_width (depth : ℚ) :
    (uniformShadowTexture32 depth).width = 1024 := by
  simp only [uniformShadowTexture32]

theorem uniformShadowTexture32_height (depth : ℚ) :
    (uniformShadowTexture32 depth).height = 1024 := by
  simp only [uniformShadowTexture32]

theorem uniformShadowTexture32_r (depth : ℚ) (c : vec2 (Option ℚ)) :
    (uniformShadowTexture32 depth).r c = some depth := by
  simp only [uniformShadowTexture32]

theorem sampleShadowTexture32_width : sampleShadowTexture32.width = 1024 := by
  simp only [sampleShadowTexture32]

theorem sampleShadowTexture32_height : sampleShadowTexture32.height = 1024 := by
  simp only [sampleShadowTexture32]

theorem sampleShadowTexture32_r (x : ℚ) (y : Option ℚ) :
    sampleShadowTexture32.r ⟨some x, y⟩ = if x < 1 / 2 then some (1 / 2) else some 1 := by
  simp only [sampleShadowTexture32]

theorem pcfOffsets_map {T : Type} (f : Int × Int → T) :
    pcfOffsets.map f
      = [f (-1, -1), f (-1, 0), f (-1, 1), f (0, -1), f (0, 0), f (0, 1), f (1, -1), f (1, 0),
          f (1, 1)] := by
  simp only [pcfOffsets, List.map]

theorem ite_not_one_zero (b : Bool) :
    (if (!b) = true then 1 else 0) = if b = true then 0 else 1 := by
  cases b <;> rfl

theorem pcfOffsets_count (s : Int × Int → Bool) :
    (pcfOffsets.filter fun o => !s o).length
      = (if s (-1, -1) then 0 else 1) + (if s (-1, 0) then 0 else 1)
        + (if s (-1, 1) then 0 else 1) + (if s (0, -1) then 0 else 1)
        + (if s (0, 0) then 0 else 1) + (if s (0, 1) then 0 else 1)
        + (if s (1, -1) then 0 else 1) + (if s (1, 0) then 0 else 1)
        + (if s (1, 1) then 0 else 1) := by
  rw [← List.countP_eq_length_filter]
  simp only [pcfOffsets, List.countP_cons, List.countP_nil, ite_not_one_zero]
  ring

theorem enlighten_nine {F : Type} (A : FloatArithmetic F) (uShadowMap : sampler2D F)
    (lightSpace : vec4 F) (bias : F) (px py d tx ty : F)
    (hpx : px = A.add (A.mul (A.div lightSpace.x lightSpace.w) (A.const 0.5)) (A.const 0.5))
    (hpy : py = A.add (A.mul (A.div lightSpace.y lightSpace.w) (A.const 0.5)) (A.const 0.5))
    (hd : d = A.add (A.mul (A.div lightSpace.z lightSpace.w) (A.const 0.5)) (A.const 0.5))
    (htx : tx = A.div (A.const 1.0) (A.ofInt uShadowMap.width))
    (hty : ty = A.div (A.const 1.0) (A.ofInt uShadowMap.height))
    (hgt : A.gt d (A.const 1.0) = false)
    (hzero : A.const 0.0 = A.ofInt 0)
    (hsum : ∀ n : Nat, n < 9 →
      A.add (A.ofInt n) (A.const 0.0) = A.ofInt n ∧
      A.add (A.ofInt n) (A.const 1.0) = A.ofInt (n + 1 : Nat)) :
    enlighten A uShadowMap lightSpace bias
      = (A.div
          (A.ofInt
            (((if A.gt (A.sub d bias) (uShadowMap.r
                  ⟨A.add px (A.mul (A.ofInt (-1)) tx), A.add py (A.mul (A.ofInt (-1)) ty)⟩)
                then 0 else 1)
              + (if A.gt (A.sub d bias) (uShadowMap.r
                  ⟨A.add px (A.mul (A.ofInt (-1)) tx), A.add py (A.mul (A.ofInt 0) ty)⟩)
                then 0 else 1)
              + (if A.gt (A.sub d bias) (uShadowMap.r
                  ⟨A.add px (A.mul (A.ofInt (-1)) tx), A.add py (A.mul (A.ofInt 1) ty)⟩)
                then 0 else 1)
              + (if A.gt (A.sub d bias) (uShadowMap.r
                  ⟨A.add px (A.mul (A.ofInt 0) tx), A.add py (A.mul (A.ofInt (-1)) ty)⟩)
                then 0 else 1)
              + (if A.gt (A.sub d bias) (uShadowMap.r
                  ⟨A.add px (A.mul (A.ofInt 0) tx), A.add py (A.mul (A.ofInt 0) ty)⟩)
                then 0 else 1)
              + (if A.gt (A.sub d bias) (uShadowMap.r
                  ⟨A.add px (A.mul (A.ofInt 0) tx), A.add py (A.mul (A.ofInt 1) ty)⟩)
                then 0 else 1)
              + (if A.gt (A.sub d bias) (uShadowMap.r
                  ⟨A.add px (A.mul (A.ofInt 1) tx), A.add py (A.mul (A.ofInt (-1)) ty)⟩)
                then 0 else 1)
              + (if A.gt (A.sub d bias) (uShadowMap.r
                  ⟨A.add px (A.mul (A.ofInt 1) tx), A.add py (A.mul (A.ofInt 0) ty)⟩)
                then 0 else 1)
              + (if A.gt (A.sub d bias) (uShadowMap.r
                  ⟨A.add px (A.mul (A.ofInt 1) tx), A.add py (A.mul (A.ofInt 1) ty)⟩)
                then 0 else 1) : Nat) : Int))
          (A.const 9.0),
        [⟨A.add px (A.mul (A.ofInt (-1)) tx), A.add py (A.mul (A.ofInt (-1)) ty)⟩,
          ⟨A.add px (A.mul (A.ofInt (-1)) tx), A.add py (A.mul (A.ofInt 0) ty)⟩,
          ⟨A.add px (A.mul (A.ofInt (-1)) tx), A.add py (A.mul (A.ofInt 1) ty)⟩,
          ⟨A.add px (A.mul (A.ofInt 0) tx), A.add py (A.mul (A.ofInt (-1)) ty)⟩,
          ⟨A.add px (A.mul (A.ofInt 0) tx), A.add py (A.mul (A.ofInt 0) ty)⟩,
          ⟨A.add px (A.mul (A.ofInt 0) tx), A.add py (A.mul (A.ofInt 1) ty)⟩,
          ⟨A.add px (A.mul (A.ofInt 1) tx), A.add py (A.mul (A.ofInt (-1)) ty)⟩,
          ⟨A.add px (A.mul (A.ofInt 1) tx), A.add py (A.mul (A.ofInt 0) ty)⟩,
          ⟨A.add px (A.mul (A.ofInt 1) tx), A.add py (A.mul (A.ofInt 1) ty)⟩]) := by
  rw [enlighten_count A uShadowMap lightSpace bias px py d tx ty hpx hpy hd htx hty hgt hzero
    hsum, pcfOffsets_map, pcfOffsets_count]

theorem enlighten_binary32_at_rounded_depth :
    enlighten binary32 (uniformShadowTexture32 0)
        ⟨some 0, some 0, some (1 + 1 / 2 ^ 23), some 1⟩ (binary32.const 0.005)
      = (some 0,
          [⟨some (511 / 1024), some (511 / 1024)⟩, ⟨some (511 / 1024), some (1 / 2)⟩,
            ⟨some (511 / 1024), some (513 / 1024)⟩, ⟨some (1 / 2), some (511 / 1024)⟩,
            ⟨some (1 / 2), some (1 / 2)⟩, ⟨some (1 / 2), some (513 / 1024)⟩,
            ⟨some (513 / 1024), some (511 / 1024)⟩, ⟨some (513 / 1024), some (1 / 2)⟩,
            ⟨some (513 / 1024), some (513 / 1024)⟩]) := by
  rw [enlighten_nine binary32 (uniformShadowTexture32 0)
    ⟨some 0, some 0, some (1 + 1 / 2 ^ 23), some 1⟩ (binary32.const 0.005)
    (some (1 / 2)) (some (1 / 2)) (some 1) (some (1 / 1024)) (some (1 / 1024))
    (by norm_num [binary32_const_eq, binary32_add_some, binary32_mul_some, binary32_div_some,
      binary32_round_table])
    (by norm_num [binary32_const_eq, binary32_add_some, binary32_mul_some, binary32_div_some,
      binary32_round_table])
    (by norm_num [binary32_const_eq, binary32_add_some, binary32_mul_some, binary32_div_some,
      binary32_round_table])
    (by norm_num [uniformShadowTexture32_width, binary32_const_eq, binary32_ofInt_eq,
      binary32_div_some, binary32_round_table])
    (by norm_num [uniformShadowTexture32_height, binary32_const_eq, binary32_ofInt_eq,
      binary32_div_some, binary32_round_table])
    (by norm_num [binary32_const_eq, binary32_gt_some, binary32_round_table])
    binary32_counts.1 binary32_counts.2]
  norm_num [uniformShadowTexture32_r, binary32_const_eq,
    binary32_ofInt_eq, binary32_add_some, binary32_sub_some, binary32_mul_some,
    binary32_div_some, binary32_gt_some, binary32_round_table]

theorem enlighten_binary32_six_of_nine :
    enlighten binary32 sampleShadowTexture32 ⟨some 0, some 0, some (1 / 2), some 1⟩
        (binary32.const 0.005)
      = (some (11184811 / 16777216),
          [⟨some (511 / 1024), some (511 / 1024)⟩, ⟨some (511 / 1024), some (1 / 2)⟩,
            ⟨some (511 / 1024), some (513 / 1024)⟩, ⟨some (1 / 2), some (511 / 1024)⟩,
            ⟨some (1 / 2), some (1 / 2)⟩, ⟨some (1 / 2), some (513 / 1024)⟩,
            ⟨some (513 / 1024), some (511 / 1024)⟩, ⟨some (513 / 1024), some (1 / 2)⟩,
            ⟨some (513 / 1024), some (513 / 1024)⟩]) := by
  rw [enlighten_nine binary32 sampleShadowTexture32
    ⟨some 0, some 0, some (1 / 2), some 1⟩ (binary32.const 0.005)
    (some (1 / 2)) (some (1 / 2)) (some (3 / 4)) (some (1 / 1024)) (some (1 / 1024))
    (by norm_num [binary32_const_eq, binary32_add_some, binary32_mul_some, binary32_div_some,
      binary32_round_table])
    (by norm_num [binary32_const_eq, binary32_add_some, binary32_mul_some, binary32_div_some,
      binary32_round_table])
    (by norm_num [binary32_const_eq, binary32_add_some, binary32_mul_some, binary32_div_some,
      binary32_round_table])
    (by norm_num [sampleShadowTexture32_width, binary32_const_eq, binary32_ofInt_eq,
      binary32_div_some, binary32_round_table])
    (by norm_num [sampleShadowTexture32_height, binary32_const_eq, binary32_ofInt_eq,
      binary32_div_some, binary32_round_table])
    (by norm_num [binary32_const_eq, binary32_gt_some, binary32_round_table])
    binary32_counts.1 binary32_counts.2]
  norm_num [sampleShadowTexture32_r, binary32_const_eq,
    binary32_ofInt_eq, binary32_add_some, binary32_sub_some, binary32_mul_some,
    binary32_div_some, binary32_gt_some, binary32_round_table]

theorem enlighten_binary32_equal_depth :
    enlighten binary32 (uniformShadowTexture32 (16106127 / 134217728))
        ⟨some 0, some 0, some (-(3 / 4)), some 1⟩ (binary32.const 0.005)
      = (some 1,
          [⟨some (511 / 1024), some (511 / 1024)⟩, ⟨some (511 / 1024), some (1 / 2)⟩,
            ⟨some (511 / 1024), some (513 / 1024)⟩, ⟨some (1 / 2), some (511 / 1024)⟩,
            ⟨some (1 / 2), some (1 / 2)⟩, ⟨some (1 / 2), some (513 / 1024)⟩,
            ⟨some (513 / 1024), some (511 / 1024)⟩, ⟨some (513 / 1024), some (1 / 2)⟩,
            ⟨some (513 / 1024), some (513 / 1024)⟩]) := by
  rw [enlighten_nine binary32 (uniformShadowTexture32 (16106127 / 134217728))
    ⟨some 0, some 0, some (-(3 / 4)), some 1⟩ (binary32.const 0.005)
    (some (1 / 2)) (some (1 / 2)) (some (1 / 8)) (some (1 / 1024)) (some (1 / 1024))
    (by norm_num [binary32_const_eq, binary32_add_some, binary32_mul_some, binary32_div_some,
      binary32_round_table])
    (by norm_num [binary32_const_eq, binary32_add_some, binary32_mul_some, binary32_div_some,
      binary32_round_table])
    (by norm_num [binary32_const_eq, binary32_add_some, binary32_mul_some, binary32_div_some,
      binary32_round_table])
    (by norm_num [uniformShadowTexture32_width, binary32_const_eq, binary32_ofInt_eq,
      binary32_div_some, binary32_round_table])
    (by norm_num [uniformShadowTexture32_height, binary32_const_eq, binary32_ofInt_eq,
      binary32_div_some, binary32_round_table])
    (by norm_num [binary32_const_eq, binary32_gt_some, binary32_round_table])
    binary32_counts.1 binary32_counts.2]
  norm_num [uniformShadowTexture32_r, binary32_const_eq,
    binary32_ofInt_eq, binary32_add_some, binary32_sub_some, binary32_mul_some,
    binary32_div_some, binary32_gt_some, binary32_round_table]

/-- C12 (amended): for every light-space position whose remapped depth, as the shader
computes it in its `float` arithmetic (the quotient `z / w`, its product with 0.5 and the sum
with 0.5, each as the arithmetic delivers it), compares greater than 1.0, every bias and every
shadow map, `enlighten` returns exactly 1.0 and fetches no shadow-map sample, so the result
is the same for every shadow map. This holds in every arithmetic; in exact arithmetic the
computed depth is `(z / w) * 0.5 + 0.5` itself. -/
theorem enlighten_lit_outside_frustum {F : Type} (A : FloatArithmetic F)
    (uShadowMap : sampler2D F) (lightSpace : vec4 F) (bias : F)
    (hd : A.gt (A.add (A.mul (A.div lightSpace.z lightSpace.w) (A.const 0.5)) (A.const 0.5))
      (A.const 1.0) = true) :
    (enlighten A uShadowMap lightSpace bias).1 = A.const 1.0 ∧
    (enlighten A uShadowMap lightSpace bias).2 = [] ∧
    (∀ otherMap : sampler2D F,
      enlighten A otherMap lightSpace bias = enlighten A uShadowMap lightSpace bias) ∧
    ∀ (K : Type) [LinearOrderedField K] (exactMap : sampler2D K) (p : vec4 K) (b : K),
      p.z / p.w * 0.5 + 0.5 > 1.0 → enlighten (exactArithmetic K) exactMap p b = (1.0, []) := by
  have h : ∀ m : sampler2D F, enlighten A m lightSpace bias = (A.const 1.0, []) := by
    intro m
    unfold enlighten
    simp only [hd, if_true]
  refine ⟨by rw [h], by rw [h], fun m => by rw [h, h], ?_⟩
  intro K _ exactMap p b hp
  have hgt : (exactArithmetic K).gt
      ((exactArithmetic K).add ((exactArithmetic K).mul ((exactArithmetic K).div p.z p.w)
        ((exactArithmetic K).const 0.5)) ((exactArithmetic K).const 0.5))
      ((exactArithmetic K).const 1.0) = true := by
    rw [exact_const.2.1, exact_const.2.2.1]
    simp only [exactArithmetic, decide_eq_true_eq]
    norm_num at hp ⊢
    linarith
  unfold enlighten
  simp only [hgt, if_true]
  rw [exact_const.2.2.1]
  norm_num

/-- Witness of `enlighten_lit_outside_frustum` in binary32 arithmetic: a position with
`z / w = 3`, whose computed depth is 2. -/
theorem enlighten_lit_outside_frustum_witness :
    binary32.add (binary32.mul (binary32.div (some 3) (some 1)) (binary32.const 0.5))
      (binary32.const 0.5) = some 2 ∧
    (enlighten binary32 sampleShadowTexture32 ⟨some 0, some 0, some 3, some 1⟩
      (binary32.const 0.005)).1 = some 1 ∧
    (enlighten binary32 sampleShadowTexture32 ⟨some 0, some 0, some 3, some 1⟩
      (binary32.const 0.005)).2 = [] :=
  have h := enlighten_lit_outside_frustum binary32 sampleShadowTexture32
    ⟨some 0, some 0, some 3, some 1⟩ (binary32.const 0.005)
    (by norm_num [binary32_const_eq, binary32_ofInt_eq, binary32_add_some,
      binary32_sub_some, binary32_mul_some, binary32_div_some, binary32_gt_some,
      binary32_round_table])
  ⟨by norm_num [binary32_const_eq, binary32_ofInt_eq, binary32_add_some,
      binary32_sub_some, binary32_mul_some, binary32_div_some, binary32_gt_some,
      binary32_round_table],
    h.1.trans (by norm_num [binary32_const_eq, binary32_round_table]), h.2.1⟩

/-- C12, counterexample in binary32 arithmetic: the components of the light-space
position `(0, 0, 1 + 2^-23, 1)` are binary32 numbers, `w` is not 0 and the remapped depth
`(z / w) * 0.5 + 0.5 = 1 + 2^-24` is greater than 1.0; the shader's sum rounds it to 1.0, which
does not compare greater than 1.0, so `enlighten` fetches the nine samples and, over a shadow
map storing depth 0 in every texel, returns 0.0 instead of 1.0. -/
theorem enlighten_samples_at_rounded_depth :
    binary32_round 0 = some 0 ∧ binary32_round 1 = some 1 ∧
    binary32_round (1 + 1 / 2 ^ 23) = some (1 + 1 / 2 ^ 23) ∧
    (1 : ℚ) ≠ 0 ∧
    (1 + 1 / 2 ^ 23 : ℚ) / 1 * 0.5 + 0.5 = 1 + 1 / 2 ^ 24 ∧
    (1 + 1 / 2 ^ 23 : ℚ) / 1 * 0.5 + 0.5 > 1.0 ∧
    binary32.add
        (binary32.mul (binary32.div (some (1 + 1 / 2 ^ 23)) (some 1)) (binary32.const 0.5))
        (binary32.const 0.5) = some 1 ∧
    binary32.gt (some 1) (binary32.const 1.0) = false ∧
    enlighten binary32 (uniformShadowTexture32 0)
        ⟨some 0, some 0, some (1 + 1 / 2 ^ 23), some 1⟩ (binary32.const 0.005)
      = (some 0,
        [⟨some (511 / 1024), some (511 / 1024)⟩, ⟨some (511 / 1024), some (1 / 2)⟩,
        ⟨some (511 / 1024), some (513 / 1024)⟩, ⟨some (1 / 2), some (511 / 1024)⟩,
        ⟨some (1 / 2), some (1 / 2)⟩, ⟨some (1 / 2), some (513 / 1024)⟩,
        ⟨some (513 / 1024), some (511 / 1024)⟩, ⟨some (513 / 1024), some (1 / 2)⟩,
        ⟨some (513 / 1024), some (513 / 1024)⟩]) ∧
    enlighten (exactArithmetic ℚ) ⟨1024, 1024, fun _ => 0⟩ ⟨0, 0, 1 + 1 / 2 ^ 23, 1⟩ 0.005
      = (1, []) := by
  refine ⟨binary32_round_zero, binary32_round_table.2.1, ?_, by norm_num, by norm_num,
    by norm_num, ?_, ?_, enlighten_binary32_at_rounded_depth, ?_⟩
  · norm_num [binary32_round_table]
  · norm_num [binary32_const_eq, binary32_ofInt_eq, binary32_add_some,
      binary32_sub_some, binary32_mul_some, binary32_div_some, binary32_gt_some,
      binary32_round_table]
  · norm_num [binary32_const_eq, binary32_ofInt_eq, binary32_add_some,
      binary32_sub_some, binary32_mul_some, binary32_div_some, binary32_gt_some,
      binary32_round_table]
  · have h := enlighten_outside (exactArithmetic ℚ) ⟨1024, 1024, fun _ => 0⟩
      ⟨0, 0, 1 + 1 / 2 ^ 23, 1⟩ 0.005 (by norm_num [exactArithmetic])
    rw [h]
    norm_num [exactArithmetic]

/-- C13 (amended): for every fragment whose remapped light-space depth `d`, as the shader
computes it in its `float` arithmetic, does not compare greater than 1.0, `enlighten` fetches
the nine samples at the projected `xy` plus `(i, j) * texelSize` for `(i, j)` in
`{-1, 0, 1}^2`, `i` varying slowest, with `texelSize = 1.0 / shadow-map size`, and returns the
`float` quotient by 9.0 of the number `n` of offsets for which NOT `d - bias > stored depth`,
every operation as the arithmetic delivers it; this in every arithmetic that adds up to nine
ones to 0.0 exactly, as binary32 and exact arithmetic do. In binary32 the quotient is a number
between 0 and 1 for each `n ≤ 9`. In exact arithmetic the result is `n / 9`, with `d`, the
difference and the positions exact, a multiple of `1 / 9` between 0 and 1. The only call site, in
`main`, passes the literal 0.005 as `bias`. -/
theorem enlighten_percentage_closer {F : Type} (A : FloatArithmetic F)
    (uShadowMap : sampler2D F) (lightSpace : vec4 F) (bias : F) (px py d tx ty : F)
    (hpx : px = A.add (A.mul (A.div lightSpace.x lightSpace.w) (A.const 0.5)) (A.const 0.5))
    (hpy : py = A.add (A.mul (A.div lightSpace.y lightSpace.w) (A.const 0.5)) (A.const 0.5))
    (hd : d = A.add (A.mul (A.div lightSpace.z lightSpace.w) (A.const 0.5)) (A.const 0.5))
    (htx : tx = A.div (A.const 1.0) (A.ofInt uShadowMap.width))
    (hty : ty = A.div (A.const 1.0) (A.ofInt uShadowMap.height))
    (hgt : A.gt d (A.const 1.0) = false)
    (hzero : A.const 0.0 = A.ofInt 0)
    (hsum : ∀ n : Nat, n < 9 →
      A.add (A.ofInt n) (A.const 0.0) = A.ofInt n ∧
      A.add (A.ofInt n) (A.const 1.0) = A.ofInt (n + 1 : Nat)) :
    (enlighten A uShadowMap lightSpace bias).2
      = [⟨A.add px (A.mul (A.ofInt (-1)) tx), A.add py (A.mul (A.ofInt (-1)) ty)⟩,
        ⟨A.add px (A.mul (A.ofInt (-1)) tx), A.add py (A.mul (A.ofInt 0) ty)⟩,
        ⟨A.add px (A.mul (A.ofInt (-1)) tx), A.add py (A.mul (A.ofInt 1) ty)⟩,
        ⟨A.add px (A.mul (A.ofInt 0) tx), A.add py (A.mul (A.ofInt (-1)) ty)⟩,
        ⟨A.add px (A.mul (A.ofInt 0) tx), A.add py (A.mul (A.ofInt 0) ty)⟩,
        ⟨A.add px (A.mul (A.ofInt 0) tx), A.add py (A.mul (A.ofInt 1) ty)⟩,
        ⟨A.add px (A.mul (A.ofInt 1) tx), A.add py (A.mul (A.ofInt (-1)) ty)⟩,
        ⟨A.add px (A.mul (A.ofInt 1) tx), A.add py (A.mul (A.ofInt 0) ty)⟩,
        ⟨A.add px (A.mul (A.ofInt 1) tx), A.add py (A.mul (A.ofInt 1) ty)⟩] ∧
    (enlighten A uShadowMap lightSpace bias).1
      = A.div
          (A.ofInt
            (((if A.gt (A.sub d bias) (uShadowMap.r
                ⟨A.add px (A.mul (A.ofInt (-1)) tx), A.add py (A.mul (A.ofInt (-1)) ty)⟩)
              then 0 else 1)
            + (if A.gt (A.sub d bias) (uShadowMap.r
                ⟨A.add px (A.mul (A.ofInt (-1)) tx), A.add py (A.mul (A.ofInt 0) ty)⟩)
              then 0 else 1)
            + (if A.gt (A.sub d bias) (uShadowMap.r
                ⟨A.add px (A.mul (A.ofInt (-1)) tx), A.add py (A.mul (A.ofInt 1) ty)⟩)
              then 0 else 1)
            + (if A.gt (A.sub d bias) (uShadowMap.r
                ⟨A.add px (A.mul (A.ofInt 0) tx), A.add py (A.mul (A.ofInt (-1)) ty)⟩)
              then 0 else 1)
            + (if A.gt (A.sub d bias) (uShadowMap.r
                ⟨A.add px (A.mul (A.ofInt 0) tx), A.add py (A.mul (A.ofInt 0) ty)⟩)
              then 0 else 1)
            + (if A.gt (A.sub d bias) (uShadowMap.r
                ⟨A.add px (A.mul (A.ofInt 0) tx), A.add py (A.mul (A.ofInt 1) ty)⟩)
              then 0 else 1)
            + (if A.gt (A.sub d bias) (uShadowMap.r
                ⟨A.add px (A.mul (A.ofInt 1) tx), A.add py (A.mul (A.ofInt (-1)) ty)⟩)
              then 0 else 1)
            + (if A.gt (A.sub d bias) (uShadowMap.r
                ⟨A.add px (A.mul (A.ofInt 1) tx), A.add py (A.mul (A.ofInt 0) ty)⟩)
              then 0 else 1)
            + (if A.gt (A.sub d bias) (uShadowMap.r
                ⟨A.add px (A.mul (A.ofInt 1) tx), A.add py (A.mul (A.ofInt 1) ty)⟩)
              then 0 else 1) : Nat) : Int))
          (A.const 9.0) ∧
    (enlighten A uShadowMap lightSpace bias).1
      = A.div
          (A.ofInt ((pcfOffsets.filter fun o =>
            !A.gt (A.sub d bias)
              (uShadowMap.r
                ⟨A.add px (A.mul (A.ofInt o.1) tx), A.add py (A.mul (A.ofInt o.2) ty)⟩)).length :
            Nat))
          (A.const 9.0) ∧
    (pcfOffsets.filter fun o =>
      !A.gt (A.sub d bias)
        (uShadowMap.r
          ⟨A.add px (A.mul (A.ofInt o.1) tx), A.add py (A.mul (A.ofInt o.2) ty)⟩)).length ≤ 9 ∧
    (∀ n : Nat, n ≤ 9 →
      ∃ q : ℚ, binary32.div (binary32.ofInt n) (binary32.const 9.0) = some q ∧ 0 ≤ q ∧ q ≤ 1) ∧
    (∀ (K : Type) [LinearOrderedField K] (exactMap : sampler2D K) (p : vec4 K) (b : K),
      p.z / p.w * 0.5 + 0.5 ≤ 1.0 →
        (enlighten (exactArithmetic K) exactMap p b).1
          = ((pcfOffsets.filter fun o =>
              !decide (p.z / p.w * 0.5 + 0.5 - b >
                exactMap.r
                  ⟨p.x / p.w * 0.5 + 0.5 + (o.1 : K) * (1.0 / (exactMap.width : K)),
                    p.y / p.w * 0.5 + 0.5 + (o.2 : K) * (1.0 / (exactMap.height : K))⟩)).length :
              K) / 9 ∧
        (∃ k : Nat, k ≤ 9 ∧ (enlighten (exactArithmetic K) exactMap p b).1 = (k : K) * (1 / 9)) ∧
        0 ≤ (enlighten (exactArithmetic K) exactMap p b).1 ∧
        (enlighten (exactArithmetic K) exactMap p b).1 ≤ 1) ∧
    ∀ (K : Type) [LinearOrderedField K] (B : FloatArithmetic K) (gDefaultMaterial : material K)
      (lightResult : light_shade_result K) (diffuseTexel emissiveTexel : vec3 K)
      (callMap : sampler2D K) (vLightSpace : vec4 K),
      fragment_main B gDefaultMaterial lightResult diffuseTexel emissiveTexel callMap vLightSpace
        = ⟨(shadedColor (gDefaultMaterial.ambient * lightResult.ambient * diffuseTexel)
              (gDefaultMaterial.diffuse * lightResult.diffuse * diffuseTexel)
              (gDefaultMaterial.specular * lightResult.specular)
              (gDefaultMaterial.emission + emissiveTexel)
              (enlighten B callMap vLightSpace (B.const 0.005)).1).x,
            (shadedColor (gDefaultMaterial.ambient * lightResult.ambient * diffuseTexel)
              (gDefaultMaterial.diffuse * lightResult.diffuse * diffuseTexel)
              (gDefaultMaterial.specular * lightResult.specular)
              (gDefaultMaterial.emission + emissiveTexel)
              (enlighten B callMap vLightSpace (B.const 0.005)).1).y,
            (shadedColor (gDefaultMaterial.ambient * lightResult.ambient * diffuseTexel)
              (gDefaultMaterial.diffuse * lightResult.diffuse * diffuseTexel)
              (gDefaultMaterial.specular * lightResult.specular)
              (gDefaultMaterial.emission + emissiveTexel)
              (enlighten B callMap vLightSpace (B.const 0.005)).1).z, 1.0⟩ := by
  have hin : enlighten A uShadowMap lightSpace bias
      = (A.div (pcfOffsets.foldl (fun acc o =>
            (A.add acc.1
              (if A.gt (A.sub d bias)
                  (uShadowMap.r
                    ⟨A.add px (A.mul (A.ofInt o.1) tx), A.add py (A.mul (A.ofInt o.2) ty)⟩)
                then A.const 0.0 else A.const 1.0),
              acc.2 ++
                [(⟨A.add px (A.mul (A.ofInt o.1) tx), A.add py (A.mul (A.ofInt o.2) ty)⟩ :
                  vec2 F)]))
          (A.const 0.0, [])).1 (A.const 9.0),
        (pcfOffsets.foldl (fun acc o =>
            (A.add acc.1
              (if A.gt (A.sub d bias)
                  (uShadowMap.r
                    ⟨A.add px (A.mul (A.ofInt o.1) tx), A.add py (A.mul (A.ofInt o.2) ty)⟩)
                then A.const 0.0 else A.const 1.0),
              acc.2 ++
                [(⟨A.add px (A.mul (A.ofInt o.1) tx), A.add py (A.mul (A.ofInt o.2) ty)⟩ :
                  vec2 F)]))
          (A.const 0.0, [])).2) := by
    subst hpx hpy hd htx hty
    unfold enlighten
    simp only [hgt, Bool.false_eq_true, if_false, pcfOffsets, List.foldl_cons, List.foldl_nil]
  have hfold := pcf_fold A hsum
    (fun o => A.gt (A.sub d bias)
      (uShadowMap.r ⟨A.add px (A.mul (A.ofInt o.1) tx), A.add py (A.mul (A.ofInt o.2) ty)⟩))
    (fun o => ⟨A.add px (A.mul (A.ofInt o.1) tx), A.add py (A.mul (A.ofInt o.2) ty)⟩)
    pcfOffsets 0 [] (by decide)
  simp only [Nat.cast_zero, Nat.zero_add, List.nil_append] at hfold
  rw [hzero] at hfold hin
  rw [hfold] at hin
  have hc := hin
  have h9 := hin
  rw [pcfOffsets_map, pcfOffsets_count] at h9
  refine ⟨by rw [h9], by rw [h9], by rw [hc], List.length_filter_le _ _,
    binary32_ninths_range, ?_, fun _ _ _ _ _ _ _ _ _ => rfl⟩
  intro K _ exactMap p b hp
  have hval := enlighten_exact exactMap p b hp
  have hlen : (pcfOffsets.filter fun o =>
      !decide (p.z / p.w * 0.5 + 0.5 - b >
        exactMap.r
          ⟨p.x / p.w * 0.5 + 0.5 + (o.1 : K) * (1.0 / (exactMap.width : K)),
            p.y / p.w * 0.5 + 0.5 + (o.2 : K) * (1.0 / (exactMap.height : K))⟩)).length ≤ 9 :=
    List.length_filter_le _ _
  have hlenK : ((pcfOffsets.filter fun o =>
      !decide (p.z / p.w * 0.5 + 0.5 - b >
        exactMap.r
          ⟨p.x / p.w * 0.5 + 0.5 + (o.1 : K) * (1.0 / (exactMap.width : K)),
            p.y / p.w * 0.5 + 0.5 + (o.2 : K) * (1.0 / (exactMap.height : K))⟩)).length : K)
      ≤ 9 := by
    exact_mod_cast hlen
  refine ⟨hval, ⟨_, hlen, by rw [hval]; ring⟩, ?_, ?_⟩
  · rw [hval]
    positivity
  · rw [hval, div_le_one (by norm_num)]
    exact hlenK

/-- Witness of `enlighten_percentage_closer` in binary32 arithmetic: a fragment at computed
depth `3/4` whose three left-hand samples are in shadow, so that six of the nine samples
count and the result is the binary32 quotient of 6 by 9. -/
theorem enlighten_percentage_closer_witness :
    binary32.gt (some (3 / 4)) (binary32.const 1.0) = false ∧
    (enlighten binary32 sampleShadowTexture32 ⟨some 0, some 0, some (1 / 2), some 1⟩
        (binary32.const 0.005)).2
      = [⟨some (511 / 1024), some (511 / 1024)⟩, ⟨some (511 / 1024), some (1 / 2)⟩,
        ⟨some (511 / 1024), some (513 / 1024)⟩, ⟨some (1 / 2), some (511 / 1024)⟩,
        ⟨some (1 / 2), some (1 / 2)⟩, ⟨some (1 / 2), some (513 / 1024)⟩,
        ⟨some (513 / 1024), some (511 / 1024)⟩, ⟨some (513 / 1024), some (1 / 2)⟩,
        ⟨some (513 / 1024), some (513 / 1024)⟩] ∧
    (enlighten binary32 sampleShadowTexture32 ⟨some 0, some 0, some (1 / 2), some 1⟩
        (binary32.const 0.005)).1 = some (11184811 / 16777216) :=
  have h := enlighten_percentage_closer binary32 sampleShadowTexture32
    ⟨some 0, some 0, some (1 / 2), some 1⟩ (binary32.const 0.005)
    (some (1 / 2)) (some (1 / 2)) (some (3 / 4)) (some (1 / 1024)) (some (1 / 1024))
    (by norm_num [binary32_const_eq, binary32_ofInt_eq, binary32_add_some,
      binary32_sub_some, binary32_mul_some, binary32_div_some, binary32_gt_some,
      binary32_round_table])
    (by norm_num [binary32_const_eq, binary32_ofInt_eq, binary32_add_some,
      binary32_sub_some, binary32_mul_some, binary32_div_some, binary32_gt_some,
      binary32_round_table])
    (by norm_num [binary32_const_eq, binary32_ofInt_eq, binary32_add_some,
      binary32_sub_some, binary32_mul_some, binary32_div_some, binary32_gt_some,
      binary32_round_table])
    (by norm_num [sampleShadowTexture32_width, binary32_const_eq, binary32_ofInt_eq, binary32_add_some,
      binary32_sub_some, binary32_mul_some, binary32_div_some, binary32_gt_some,
      binary32_round_table])
    (by norm_num [sampleShadowTexture32_height, binary32_const_eq, binary32_ofInt_eq, binary32_add_some,
      binary32_sub_some, binary32_mul_some, binary32_div_some, binary32_gt_some,
      binary32_round_table])
    (by norm_num [binary32_const_eq, binary32_ofInt_eq, binary32_add_some,
      binary32_sub_some, binary32_mul_some, binary32_div_some, binary32_gt_some,
      binary32_round_table])
    binary32_counts.1 binary32_counts.2
  ⟨by norm_num [binary32_const_eq, binary32_ofInt_eq, binary32_add_some,
      binary32_sub_some, binary32_mul_some, binary32_div_some, binary32_gt_some,
      binary32_round_table],
    h.1.trans (by norm_num [binary32_const_eq, binary32_ofInt_eq, binary32_add_some,
      binary32_sub_some, binary32_mul_some, binary32_div_some, binary32_gt_some,
      binary32_round_table]),
    h.2.1.trans (by norm_num [sampleShadowTexture32_r, binary32_const_eq, binary32_ofInt_eq, binary32_add_some,
      binary32_sub_some, binary32_mul_some, binary32_div_some, binary32_gt_some,
      binary32_round_table])⟩

/-- C13, counterexample in binary32 arithmetic, on inputs that are binary32 numbers. First, at `(0, 0, 1/2, 1)` with `d = 3/4` six of the nine offsets satisfy NOT
`d - bias > stored depth`, so the stated result is `6 / 9`; the shader returns the binary32
quotient `11184811 / 2^24`, which is not `6 / 9` and not a multiple of `1 / 9` at all. Second,
at `(0, 0, -3/4, 1)` with `d = 1/8`, over a shadow map storing `16106127 / 2^27` in every
texel, `d - bias > stored depth` holds for `bias = 0.005` and for the binary32 value of the
literal, so the stated count is 0 and the stated result 0; the shader's difference rounds to
the stored depth, no sample compares greater, and the shader returns 1.0. -/
theorem enlighten_quotient_is_rounded :
    binary32_round (1 / 2) = some (1 / 2) ∧
    ((1 / 2 : ℚ) / 1 * 0.5 + 0.5 = 3 / 4) ∧
    (pcfOffsets.filter fun o =>
      !decide ((3 / 4 : ℚ) - 0.005 >
        sampleShadowTexture.r
          ⟨0 / 1 * 0.5 + 0.5 + (o.1 : ℚ) * (1.0 / 1024),
            0 / 1 * 0.5 + 0.5 + (o.2 : ℚ) * (1.0 / 1024)⟩)).length = 6 ∧
    (enlighten binary32 sampleShadowTexture32 ⟨some 0, some 0, some (1 / 2), some 1⟩
        (binary32.const 0.005)).1 = some (11184811 / 16777216) ∧
    (11184811 / 16777216 : ℚ) ≠ 6 / 9 ∧
    (∀ m : Int, (11184811 / 16777216 : ℚ) ≠ m * (1 / 9)) ∧
    binary32_round (-(3 / 4)) = some (-(3 / 4)) ∧
    binary32_round (16106127 / 134217728) = some (16106127 / 134217728) ∧
    binary32.const 0.005 = some (5368709 / 1073741824) ∧
    ((-(3 / 4) : ℚ) / 1 * 0.5 + 0.5 = 1 / 8) ∧
    ((1 / 8 : ℚ) - 0.005 > 16106127 / 134217728) ∧
    ((1 / 8 : ℚ) - 5368709 / 1073741824 > 16106127 / 134217728) ∧
    binary32.sub (some (1 / 8)) (binary32.const 0.005) = some (16106127 / 134217728) ∧
    (enlighten binary32 (uniformShadowTexture32 (16106127 / 134217728))
        ⟨some 0, some 0, some (-(3 / 4)), some 1⟩ (binary32.const 0.005)).1 = some 1 := by
  refine ⟨by norm_num [binary32_round_table], by norm_num, ?_, ?_, by norm_num, ?_,
    by norm_num [binary32_round_table], by norm_num [binary32_round_table],
    by norm_num [binary32_const_eq, binary32_round_table], by norm_num, by norm_num,
    by norm_num, by norm_num [binary32_const_eq, binary32_ofInt_eq, binary32_add_some,
      binary32_sub_some, binary32_mul_some, binary32_div_some, binary32_gt_some,
      binary32_round_table], ?_⟩
  · norm_num [pcfOffsets, sampleShadowTexture, List.filter]
  · rw [enlighten_binary32_six_of_nine]
  · intro m h
    have h2 : (11184811 : ℚ) * 9 = (m : ℚ) * 16777216 := by
      field_simp at h
      linarith
    have h3 : (11184811 : Int) * 9 = m * 16777216 := by exact_mod_cast h2
    omega
  · rw [enlighten_binary32_equal_depth]

/-- C14: the colour written by the lit-stage fragment shader is
`ambient + s * (diffuse + specular) + emissive`, with `s` the value returned by
`enlighten(vLightSpace, 0.005)`; two values of `s` change the colour by
`(s - s') * (diffuse + specular)` only, so the ambient and emissive terms are the same for
every `s`; with `s = 0` the colour is `ambient + emissive` and with `s = 1` it is
`ambient + diffuse + specular + emissive`. -/
theorem shadow_scales_direct_light {F : Type} [LinearOrderedField F] (A : FloatArithmetic F)
    (gDefaultMaterial : material F) (lightResult : light_shade_result F)
    (diffuseTexel emissiveTexel : vec3 F) (uShadowMap : sampler2D F) (vLightSpace : vec4 F) :
    fragment_main A gDefaultMaterial lightResult diffuseTexel emissiveTexel uShadowMap
        vLightSpace
      = ⟨(gDefaultMaterial.ambient * lightResult.ambient * diffuseTexel
            + (enlighten A uShadowMap vLightSpace (A.const 0.005)).1
              * (gDefaultMaterial.diffuse * lightResult.diffuse * diffuseTexel
                + gDefaultMaterial.specular * lightResult.specular)
            + (gDefaultMaterial.emission + emissiveTexel)).x,
          (gDefaultMaterial.ambient * lightResult.ambient * diffuseTexel
            + (enlighten A uShadowMap vLightSpace (A.const 0.005)).1
              * (gDefaultMaterial.diffuse * lightResult.diffuse * diffuseTexel
                + gDefaultMaterial.specular * lightResult.specular)
            + (gDefaultMaterial.emission + emissiveTexel)).y,
          (gDefaultMaterial.ambient * lightResult.ambient * diffuseTexel
            + (enlighten A uShadowMap vLightSpace (A.const 0.005)).1
              * (gDefaultMaterial.diffuse * lightResult.diffuse * diffuseTexel
                + gDefaultMaterial.specular * lightResult.specular)
            + (gDefaultMaterial.emission + emissiveTexel)).z, 1.0⟩ ∧
    (∀ (ambient diffuse specular emissive : vec3 F) (s s' : F),
      shadedColor ambient diffuse specular emissive s
        - shadedColor ambient diffuse specular emissive s'
        = (s - s') * (diffuse + specular)) ∧
    (∀ ambient diffuse specular emissive : vec3 F,
      shadedColor ambient diffuse specular emissive 0 = ambient + emissive) ∧
    (∀ ambient diffuse specular emissive : vec3 F,
      shadedColor ambient diffuse specular emissive 1
        = ambient + diffuse + specular + emissive) := by
  refine ⟨rfl, ?_, ?_, ?_⟩
  · intro a d sp e s s'
    ext <;> simp only [shadedColor, vec3_add_x, vec3_add_y, vec3_add_z, vec3_sub_x, vec3_sub_y,
      vec3_sub_z, vec3_scale_x, vec3_scale_y, vec3_scale_z] <;> ring
  · intro a d sp e
    ext <;> simp only [shadedColor, vec3_add_x, vec3_add_y, vec3_add_z, vec3_scale_x,
      vec3_scale_y, vec3_scale_z] <;> ring
  · intro a d sp e
    ext <;> simp only [shadedColor, vec3_add_x, vec3_add_y, vec3_add_z, vec3_scale_x,
      vec3_scale_y, vec3_scale_z] <;> ring

/-! ## The debug UI keeps the selected index in bounds -/

theorem andThen_some {a : Option (demo_instancing × List UIEvent)}
    {f : demo_instancing → Option (demo_instancing × List UIEvent)}
    {s1 s2 : demo_instancing} {l1 l2 : List UIEvent}
    (ha : a = some (s1, l1)) (hf : f s1 = some (s2, l2)) :
    andThen a f = some (s2, l1 ++ l2) := by
  rw [ha]
  simp [andThen, hf]

theorem leads_step {Q R : demo_instancing → Prop}
    {a : Option (demo_instancing × List UIEvent)}
    {f : demo_instancing → Option (demo_instancing × List UIEvent)}
    (ha : ∃ s1 log, a = some (s1, log) ∧ Q s1 ∧ ∀ e ∈ log, e.inBounds) (hf : Leads Q R f) :
    ∃ s2 log, andThen a f = some (s2, log) ∧ R s2 ∧ ∀ e ∈ log, e.inBounds := by
  obtain ⟨s1, l1, e1, q1, b1⟩ := ha
  obtain ⟨s2, l2, e2, q2, b2⟩ := hf s1 q1
  exact ⟨s2, l1 ++ l2, andThen_some e1 e2, q2,
    fun e he => (List.mem_append.1 he).elim (b1 e) (b2 e)⟩

theorem Selectable_access (B : Nat) (s : demo_instancing) (h : Selectable B s) :
    (UIEvent.indexTransform s.extent).inBounds ∧ (UIEvent.indexColor s.extent).inBounds ∧
    (UIEvent.callUpdate s.extent).inBounds ∧ (UIEvent.callDestroy s.extent).inBounds ∧
    (UIEvent.mutated s.extent).inBounds := by
  obtain ⟨⟨_, hT, hM, hC⟩, hi, _⟩ := h
  simp only [UIEvent.inBounds, demo_instancing.extent]
  refine ⟨⟨by omega, hi, hT, hM, hC⟩, ⟨by omega, hi, hT, hM, hC⟩, ⟨by omega, hi, hT, hM, hC⟩,
    ⟨by omega, hi, hT, hM, hC⟩, Or.inr hi⟩

theorem UpdateInstanceAttributes_selectable (GetModelMatrix : Transform → mat4) (B : Nat)
    (s : demo_instancing) (h : Selectable B s) :
    ∃ s1, UpdateInstanceAttributes GetModelMatrix s = some s1 ∧ Selectable B s1 ∧
      s1.extent = s.extent := by
  obtain ⟨⟨hR, hT, hM, hC⟩, hi, hB⟩ := h
  have hiT : s.InstanceIndex < s.InstanceTransform.length := by omega
  have hiM : s.InstanceIndex < s.InstanceModel.length := by omega
  have hiC : s.InstanceIndex < s.InstanceColor.length := by omega
  refine ⟨_, UpdateInstanceAttributes_eq GetModelMatrix s _ _ _ (List.getElem?_eq_getElem hiT)
    (List.getElem?_eq_getElem hiM) (List.getElem?_eq_getElem hiC), ⟨⟨hR, hT, ?_, hC⟩, hi, hB⟩, ?_⟩
  · simp [hM]
  · simp [demo_instancing.extent]

theorem editTransform_leads (GetModelMatrix : Transform → mat4) (B : Nat) (w : Option v3)
    (put : Transform → v3 → Transform) :
    Leads (Selectable B) (Selectable B)
      (DisplayDebugUI.editTransform GetModelMatrix w put) := by
  intro s h
  have hacc := Selectable_access B s h
  obtain ⟨⟨hR, hT, hM, hC⟩, hi, hB⟩ := h
  have hiT : s.InstanceIndex < s.InstanceTransform.length := by omega
  unfold DisplayDebugUI.editTransform
  rw [List.getElem?_eq_getElem hiT]
  cases w with
  | none =>
    refine ⟨s, _, rfl, ⟨⟨hR, hT, hM, hC⟩, hi, hB⟩, ?_⟩
    intro e he
    rw [List.mem_singleton] at he
    rw [he]
    exact hacc.1
  | some v =>
    have h1 : Selectable B { s with InstanceTransform :=
        (s.InstanceTransform.set s.InstanceIndex (put s.InstanceTransform[s.InstanceIndex] v)) } :=
      ⟨⟨hR, by simp [hT], hM, hC⟩, hi, hB⟩
    have hacc1 := Selectable_access B _ h1
    obtain ⟨s2, e2, h2, x2⟩ := UpdateInstanceAttributes_selectable GetModelMatrix B _ h1
    have hacc2 := Selectable_access B _ h2
    refine ⟨s2, _, by simp only [e2, Option.map_some']; rfl, h2, ?_⟩
    intro e he
    simp only [List.mem_cons, List.mem_singleton, List.not_mem_nil, or_false] at he
    rcases he with he | he | he
    · rw [he]; exact hacc.1
    · rw [he]; exact hacc1.2.2.1
    · rw [he]; exact hacc2.2.2.2.2

theorem editColor_leads (GetModelMatrix : Transform → mat4) (B : Nat) (w : Option v3) :
    Leads (Selectable B) (Selectable B) (DisplayDebugUI.editColor GetModelMatrix w) := by
  intro s h
  have hacc := Selectable_access B s h
  obtain ⟨⟨hR, hT, hM, hC⟩, hi, hB⟩ := h
  have hiC : s.InstanceIndex < s.InstanceColor.length := by omega
  unfold DisplayDebugUI.editColor
  rw [List.getElem?_eq_getElem hiC]
  cases w with
  | none =>
    refine ⟨s, _, rfl, ⟨⟨hR, hT, hM, hC⟩, hi, hB⟩, ?_⟩
    intro e he
    rw [List.mem_singleton] at he
    rw [he]
    exact hacc.2.1
  | some v =>
    have h1 : Selectable B { s with InstanceColor := s.InstanceColor.set s.InstanceIndex v } :=
      ⟨⟨hR, hT, hM, by simp [hC]⟩, hi, hB⟩
    have hacc1 := Selectable_access B _ h1
    obtain ⟨s2, e2, h2, x2⟩ := UpdateInstanceAttributes_selectable GetModelMatrix B _ h1
    have hacc2 := Selectable_access B _ h2
    refine ⟨s2, _, by simp only [e2, Option.map_some']; rfl, h2, ?_⟩
    intro e he
    simp only [List.mem_cons, List.mem_singleton, List.not_mem_nil, or_false] at he
    rcases he with he | he | he
    · rw [he]; exact hacc.2.1
    · rw [he]; exact hacc1.2.2.1
    · rw [he]; exact hacc2.2.2.2.2

theorem destroy_leads (B : Nat) (ui : DebugUI) :
    Leads (Selectable B) (Within B) (DisplayDebugUI.destroy ui) := by
  intro s h
  have hacc := Selectable_access B s h
  obtain ⟨⟨hR, hT, hM, hC⟩, hi, hB⟩ := h
  unfold DisplayDebugUI.destroy
  cases ui.Destroy with
  | false =>
    exact ⟨s, [], rfl, ⟨⟨hR, hT, hM, hC⟩, Or.inl hi, hB⟩, fun e he => by simp at he⟩
  | true =>
    obtain ⟨s1, e1, hs1⟩ := Synced_Destroy s ⟨hR, hT, hM, hC⟩ hi
    have e2 := DestroyInstanceAttributes_eq s ⟨hR, hT, hM, hC⟩ hi
    have hc : s1.InstanceCount = s.InstanceCount - 1 ∧ s1.InstanceIndex = 0 := by
      rw [e2] at e1
      cases e1
      exact ⟨rfl, rfl⟩
    have hw : s1.InstanceIndex < s1.InstanceCount ∨
        (s1.InstanceCount = 0 ∧ s1.InstanceIndex = 0) := by omega
    refine ⟨s1, _, by simp only [if_true, e1, Option.map_some']; rfl,
      ⟨hs1.1, hw, by omega⟩, ?_⟩
    intro e he
    simp only [List.mem_cons, List.mem_singleton, List.not_mem_nil, or_false] at he
    rcases he with he | he
    · rw [he]; exact hacc.2.2.2.1
    · rw [he]
      simp only [UIEvent.inBounds, demo_instancing.extent]
      omega

theorem selected_leads (GetModelMatrix : Transform → mat4) (B : Nat) (ui : DebugUI)
    (hr : ui.inRange) :
    Leads (Within B) (Within B) (DisplayDebugUI.selected GetModelMatrix ui) := by
  intro s h
  obtain ⟨⟨hR, hT, hM, hC⟩, hi, hB⟩ := h
  unfold DisplayDebugUI.selected
  by_cases h0 : s.InstanceCount = 0
  · rw [if_neg (by simpa using h0)]
    exact ⟨s, [], rfl, ⟨⟨hR, hT, hM, hC⟩, hi, hB⟩, fun e he => by simp at he⟩
  · rw [if_pos h0]
    have hsel : Selectable B
        (match ui.Instance_index (asInt ((s.InstanceCount + UINT_RANGE - 1) % UINT_RANGE)) with
          | some v => { s with InstanceIndex := asUnsigned v }
          | none => s) := by
      cases hv : ui.Instance_index (asInt ((s.InstanceCount + UINT_RANGE - 1) % UINT_RANGE)) with
      | none =>
        show Selectable B s
        exact ⟨⟨hR, hT, hM, hC⟩, by omega, hB⟩
      | some v =>
        obtain ⟨hv0, hv1⟩ := hr.2 _ v hv
        show Selectable B { s with InstanceIndex := asUnsigned v }
        refine ⟨⟨hR, hT, hM, hC⟩, ?_, hB⟩
        show asUnsigned v < s.InstanceCount
        unfold asInt at hv1
        unfold asUnsigned
        unfold UINT_RANGE INT_MAX at *
        split at hv1 <;> omega
    exact leads_step (leads_step (leads_step (leads_step
      (editTransform_leads GetModelMatrix B _ _ _ hsel)
      (editTransform_leads GetModelMatrix B _ _))
      (editTransform_leads GetModelMatrix B _ _))
      (editColor_leads GetModelMatrix B _))
      (destroy_leads B ui)

theorem instances_leads (GetModelMatrix : Transform → mat4) (B : Nat) (ui : DebugUI)
    (hr : ui.inRange) :
    Leads (Within B) (Within (max B 9999)) (DisplayDebugUI.instances GetModelMatrix ui) := by
  intro s h
  obtain ⟨hs, hi, hB⟩ := h
  unfold DisplayDebugUI.instances
  cases hn : ui.Instances with
  | none =>
    exact ⟨s, [], rfl, ⟨hs, hi, le_trans hB (le_max_left _ _)⟩, fun e he => by simp at he⟩
  | some n =>
    obtain ⟨hn0, hn1⟩ := hr.1 n hn
    have hu : asUnsigned n ≤ 9999 := by
      unfold asUnsigned UINT_RANGE
      omega
    obtain ⟨s1, e1, hc, hx, hs1⟩ := SetInstanceAttributes_synced GetModelMatrix ui.rnd
      { s with InstanceCount := asUnsigned n, InstanceIndex := 0 }
      (by show asUnsigned n ≤ INT_MAX; unfold INT_MAX; omega)
    have hc1 : s1.InstanceCount = asUnsigned n := hc
    have hx1 : s1.InstanceIndex = 0 := hx
    have hw : s1.InstanceIndex < s1.InstanceCount ∨
        (s1.InstanceCount = 0 ∧ s1.InstanceIndex = 0) := by omega
    refine ⟨s1, _, by simp only [e1, Option.map_some']; rfl, ⟨hs1.1, hw, ?_⟩, ?_⟩
    · rw [hc1]
      exact le_trans hu (le_max_right _ _)
    · intro e he
      rw [List.mem_singleton] at he
      rw [he]
      simp only [UIEvent.inBounds, demo_instancing.extent]
      omega

theorem addInstance_leads (GetModelMatrix : Transform → mat4) (B : Nat) (ui : DebugUI)
    (hB1 : B + 1 < UINT_RANGE) :
    Leads (Within B) (Within (B + 1)) (DisplayDebugUI.addInstance GetModelMatrix ui) := by
  intro s h
  obtain ⟨⟨hR, hT, hM, hC⟩, hi, hB⟩ := h
  unfold DisplayDebugUI.addInstance
  cases ui.Add_instance_open with
  | false =>
    exact ⟨s, [], rfl, ⟨⟨hR, hT, hM, hC⟩, hi, by omega⟩, fun e he => by simp at he⟩
  | true =>
    simp only [if_true]
    cases ui.Add with
    | false =>
      exact ⟨_, [], rfl, ⟨⟨hR, hT, hM, hC⟩, hi, Nat.le_succ_of_le hB⟩,
        fun e he => by simp at he⟩
    | true =>
      simp only [if_true]
      generalize hs0 : ({ s with
        InstanceAdditionalTransform :=
          { t := ui.Additional_position.getD s.InstanceAdditionalTransform.t
            r := ui.Additional_rotation.getD s.InstanceAdditionalTransform.r
            s := ui.Additional_scale.getD s.InstanceAdditionalTransform.s }
        InstanceAdditionalColor := ui.Additional_color.getD s.InstanceAdditionalColor }
          : demo_instancing) = s0
      have hc0 : s0.InstanceCount = s.InstanceCount := by rw [← hs0]
      have hx0 : s0.InstanceIndex = s.InstanceIndex := by rw [← hs0]
      have hsz : Sized s0 := by rw [← hs0]; exact ⟨hR, hT, hM, hC⟩
      have hN : s0.InstanceCount + 1 < UINT_RANGE := by omega
      obtain ⟨s1, e1, hs1⟩ := Synced_Add GetModelMatrix s0 hsz hN
      have e2 := AddInstanceAttributes_eq GetModelMatrix s0 hsz hN
      have hc : s1.InstanceCount = s0.InstanceCount + 1 ∧ s1.InstanceIndex = s0.InstanceIndex := by
        rw [e2] at e1
        cases e1
        exact ⟨rfl, rfl⟩
      have hw : s1.InstanceIndex < s1.InstanceCount ∨
          (s1.InstanceCount = 0 ∧ s1.InstanceIndex = 0) := by omega
      refine ⟨s1, _, by simp only [e1, Option.map_some']; rfl, ⟨hs1.1, hw, by omega⟩, ?_⟩
      intro e he
      rw [List.mem_singleton] at he
      rw [he]
      simp only [UIEvent.inBounds, demo_instancing.extent]
      omega

theorem DisplayDebugUI_leads (GetModelMatrix : Transform → mat4) (B : Nat) (ui : DebugUI)
    (hr : ui.inRange) (hB1 : max B 9999 + 1 < UINT_RANGE) :
    Leads (Within B) (Within (max B 9999 + 1)) (DisplayDebugUI GetModelMatrix ui) := by
  intro s h
  unfold DisplayDebugUI
  cases ui.demo_instancing_open && ui.Instancing_open with
  | false =>
    refine ⟨s, [], rfl, ⟨h.1, h.2.1, ?_⟩, fun e he => by simp at he⟩
    exact le_trans h.2.2 (le_trans (le_max_left _ _) (Nat.le_succ _))
  | true =>
    simp only [if_true]
    exact leads_step (leads_step (instances_leads GetModelMatrix B ui hr s h)
      (selected_leads GetModelMatrix _ ui hr)) (addInstance_leads GetModelMatrix _ ui hB1)

theorem runFrames_leads (GetModelMatrix : Transform → mat4) (frames : List DebugUI) (B : Nat)
    (hr : ∀ ui ∈ frames, ui.inRange) (hB1 : max B 9999 + frames.length < UINT_RANGE) :
    Leads (Within B) (Within (max B 9999 + frames.length)) (runFrames GetModelMatrix frames) := by
  induction frames generalizing B with
  | nil =>
    intro s h
    exact ⟨s, [], rfl, ⟨h.1, h.2.1, le_trans h.2.2 (le_max_left _ _)⟩, fun e he => by simp at he⟩
  | cons ui rest ih =>
    intro s h
    simp only [List.length_cons] at hB1 ⊢
    have h1 := DisplayDebugUI_leads GetModelMatrix B ui (hr ui (List.mem_cons_self _ _))
      (by omega) s h
    have hm : max (max B 9999 + 1) 9999 = max B 9999 + 1 := by omega
    have h2 := ih (max B 9999 + 1) (fun u hu => hr u (List.mem_cons_of_mem _ hu))
      (by rw [hm]; omega)
    rw [hm] at h2
    have e : max B 9999 + (rest.length + 1) = max B 9999 + 1 + rest.length := by omega
    rw [e]
    exact leads_step h1 h2

theorem getElem?_of_lt {α : Type} (l : List α) (i : Nat) (h : i < l.length) :
    ∃ a, l[i]? = some a := ⟨l[i], List.getElem?_eq_getElem h⟩

theorem selected_untouched (GetModelMatrix : Transform → mat4) (ui : DebugUI)
    (s : demo_instancing) (tf : Transform) (c : v3)
    (hx : ui.Instance_index = fun _ => none) (hp : ui.Instance_position = none)
    (hr : ui.Instance_rotation = none) (hsc : ui.Instance_scale = none)
    (hcol : ui.Instance_color = none) (hd : ui.Destroy = false)
    (h0 : s.InstanceCount ≠ 0)
    (hT : s.InstanceTransform[s.InstanceIndex]? = some tf)
    (hC : s.InstanceColor[s.InstanceIndex]? = some c) :
    DisplayDebugUI.selected GetModelMatrix ui s = some (s,
      [.indexTransform s.extent, .indexTransform s.extent, .indexTransform s.extent,
        .indexColor s.extent]) := by
  unfold DisplayDebugUI.selected
  rw [if_pos h0, hx, hp, hr, hsc, hcol]
  simp only [DisplayDebugUI.editTransform, DisplayDebugUI.editColor, DisplayDebugUI.destroy, hT,
    hC, hd, andThen, Option.some_bind, Option.map_some', List.singleton_append, List.cons_append,
    List.nil_append, List.append_nil, Bool.false_eq_true, if_false]

theorem DisplayDebugUI_idleFrame (GetModelMatrix : Transform → mat4) (s : demo_instancing)
    (tf : Transform) (c : v3) (h0 : s.InstanceCount ≠ 0)
    (hT : s.InstanceTransform[s.InstanceIndex]? = some tf)
    (hC : s.InstanceColor[s.InstanceIndex]? = some c) :
    DisplayDebugUI GetModelMatrix idleFrame s = some (s,
      [.indexTransform s.extent, .indexTransform s.extent, .indexTransform s.extent,
        .indexColor s.extent]) := by
  have h := selected_untouched GetModelMatrix idleFrame s tf c rfl rfl rfl rfl rfl rfl h0 hT hC
  have ha : DisplayDebugUI.addInstance GetModelMatrix idleFrame s = some (s, []) := rfl
  have hi : DisplayDebugUI.instances GetModelMatrix idleFrame s = some (s, []) := rfl
  show andThen (andThen (DisplayDebugUI.instances GetModelMatrix idleFrame s)
    (DisplayDebugUI.selected GetModelMatrix idleFrame))
    (DisplayDebugUI.addInstance GetModelMatrix idleFrame) = _
  rw [andThen_some (andThen_some hi h) ha]
  rfl

theorem DisplayDebugUI_addFrame (GetModelMatrix : Transform → mat4) (s s1 : demo_instancing)
    (log : List UIEvent)
    (hsel : DisplayDebugUI.selected GetModelMatrix addFrame s = some (s, log))
    (hadd : AddInstanceAttributes GetModelMatrix s = some s1) :
    DisplayDebugUI GetModelMatrix addFrame s = some (s1, log ++ [.mutated s1.extent]) := by
  have ha : DisplayDebugUI.addInstance GetModelMatrix addFrame s
      = some (s1, [.mutated s1.extent]) := by
    show (AddInstanceAttributes GetModelMatrix s).map _ = _
    rw [hadd]
    rfl
  have hi : DisplayDebugUI.instances GetModelMatrix addFrame s = some (s, []) := rfl
  show andThen (andThen (DisplayDebugUI.instances GetModelMatrix addFrame s)
    (DisplayDebugUI.selected GetModelMatrix addFrame))
    (DisplayDebugUI.addInstance GetModelMatrix addFrame) = _
  rw [andThen_some (andThen_some hi hsel) ha]
  rfl

theorem selected_zero (GetModelMatrix : Transform → mat4) (ui : DebugUI) (s : demo_instancing)
    (h0 : s.InstanceCount = 0) :
    DisplayDebugUI.selected GetModelMatrix ui s = some (s, []) := by
  unfold DisplayDebugUI.selected
  rw [if_neg (by simpa using h0)]

theorem AddInstanceAttributes_at_zero (GetModelMatrix : Transform → mat4) (s : demo_instancing)
    (h : s.InstanceCount = 0) :
    ∃ s1, AddInstanceAttributes GetModelMatrix s = some s1 ∧ s1.InstanceCount = 1 ∧
      s1.InstanceIndex = s.InstanceIndex ∧
      s1.InstanceTransform = s.InstanceTransform ++ [s.InstanceAdditionalTransform] ∧
      s1.InstanceModel = s.InstanceModel ++ [GetModelMatrix s.InstanceAdditionalTransform] ∧
      s1.InstanceColor = s.InstanceColor ++ [s.InstanceAdditionalColor] := by
  have hmod : (s.InstanceCount + 1) % UINT_RANGE = 1 := by rw [h]; decide
  have hM : sizeof_mat4 * 1 ≤ (vectorData mat4.bytes
      (s.InstanceModel ++ [GetModelMatrix s.InstanceAdditionalTransform])).length := by
    rw [vectorData_length mat4.bytes sizeof_mat4 mat4_bytes_length, List.length_append]
    exact Nat.mul_le_mul_left _ (by simp)
  have hC : sizeof_v3 * 1 ≤ (vectorData v3.bytes
      (s.InstanceColor ++ [s.InstanceAdditionalColor])).length := by
    rw [vectorData_length v3.bytes sizeof_v3 v3_bytes_length, List.length_append]
    exact Nat.mul_le_mul_left _ (by simp)
  unfold AddInstanceAttributes
  simp only [hmod, glBufferData, hM, hC, if_true, Option.some_bind]
  exact ⟨_, rfl, rfl, rfl, rfl, rfl, rfl⟩

/-- C18 (amended): from an instance set with `InstanceCount = list length` and
`InstanceIndex < InstanceCount` (or both zero), for every sequence of frames of
`DisplayDebugUI` whose widgets return values inside their declared ranges and that is short
enough for the counter not to reach `2^32` (`max(InstanceCount, 9999) + frames < 2^32`), every
frame returns; every call of `UpdateInstanceAttributes` and `DestroyInstanceAttributes` and
every indexing of `InstanceTransform` / `InstanceColor` happens with `InstanceCount > 0` and
`InstanceIndex < InstanceCount = list length`; after every mutation `InstanceCount = 0` or
`InstanceIndex < InstanceCount`; and the final state has `InstanceCount = list length` again
with `InstanceCount = 0` or `InstanceIndex < InstanceCount`. -/
theorem DisplayDebugUI_stays_in_bounds (GetModelMatrix : Transform → mat4)
    (frames : List DebugUI) (s : demo_instancing) (hs : Sized s)
    (hi : s.InstanceIndex < s.InstanceCount ∨ (s.InstanceCount = 0 ∧ s.InstanceIndex = 0))
    (hr : ∀ ui ∈ frames, ui.inRange)
    (hB : max s.InstanceCount 9999 + frames.length < UINT_RANGE) :
    ∃ s1 log, runFrames GetModelMatrix frames s = some (s1, log) ∧
      (∀ e ∈ log, e.inBounds) ∧ Sized s1 ∧
      (s1.InstanceCount = 0 ∨ s1.InstanceIndex < s1.InstanceCount) := by
  obtain ⟨s1, log, e1, h1, hlog⟩ :=
    runFrames_leads GetModelMatrix frames s.InstanceCount hr hB s ⟨hs, hi, le_refl _⟩
  refine ⟨s1, log, e1, hlog, h1.1, ?_⟩
  rcases h1.2.1 with h | h
  · exact Or.inr h
  · exact Or.inl h.1

theorem busyFrame_inRange : busyFrame.inRange := by
  refine ⟨?_, ?_⟩
  · intro n hn
    have h3 : n = 3 := by
      have : some (3 : Int) = some n := hn
      exact (Option.some.inj this).symm
    omega
  · intro v_max v hv
    have h : (if 1 ≤ v_max then some (1 : Int) else none) = some v := hv
    split at h
    · have h1 : v = 1 := (Option.some.inj h).symm
      omega
    · cases h

theorem idleFrame_inRange : idleFrame.inRange :=
  ⟨fun _ hn => (by cases hn), fun _ _ hv => (by cases hv)⟩

theorem addFrame_inRange : addFrame.inRange :=
  ⟨fun _ hn => (by cases hn), fun _ _ hv => (by cases hv)⟩

/-- Witness of `DisplayDebugUI_stays_in_bounds`: on the sample instance set, a frame that sets
the count, selects, edits, destroys and adds, followed by an idle frame. -/
theorem DisplayDebugUI_stays_in_bounds_witness :
    Sized sampleInstances ∧
    (sampleInstances.InstanceIndex < sampleInstances.InstanceCount ∨
      (sampleInstances.InstanceCount = 0 ∧ sampleInstances.InstanceIndex = 0)) ∧
    (∀ ui ∈ [busyFrame, idleFrame], ui.inRange) ∧
    max sampleInstances.InstanceCount 9999 + [busyFrame, idleFrame].length < UINT_RANGE ∧
    ∃ s1 log, runFrames sampleModelMatrix [busyFrame, idleFrame] sampleInstances
        = some (s1, log) ∧
      (∀ e ∈ log, e.inBounds) ∧ Sized s1 ∧
      (s1.InstanceCount = 0 ∨ s1.InstanceIndex < s1.InstanceCount) :=
  have hr : ∀ ui ∈ [busyFrame, idleFrame], ui.inRange := fun ui hui => by
    simp only [List.mem_cons, List.mem_singleton, List.not_mem_nil, or_false] at hui
    rcases hui with h | h
    · rw [h]; exact busyFrame_inRange
    · rw [h]; exact idleFrame_inRange
  ⟨by decide, by decide, hr, by decide,
    DisplayDebugUI_stays_in_bounds sampleModelMatrix [busyFrame, idleFrame] sampleInstances
      (by decide) (by decide) hr (by decide)⟩

theorem AddInstanceAttributes_at_limit (GetModelMatrix : Transform → mat4) (s : demo_instancing)
    (h : s.InstanceCount = 4294967295) :
    ∃ s1, AddInstanceAttributes GetModelMatrix s = some s1 ∧ s1.InstanceCount = 0 ∧
      s1.InstanceIndex = s.InstanceIndex ∧
      s1.InstanceAdditionalTransform = s.InstanceAdditionalTransform ∧
      s1.InstanceAdditionalColor = s.InstanceAdditionalColor ∧
      s1.InstanceTransform = s.InstanceTransform ++ [s.InstanceAdditionalTransform] ∧
      s1.InstanceModel = s.InstanceModel ++ [GetModelMatrix s.InstanceAdditionalTransform] ∧
      s1.InstanceColor = s.InstanceColor ++ [s.InstanceAdditionalColor] :=
  ⟨_, AddInstanceAttributes_full GetModelMatrix s h, rfl, rfl, rfl, rfl, rfl, rfl, rfl⟩

/-- C18, counterexample: on the synchronised instance set of size `2^32 - 1` with
`InstanceIndex = 0 < InstanceCount`, two frames in which only "Add" is pressed wrap the counter
to 0 and bring it to 1 while each list grows to `2^32 + 1` entries; in the next frame, with no
widget touched, `InstanceTransform[InstanceIndex]` is indexed with `InstanceCount = 1`, which is
not the list length. -/
theorem DisplayDebugUI_counter_below_list_length :
    Synced fullInstanceSet ∧ fullInstanceSet.InstanceIndex < fullInstanceSet.InstanceCount ∧
    (∀ ui ∈ [addFrame, addFrame, idleFrame], ui.inRange) ∧
    ∃ s1 log, runFrames sampleModelMatrix [addFrame, addFrame, idleFrame] fullInstanceSet
        = some (s1, log) ∧
      UIEvent.indexTransform ⟨1, 0, 4294967297, 4294967297, 4294967297⟩ ∈ log ∧
      ¬ (UIEvent.indexTransform ⟨1, 0, 4294967297, 4294967297, 4294967297⟩).inBounds := by
  have hr : ∀ ui ∈ [addFrame, addFrame, idleFrame], ui.inRange := fun ui hui => by
    simp only [List.mem_cons, List.mem_singleton, List.not_mem_nil, or_false] at hui
    rcases hui with h | h | h
    · rw [h]; exact addFrame_inRange
    · rw [h]; exact addFrame_inRange
    · rw [h]; exact idleFrame_inRange
  obtain ⟨hR, hlT, hlM, hlC⟩ := fullInstanceSet_sized
  have hcnt : fullInstanceSet.InstanceCount = 4294967295 := rfl
  have hidx : fullInstanceSet.InstanceIndex = 0 := rfl
  -- first frame: the four indexings, then the addition that wraps the counter
  obtain ⟨tf0, hT0⟩ := getElem?_of_lt fullInstanceSet.InstanceTransform
    fullInstanceSet.InstanceIndex (by rw [hlT, hcnt, hidx]; decide)
  obtain ⟨c0, hC0⟩ := getElem?_of_lt fullInstanceSet.InstanceColor
    fullInstanceSet.InstanceIndex (by rw [hlC, hcnt, hidx]; decide)
  have hsel0 := selected_untouched sampleModelMatrix addFrame fullInstanceSet tf0 c0 rfl rfl rfl
    rfl rfl rfl (by rw [hcnt]; decide) hT0 hC0
  obtain ⟨s1, hadd0, hc1, hx1, _, _, hT1, hM1, hC1⟩ :=
    AddInstanceAttributes_at_limit sampleModelMatrix fullInstanceSet hcnt
  have hf1 := DisplayDebugUI_addFrame sampleModelMatrix fullInstanceSet s1 _ hsel0 hadd0
  -- second frame: the counter is zero, so only the addition runs
  obtain ⟨s2, hadd1, hc2, hx2, hT2, hM2, hC2⟩ :=
    AddInstanceAttributes_at_zero sampleModelMatrix s1 hc1
  have hf2 := DisplayDebugUI_addFrame sampleModelMatrix s1 s2 []
    (selected_zero sampleModelMatrix addFrame s1 hc1) hadd1
  -- third frame: the indexings happen with the counter at 1
  have hx2a : s2.InstanceIndex = 0 := by rw [hx2, hx1, hidx]
  have hlT2 : s2.InstanceTransform.length = 4294967297 := by
    rw [hT2, hT1, List.length_append, List.length_append, hlT, hcnt]; rfl
  have hlM2 : s2.InstanceModel.length = 4294967297 := by
    rw [hM2, hM1, List.length_append, List.length_append, hlM, hcnt]; rfl
  have hlC2 : s2.InstanceColor.length = 4294967297 := by
    rw [hC2, hC1, List.length_append, List.length_append, hlC, hcnt]; rfl
  obtain ⟨tf3, hT3⟩ := getElem?_of_lt s2.InstanceTransform s2.InstanceIndex
    (by rw [hlT2, hx2a]; decide)
  obtain ⟨c3, hC3⟩ := getElem?_of_lt s2.InstanceColor s2.InstanceIndex
    (by rw [hlC2, hx2a]; decide)
  have hf3 := DisplayDebugUI_idleFrame sampleModelMatrix s2 tf3 c3 (by rw [hc2]; decide) hT3 hC3
  have hext : s2.extent = ⟨1, 0, 4294967297, 4294967297, 4294967297⟩ := by
    unfold demo_instancing.extent
    rw [hc2, hx2a, hlT2, hlM2, hlC2]
  have hend : runFrames sampleModelMatrix [] s2 = some (s2, []) := rfl
  have hrun3 : runFrames sampleModelMatrix [idleFrame] s2 = some (s2, _) :=
    andThen_some hf3 hend
  have hrun2 : runFrames sampleModelMatrix [addFrame, idleFrame] s1 = some (s2, _) :=
    andThen_some hf2 hrun3
  have hrun1 : runFrames sampleModelMatrix [addFrame, addFrame, idleFrame] fullInstanceSet
      = some (s2, _) := andThen_some hf1 hrun2
  refine ⟨⟨fullInstanceSet_sized, ?_, ?_, rfl, rfl⟩, by rw [hcnt, hidx]; decide, hr,
    s2, _, hrun1, ?_, ?_⟩
  · show (vectorData mat4.bytes fullInstanceSet.InstanceModel).length = _
    rw [vectorData_length mat4.bytes sizeof_mat4 mat4_bytes_length, hlM]
  · show (vectorData v3.bytes fullInstanceSet.InstanceColor).length = _
    rw [vectorData_length v3.bytes sizeof_v3 v3_bytes_length, hlC]
  · rw [hext]
    simp
  · simp [UIEvent.inBounds]

/-! ## Teardown -/

/-- C15: evaluation of the `demo_postprocess` constructor followed by the destructor, in a
context without other objects. The constructor leaves twelve live objects. The destructor
deletes `TavernVAO`, `RenderVAO`, `TavernProgram`, `PostProcessProgram` and `FBO` exactly once
each; `RenderProgram`, `RawRenderTex`, `RenderDepthMap`, `ppRenderTex[0..1]` and `ppFBO[0..1]`
are never passed to a delete call and are still live when it returns. -/
theorem demo_postprocess_destructor_keeps_objects :
    constructedPostProcess.2.live.length = 12 ∧
    (demo_postprocess.destructor constructedPostProcess.1 constructedPostProcess.2).live
      = [(.Program, constructedPostProcess.1.RenderProgram),
          (.Texture, constructedPostProcess.1.RawRenderTex),
          (.Texture, constructedPostProcess.1.RenderDepthMap),
          (.Texture, constructedPostProcess.1.ppRenderTex 0),
          (.Texture, constructedPostProcess.1.ppRenderTex 1),
          (.Framebuffer, constructedPostProcess.1.ppFBO 0),
          (.Framebuffer, constructedPostProcess.1.ppFBO 1)] ∧
    (demo_postprocess.destructor constructedPostProcess.1 constructedPostProcess.2).deleted
      = constructedPostProcess.2.deleted ++
        [(.VertexArray, constructedPostProcess.1.TavernVAO),
          (.VertexArray, constructedPostProcess.1.RenderVAO),
          (.Program, constructedPostProcess.1.TavernProgram),
          (.Program, constructedPostProcess.1.PostProcessProgram),
          (.Framebuffer, constructedPostProcess.1.FBO)] ∧
    ((demo_postprocess.destructor constructedPostProcess.1 constructedPostProcess.2).deleted.map
        fun p => (demo_postprocess.destructor constructedPostProcess.1
          constructedPostProcess.2).deletions p.1 p.2) = [1, 1, 1, 1, 1, 1] ∧
    ((demo_postprocess.destructor constructedPostProcess.1 constructedPostProcess.2).live.map
        fun p => (demo_postprocess.destructor constructedPostProcess.1
          constructedPostProcess.2).deletions p.1 p.2) = [0, 0, 0, 0, 0, 0, 0] := by
  decide

/-- C16: evaluation of the `demo_shadowmap` constructor followed by the destructor, in a
context without other objects. The constructor leaves seven live objects. The destructor
deletes `TavernVAO`, `RenderVAO`, `DepthFBO`, `TavernProgram`, `DepthProgram` and
`RenderProgram` exactly once each; the `DepthMap` texture is never passed to a delete call and
is still live when it returns. -/
theorem demo_shadowmap_destructor_keeps_DepthMap :
    constructedShadowMap.2.live.length = 7 ∧
    (demo_shadowmap.destructor constructedShadowMap.1 constructedShadowMap.2).live
      = [(.Texture, constructedShadowMap.1.DepthMap)] ∧
    (demo_shadowmap.destructor constructedShadowMap.1 constructedShadowMap.2).deleted
      = constructedShadowMap.2.deleted ++
        [(.VertexArray, constructedShadowMap.1.TavernVAO),
          (.VertexArray, constructedShadowMap.1.RenderVAO),
          (.Framebuffer, constructedShadowMap.1.DepthFBO),
          (.Program, constructedShadowMap.1.TavernProgram),
          (.Program, constructedShadowMap.1.DepthProgram),
          (.Program, constructedShadowMap.1.RenderProgram)] ∧
    ((demo_shadowmap.destructor constructedShadowMap.1 constructedShadowMap.2).deleted.map
        fun p => (demo_shadowmap.destructor constructedShadowMap.1
          constructedShadowMap.2).deletions p.1 p.2) = [1, 1, 1, 1, 1, 1, 1] ∧
    (demo_shadowmap.destructor constructedShadowMap.1 constructedShadowMap.2).deletions
        .Texture constructedShadowMap.1.DepthMap = 0 := by
  decide

/-! ## The shader configuration string -/

/-- C17: evaluation of the `snprintf` call of both constructors. The buffer has 24 bytes, the
23 characters of the format and the terminator. For `LightCount = 100` the stored string is
`#define LIGHT_COUNT 100` without the newline, and for `LightCount = 1000` it is the same
string, the last digit lost as well; neither is the configuration string the number calls for.
For every `LightCount` from 0 to 99 the stored string is `#define LIGHT_COUNT `, the decimal
number and a newline. -/
theorem FragmentShaderConfig_truncated :
    FragmentShaderConfigSize = 24 ∧
    FragmentShaderConfig 100 = "#define LIGHT_COUNT 100".toList ∧
    FragmentShaderConfig 100 ≠ lightCountDefine 100 ∧
    FragmentShaderConfig 1000 = "#define LIGHT_COUNT 100".toList ∧
    FragmentShaderConfig 1000 ≠ lightCountDefine 1000 ∧
    ∀ n : Fin 100, FragmentShaderConfig n = lightCountDefine n := by
  decide

/-! ## Model matrices track the transforms -/

theorem Consistent_tracks (GetModelMatrix : Transform → mat4) (s : demo_instancing)
    (h : Consistent GetModelMatrix s) : Tracks GetModelMatrix s := by
  obtain ⟨_, hle, _, hM⟩ := h
  intro i hi
  have hiT : i < s.InstanceTransform.length := by omega
  refine ⟨s.InstanceTransform[i], List.getElem?_eq_getElem hiT, ?_⟩
  rw [hM, List.getElem?_map, List.getElem?_eq_getElem hiT]
  rfl

theorem upload_fits_within {α : Type} (f : α → List Byte) (k : Nat) (hk : ∀ a, (f a).length = k)
    (l : List α) (n : Nat) (h : n ≤ l.length) : k * n ≤ (vectorData f l).length := by
  rw [vectorData_length f k hk l]
  exact Nat.mul_le_mul_left _ h

/-- Both `glBufferData` uploads of a method, when each list has at least as many entries as
the counter says. -/
theorem reupload_some (g : BufferState) (n : Nat) (M : List mat4) (C : List v3)
    (hM : n ≤ M.length) (hC : n ≤ C.length) :
    ((glBufferData (sizeof_mat4 * n) (vectorData mat4.bytes M)
        (glBindBuffer .InstanceTransformVBO g)).bind fun g1 =>
      glBufferData (sizeof_v3 * n) (vectorData v3.bytes C) (glBindBuffer .InstanceColorVBO g1))
      = some ⟨.InstanceColorVBO, (vectorData mat4.bytes M).take (sizeof_mat4 * n),
          (vectorData v3.bytes C).take (sizeof_v3 * n)⟩ := by
  have h1 := upload_fits_within mat4.bytes sizeof_mat4 mat4_bytes_length M n hM
  have h3 := upload_fits_within v3.bytes sizeof_v3 v3_bytes_length C n hC
  simp [glBufferData, glBindBuffer, BufferState.setBoundData, h1, h3]

theorem SetInstanceAttributes_loop_tracks (GetModelMatrix : Transform → mat4)
    (rnd : Nat → float) (s : demo_instancing) (n : Nat)
    (h : s.InstanceModel = s.InstanceTransform.map GetModelMatrix) :
    ((List.range n).foldl (SetInstanceAttributes.body GetModelMatrix rnd) s).InstanceModel
      = ((List.range n).foldl (SetInstanceAttributes.body GetModelMatrix rnd)
          s).InstanceTransform.map GetModelMatrix := by
  induction n with
  | zero => simpa using h
  | succ n ih =>
    simp only [List.range_succ, List.foldl_append, List.foldl_cons, List.foldl_nil]
    simp only [SetInstanceAttributes.body, ih, List.map_append, List.map_cons, List.map_nil]

theorem Consistent_SetCount (GetModelMatrix : Transform → mat4) (rnd : Nat → float)
    (s : demo_instancing) (hN : s.InstanceCount ≤ INT_MAX) :
    ∃ s1, SetInstanceAttributes GetModelMatrix rnd s = some s1 ∧
      Consistent GetModelMatrix s1 := by
  have hloop := SetInstanceAttributes_loop GetModelMatrix rnd
    { s with InstanceModel := [], InstanceTransform := [], InstanceColor := [] } s.InstanceCount
  have htr := SetInstanceAttributes_loop_tracks GetModelMatrix rnd
    { s with InstanceModel := [], InstanceTransform := [], InstanceColor := [] } s.InstanceCount
    rfl
  unfold SetInstanceAttributes
  rw [if_pos hN]
  simp only [List.length_nil, Nat.zero_add] at hloop ⊢
  generalize (List.range s.InstanceCount).foldl (SetInstanceAttributes.body GetModelMatrix rnd)
    { s with InstanceModel := [], InstanceTransform := [], InstanceColor := [] } = s1
    at hloop htr ⊢
  obtain ⟨h1, _, _, h4, h5, h6⟩ := hloop
  have h := reupload_some s1.Buffers s1.InstanceCount s1.InstanceModel s1.InstanceColor
    (by omega) (by omega)
  refine ⟨_, bind_bind_some h, ?_, ?_, ?_, htr⟩
  · show s1.InstanceCount < UINT_RANGE
    rw [h1]; unfold INT_MAX at hN; unfold UINT_RANGE; omega
  · show s1.InstanceCount ≤ s1.InstanceTransform.length
    omega
  · show s1.InstanceColor.length = s1.InstanceTransform.length
    omega

theorem Consistent_Add (GetModelMatrix : Transform → mat4) (s : demo_instancing)
    (hs : Consistent GetModelMatrix s) :
    ∃ s1, AddInstanceAttributes GetModelMatrix s = some s1 ∧ Consistent GetModelMatrix s1 := by
  obtain ⟨hR, hle, hC, hM⟩ := hs
  have hML : s.InstanceModel.length = s.InstanceTransform.length := by rw [hM, List.length_map]
  have hmod : (s.InstanceCount + 1) % UINT_RANGE ≤ s.InstanceCount + 1 := Nat.mod_le _ _
  have hlt : (s.InstanceCount + 1) % UINT_RANGE < UINT_RANGE :=
    Nat.mod_lt _ (by unfold UINT_RANGE; omega)
  have h := reupload_some s.Buffers ((s.InstanceCount + 1) % UINT_RANGE)
    (s.InstanceModel ++ [GetModelMatrix s.InstanceAdditionalTransform])
    (s.InstanceColor ++ [s.InstanceAdditionalColor])
    (by rw [List.length_append, List.length_singleton]; omega)
    (by rw [List.length_append, List.length_singleton]; omega)
  unfold AddInstanceAttributes
  refine ⟨_, bind_bind_some h, hlt, ?_, ?_, ?_⟩
  · show (s.InstanceCount + 1) % UINT_RANGE
      ≤ (s.InstanceTransform ++ [s.InstanceAdditionalTransform]).length
    rw [List.length_append, List.length_singleton]; omega
  · show (s.InstanceColor ++ [s.InstanceAdditionalColor]).length
      = (s.InstanceTransform ++ [s.InstanceAdditionalTransform]).length
    rw [List.length_append, List.length_append, hC]; rfl
  · show s.InstanceModel ++ [GetModelMatrix s.InstanceAdditionalTransform]
      = (s.InstanceTransform ++ [s.InstanceAdditionalTransform]).map GetModelMatrix
    rw [List.map_append, hM]; rfl

theorem Consistent_Destroy (GetModelMatrix : Transform → mat4) (s : demo_instancing)
    (hs : Consistent GetModelMatrix s) (hi : s.InstanceIndex < s.InstanceCount) :
    ∃ s1, DestroyInstanceAttributes s = some s1 ∧ Consistent GetModelMatrix s1 := by
  obtain ⟨hR, hle, hC, hM⟩ := hs
  have hML : s.InstanceModel.length = s.InstanceTransform.length := by rw [hM, List.length_map]
  have hmod : (s.InstanceCount + UINT_RANGE - 1) % UINT_RANGE = s.InstanceCount - 1 := by
    have e : s.InstanceCount + UINT_RANGE - 1 = (s.InstanceCount - 1) + UINT_RANGE := by omega
    rw [e, Nat.add_mod_right]
    exact Nat.mod_eq_of_lt (by omega)
  have hM1 : (s.InstanceModel.eraseIdx s.InstanceIndex).length
      = s.InstanceTransform.length - 1 := by
    rw [List.length_eraseIdx_of_lt (by omega), hML]
  have hC1 : (s.InstanceColor.eraseIdx s.InstanceIndex).length
      = s.InstanceTransform.length - 1 := by
    rw [List.length_eraseIdx_of_lt (by omega), hC]
  have hT1 : (s.InstanceTransform.eraseIdx s.InstanceIndex).length
      = s.InstanceTransform.length - 1 := by
    rw [List.length_eraseIdx_of_lt (by omega)]
  have h := reupload_some s.Buffers (s.InstanceCount - 1)
    (s.InstanceModel.eraseIdx s.InstanceIndex) (s.InstanceColor.eraseIdx s.InstanceIndex)
    (by omega) (by omega)
  unfold DestroyInstanceAttributes
  rw [if_pos ⟨by omega, by omega, by omega⟩]
  simp only [hmod]
  refine ⟨_, bind_bind_some h, ?_, ?_, ?_, ?_⟩
  · show s.InstanceCount - 1 < UINT_RANGE
    omega
  · show s.InstanceCount - 1 ≤ (s.InstanceTransform.eraseIdx s.InstanceIndex).length
    omega
  · show (s.InstanceColor.eraseIdx s.InstanceIndex).length
      = (s.InstanceTransform.eraseIdx s.InstanceIndex).length
    omega
  · show s.InstanceModel.eraseIdx s.InstanceIndex
      = (s.InstanceTransform.eraseIdx s.InstanceIndex).map GetModelMatrix
    rw [hM]
    apply List.ext_getElem?
    intro j
    rw [List.getElem?_map, List.getElem?_eraseIdx, List.getElem?_eraseIdx]
    split <;> rw [List.getElem?_map]

theorem Consistent_Update (GetModelMatrix : Transform → mat4) (s : demo_instancing)
    (i : Nat) (tf : Transform) (c : v3) (hs : Consistent GetModelMatrix s)
    (hi : i < s.InstanceCount) :
    ∃ s1, (InstanceCall.Update i tf c).run GetModelMatrix s = some s1 ∧
      Consistent GetModelMatrix s1 := by
  obtain ⟨hR, hle, hC, hM⟩ := hs
  have hML : s.InstanceModel.length = s.InstanceTransform.length := by rw [hM, List.length_map]
  have hiT : i < s.InstanceTransform.length := by omega
  have hiM : i < s.InstanceModel.length := by omega
  have hiC : i < s.InstanceColor.length := by omega
  have e := UpdateInstanceAttributes_eq GetModelMatrix
    { s with
      InstanceIndex := i
      InstanceTransform := s.InstanceTransform.set i tf
      InstanceColor := s.InstanceColor.set i c } tf s.InstanceModel[i] c
    (List.getElem?_set_self hiT) (List.getElem?_eq_getElem hiM)
    (List.getElem?_set_self hiC)
  refine ⟨_, e, hR, ?_, ?_, ?_⟩
  · show s.InstanceCount ≤ (s.InstanceTransform.set i tf).length
    rw [List.length_set]; exact hle
  · show (s.InstanceColor.set i c).length = (s.InstanceTransform.set i tf).length
    rw [List.length_set, List.length_set, hC]
  · show s.InstanceModel.set i (GetModelMatrix tf)
      = (s.InstanceTransform.set i tf).map GetModelMatrix
    rw [hM, List.map_set]

theorem Consistent_step (GetModelMatrix : Transform → mat4) (c : InstanceCall)
    (s : demo_instancing) (hs : Consistent GetModelMatrix s)
    (hc : c.indexInRange s = true) :
    ∃ s1, c.run GetModelMatrix s = some s1 ∧ Consistent GetModelMatrix s1 := by
  cases c with
  | SetCount n rnd =>
    have hn : n ≤ INT_MAX := by simpa [InstanceCall.indexInRange] using hc
    exact Consistent_SetCount GetModelMatrix rnd
      { s with InstanceCount := n, InstanceIndex := 0 } hn
  | Update i tf c =>
    exact Consistent_Update GetModelMatrix s i tf c hs
      (by simpa [InstanceCall.indexInRange] using hc)
  | Add tf c =>
    exact Consistent_Add GetModelMatrix
      { s with InstanceAdditionalTransform := tf, InstanceAdditionalColor := c } hs
  | Destroy i =>
    exact Consistent_Destroy GetModelMatrix { s with InstanceIndex := i } hs
      (by simpa [InstanceCall.indexInRange] using hc)

theorem Consistent_runCalls (GetModelMatrix : Transform → mat4) (cs : List InstanceCall)
    (s : demo_instancing) (hs : Consistent GetModelMatrix s)
    (hcs : allIndexInRange GetModelMatrix cs s = true) :
    ∃ s1, runCalls GetModelMatrix cs s = some s1 ∧ Consistent GetModelMatrix s1 := by
  induction cs generalizing s with
  | nil => exact ⟨s, rfl, hs⟩
  | cons c cs ih =>
    simp only [allIndexInRange, Bool.and_eq_true] at hcs
    obtain ⟨s1, h1, h2⟩ := Consistent_step GetModelMatrix c s hs hcs.1
    have h3 := hcs.2
    rw [h1] at h3
    obtain ⟨s2, h4, h5⟩ := ih s1 h2 h3
    exact ⟨s2, by simp only [runCalls, h1, Option.some_bind, h4], h5⟩

/-- C25: for every pure function `GetModelMatrix`, after `SetInstanceAttributes` (run with a
count the `int` loop counter can reach) and after every sequence of additions, edits, removals
and resets that follows it, where an edit writes only the record at `InstanceIndex` before
`UpdateInstanceAttributes` and edits and removals are made with `InstanceIndex <
InstanceCount`, every call returns and, for every index `i < InstanceCount`,
`InstanceModel[i]` equals `GetModelMatrix` of `InstanceTransform[i]`. Additions are not
restricted: the property also holds once the counter has wrapped. -/
theorem model_matrix_tracks_transform (GetModelMatrix : Transform → mat4)
    (s : demo_instancing) (n : Nat) (rnd : Nat → float) (cs : List InstanceCall)
    (h : allIndexInRange GetModelMatrix (.SetCount n rnd :: cs) s = true) :
    ∃ s0 s1, SetInstanceAttributes GetModelMatrix rnd
        { s with InstanceCount := n, InstanceIndex := 0 } = some s0 ∧
      Tracks GetModelMatrix s0 ∧
      runCalls GetModelMatrix cs s0 = some s1 ∧ Tracks GetModelMatrix s1 := by
  simp only [allIndexInRange, Bool.and_eq_true] at h
  have hn : n ≤ INT_MAX := by simpa [InstanceCall.indexInRange] using h.1
  obtain ⟨s0, h0, hs0⟩ := Consistent_SetCount GetModelMatrix rnd
    { s with InstanceCount := n, InstanceIndex := 0 } hn
  have h3 := h.2
  simp only [InstanceCall.run, h0] at h3
  obtain ⟨s1, h1, hs1⟩ := Consistent_runCalls GetModelMatrix cs s0 hs0 h3
  exact ⟨s0, s1, h0, Consistent_tracks GetModelMatrix s0 hs0, h1,
    Consistent_tracks GetModelMatrix s1 hs1⟩

set_option maxRecDepth 100000 in
/-- Witness of `model_matrix_tracks_transform` on the sample call sequence. -/
theorem model_matrix_tracks_transform_witness :
    allIndexInRange sampleModelMatrix (.SetCount 3 sampleRng :: sampleCalls) sampleInstances
      = true ∧
    ∃ s0 s1, SetInstanceAttributes sampleModelMatrix sampleRng
        { sampleInstances with InstanceCount := 3, InstanceIndex := 0 } = some s0 ∧
      Tracks sampleModelMatrix s0 ∧
      runCalls sampleModelMatrix sampleCalls s0 = some s1 ∧ Tracks sampleModelMatrix s1 :=
  ⟨by decide, model_matrix_tracks_transform sampleModelMatrix sampleInstances 3 sampleRng
    sampleCalls (by decide)⟩

/-! ## Parity across frames -/

theorem parityAfter_eq_xor (p : Bool) (n : Nat) :
    parityAfter p n = xor p (decide (n % 2 = 1)) := by
  unfold parityAfter
  rcases Nat.mod_two_eq_zero_or_one n with h | h <;> cases p <;> simp [h]

theorem parityAfter_eq_iterate (p : Bool) (n : Nat) :
    parityAfter p n = (fun b => !b)^[n] p := by
  induction n with
  | zero => rfl
  | succ n ih => rw [parityAfter_succ, ih, Function.iterate_succ_apply']

theorem parityAfter_twice (p : Bool) (n : Nat) : parityAfter (parityAfter p n) n = p := by
  unfold parityAfter
  rcases Nat.mod_two_eq_zero_or_one n with h | h <;> cases p <;> simp [h]

theorem both_indices_reached (p : Bool) (j : Fin 2) :
    index (parityAfter p 0) = j ∨ index (parityAfter p 1) = j := by
  cases p <;> fin_cases j <;> simp [index, parityAfter]

/-- C26 (amended): the flag `pp` is never reset. `RenderPingPong(k)` changes no other member
and flips `pp` exactly `max(k, 0)` times, so for every initial parity `p` the final parity is
`p XOR (max(k, 0) odd)`; a frame does the same with `k = PostProcessCount`; two consecutive
frames with the same `k` restore the parity, and the whole state, the first frame started
with; and in a frame with `k >= 2` each of the two ping-pong framebuffers is drawn into by
one of the first two filter draws, whatever `p` is, while every filter draw goes into one of
the two. -/
theorem pp_persists_across_frames (W H k : Int) (s : demo_postprocess) (g g1 : Context) :
    ((k.toNat : Int) = max k 0) ∧
    (RenderPingPong k s g).1 = { s with pp := (fun b => !b)^[k.toNat] s.pp } ∧
    (RenderPingPong k s g).1.pp = xor s.pp (decide (k.toNat % 2 = 1)) ∧
    (Update W H s g).1
      = { s with pp := xor s.pp (decide (s.PostProcessCount.toNat % 2 = 1)) } ∧
    (Update W H (Update W H s g).1 g1).1 = s ∧
    (RenderPingPong k s g).2.draws
      = g.draws ++ (List.range k.toNat).map (filterDraw s g) ∧
    (∀ i, (filterDraw s g i).framebuffer = s.ppFBO 0 ∨
      (filterDraw s g i).framebuffer = s.ppFBO 1) ∧
    (2 ≤ k → ∀ j : Fin 2, ∃ d ∈ ((List.range k.toNat).map (filterDraw s g)).take 2,
      d.framebuffer = s.ppFBO j) := by
  obtain ⟨p1, _, _, _, p5⟩ := RenderPingPong_spec k s g
  obtain ⟨u1, _⟩ := Update_spec W H s g
  obtain ⟨v1, _⟩ := Update_spec W H (Update W H s g).1 g1
  refine ⟨Int.toNat_eq_max k, ?_, ?_, ?_, ?_, p5, ?_, ?_⟩
  · rw [p1, parityAfter_eq_iterate]
  · rw [p1]
    exact parityAfter_eq_xor s.pp k.toNat
  · rw [u1, parityAfter_eq_xor]
  · rw [v1, u1]
    simp only [parityAfter_twice]
  · intro i
    rcases index_cases (parityAfter s.pp i) with ⟨h, _⟩ | ⟨h, _⟩
    · left
      simp only [filterDraw, h]
    · right
      simp only [filterDraw, h]
  · intro hk j
    obtain ⟨m, hm⟩ : ∃ m, k.toNat = m + 2 := ⟨k.toNat - 2, by omega⟩
    rw [hm]
    have hr : List.range (m + 2) = 0 :: 1 :: (List.range m).map (fun x => x + 2) := by
      rw [List.range_succ_eq_map, List.range_succ_eq_map]
      simp [List.map_map, Function.comp_def]
    rw [hr]
    simp only [List.map_cons, List.take_succ_cons, List.take_zero, List.mem_cons,
      List.mem_singleton, List.not_mem_nil, or_false, exists_eq_or_imp, exists_eq_left]
    rcases both_indices_reached s.pp j with h | h
    · left
      simp only [filterDraw, h]
    · right
      simp only [filterDraw, h]

/-- Witness of `pp_persists_across_frames`: a frame with two filter iterations draws into
both ping-pong framebuffers, the second one first when `pp` is set on entry. -/
theorem pp_persists_across_frames_witness :
    (2 : Int) ≤ 2 ∧
    ∀ j : Fin 2, ∃ d ∈ ((List.range (2 : Int).toNat).map
        (filterDraw (samplePostProcess true 2) sampleContext)).take 2,
      d.framebuffer = (samplePostProcess true 2).ppFBO j :=
  ⟨by decide, (pp_persists_across_frames 800 600 2 (samplePostProcess true 2) sampleContext
    sampleContext).2.2.2.2.2.2.2 (by decide)⟩

/-- C26, counterexample: `-1` is odd, and `RenderPingPong(-1)` runs no iteration: entered with
`pp = false` it leaves `pp = false`, not `false XOR (k odd) = true`. -/
theorem RenderPingPong_negative_odd_count :
    (-1 : Int) % 2 = 1 ∧ Odd (-1 : Int) ∧
    (samplePostProcess false (-1)).pp = false ∧
    (RenderPingPong (-1) (samplePostProcess false (-1)) sampleContext).1.pp = false ∧
    (RenderPingPong (-1) (samplePostProcess false (-1)) sampleContext).1.pp
      ≠ xor (samplePostProcess false (-1)).pp (decide ((-1 : Int) % 2 = 1)) := by
  refine ⟨by decide, ⟨-1, by decide⟩, rfl, ?_, ?_⟩
  · rw [(RenderPingPong_spec (-1) _ sampleContext).1]
    rfl
  · rw [(RenderPingPong_spec (-1) _ sampleContext).1]
    decide

/-! ## What each pass binds itself -/

theorem RenderTavernFBO_beforeDraw (s : demo_postprocess) (g : Context) :
    RenderTavernFBO s g
      = ((RenderTavernFBO.beforeDraw s g).call
          (.glDrawArrays 0 s.TavernScene.MeshVertexCount)).call (.glBindFramebuffer 0) := rfl

theorem beforeDraw_bindings (s : demo_postprocess) (g : Context) :
    (RenderTavernFBO.beforeDraw s g).Framebuffer = s.FBO ∧
    (RenderTavernFBO.beforeDraw s g).CurrentProgram = s.TavernProgram ∧
    (RenderTavernFBO.beforeDraw s g).TextureBinding2D 0 = s.TavernScene.DiffuseTexture ∧
    (RenderTavernFBO.beforeDraw s g).TextureBinding2D 1 = s.TavernScene.EmissiveTexture := by
  refine ⟨?_, ?_, ?_, ?_⟩ <;>
    simp [RenderTavernFBO.beforeDraw, Context.call, Context.effect, Function.update_apply]

theorem RenderTavernDepthMap_spec (s : demo_shadowmap) (g : ShadowContext) :
    (s.RenderTavernDepthMap g).draws = g.draws ++ [depthDraw s g] := by
  simp [demo_shadowmap.RenderTavernDepthMap, ShadowContext.call, ShadowContext.effect,
    depthDraw]

theorem RenderTavern_spec (s : demo_shadowmap) (g : ShadowContext) :
    (s.RenderTavern g).draws = g.draws ++ [tavernDraw s g] := by
  simp [demo_shadowmap.RenderTavern, ShadowContext.call, ShadowContext.effect, tavernDraw,
    Function.update_apply]

/-- C21 (amended): for any two GL states on entry, `RenderTavernFBO` draws into `FBO` with
`TavernProgram`, the diffuse texture on unit 0 and the emissive texture on unit 1, and
`RenderTavernDepthMap` draws into `DepthFBO` with `DepthProgram`; every `RenderPingPong`
iteration draws with `PostProcessProgram` into `ppFBO[pp]` and binds the same input texture,
but to the texture unit that is active on entry, so the texture sampled (unit 0) is the input
when unit 0 is active on entry and the texture found on unit 0 otherwise; `RenderScreen`
binds its input in the same way and draws into the framebuffer that is bound on entry;
`RenderTavern` binds its three textures to units 0, 1 and 2 and draws into the framebuffer
that is bound on entry. -/
theorem passes_bind_their_inputs (s : demo_postprocess) (t : demo_shadowmap) (n : Int)
    (g1 g2 : Context) (h1 h2 : ShadowContext) :
    (∃ d1 d2 : DrawRecord,
      (RenderTavernFBO s g1).draws = g1.draws ++ [d1] ∧
      (RenderTavernFBO s g2).draws = g2.draws ++ [d2] ∧
      d1.program = s.TavernProgram ∧ d2.program = s.TavernProgram ∧
      d1.framebuffer = s.FBO ∧ d2.framebuffer = s.FBO ∧
      d1.sampled = s.TavernScene.DiffuseTexture ∧ d2.sampled = s.TavernScene.DiffuseTexture ∧
      (RenderTavernFBO.beforeDraw s g1).TextureBinding2D 1 = s.TavernScene.EmissiveTexture ∧
      (RenderTavernFBO.beforeDraw s g2).TextureBinding2D 1 = s.TavernScene.EmissiveTexture) ∧
    (∀ k, k < n.toNat → ∃ d1 d2 : DrawRecord,
      (RenderPingPong n s g1).2.draws[g1.draws.length + k]? = some d1 ∧
      (RenderPingPong n s g2).2.draws[g2.draws.length + k]? = some d2 ∧
      d1.program = s.PostProcessProgram ∧ d2.program = s.PostProcessProgram ∧
      d1.framebuffer = s.ppFBO (index (parityAfter s.pp k)) ∧
      d2.framebuffer = s.ppFBO (index (parityAfter s.pp k)) ∧
      d1.bound = filterSource s (parityAfter s.pp k) k ∧
      d2.bound = filterSource s (parityAfter s.pp k) k ∧
      d1.sampled = (if g1.ActiveTexture = 0 then d1.bound else g1.TextureBinding2D 0) ∧
      d2.sampled = (if g2.ActiveTexture = 0 then d2.bound else g2.TextureBinding2D 0)) ∧
    (∃ d1 d2 : DrawRecord,
      (RenderScreen s g1).draws = g1.draws ++ [d1] ∧
      (RenderScreen s g2).draws = g2.draws ++ [d2] ∧
      d1.program = s.RenderProgram ∧ d2.program = s.RenderProgram ∧
      d1.framebuffer = g1.Framebuffer ∧ d2.framebuffer = g2.Framebuffer ∧
      d1.bound = presentSource s ∧ d2.bound = presentSource s ∧
      d1.sampled = (if g1.ActiveTexture = 0 then d1.bound else g1.TextureBinding2D 0) ∧
      d2.sampled = (if g2.ActiveTexture = 0 then d2.bound else g2.TextureBinding2D 0)) ∧
    (∃ d1 d2 : ShadowDraw,
      (t.RenderTavernDepthMap h1).draws = h1.draws ++ [d1] ∧
      (t.RenderTavernDepthMap h2).draws = h2.draws ++ [d2] ∧
      d1.program = t.DepthProgram ∧ d2.program = t.DepthProgram ∧
      d1.framebuffer = t.DepthFBO ∧ d2.framebuffer = t.DepthFBO) ∧
    (∃ d1 d2 : ShadowDraw,
      (t.RenderTavern h1).draws = h1.draws ++ [d1] ∧
      (t.RenderTavern h2).draws = h2.draws ++ [d2] ∧
      d1.program = t.TavernProgram ∧ d2.program = t.TavernProgram ∧
      d1.unit0 = t.TavernScene.DiffuseTexture ∧ d2.unit0 = t.TavernScene.DiffuseTexture ∧
      d1.unit1 = t.TavernScene.EmissiveTexture ∧ d2.unit1 = t.TavernScene.EmissiveTexture ∧
      d1.unit2 = t.DepthMap ∧ d2.unit2 = t.DepthMap ∧
      d1.framebuffer = h1.Framebuffer ∧ d2.framebuffer = h2.Framebuffer) := by
  refine ⟨?_, ?_, ?_, ?_, ?_⟩
  · exact ⟨sceneDraw s g1, sceneDraw s g2, (RenderTavernFBO_spec s g1).2.2.2,
      (RenderTavernFBO_spec s g2).2.2.2, rfl, rfl, rfl, rfl, rfl, rfl,
      (beforeDraw_bindings s g1).2.2.2, (beforeDraw_bindings s g2).2.2.2⟩
  · intro k hk
    exact ⟨filterDraw s g1 k, filterDraw s g2 k, RenderPingPong_draw_at n s g1 k hk,
      RenderPingPong_draw_at n s g2 k hk, rfl, rfl, rfl, rfl, rfl, rfl, rfl, rfl⟩
  · exact ⟨presentDraw s g1, presentDraw s g2, RenderScreen_spec s g1, RenderScreen_spec s g2,
      rfl, rfl, rfl, rfl, rfl, rfl, rfl, rfl⟩
  · exact ⟨depthDraw t h1, depthDraw t h2, RenderTavernDepthMap_spec t h1,
      RenderTavernDepthMap_spec t h2, rfl, rfl, rfl, rfl⟩
  · exact ⟨tavernDraw t h1, tavernDraw t h2, RenderTavern_spec t h1, RenderTavern_spec t h2,
      rfl, rfl, rfl, rfl, rfl, rfl, rfl, rfl, rfl, rfl⟩

/-- Witness of `passes_bind_their_inputs`: the second of three filter iterations, entered
once with texture unit 0 active and once with unit 1 active. -/
theorem passes_bind_their_inputs_witness :
    1 < (3 : Int).toNat ∧
    ∃ d1 d2 : DrawRecord,
      (RenderPingPong 3 (samplePostProcess false 3) sampleContext).2.draws[
        sampleContext.draws.length + 1]? = some d1 ∧
      (RenderPingPong 3 (samplePostProcess false 3) foreignContext).2.draws[
        foreignContext.draws.length + 1]? = some d2 ∧
      d1.program = (samplePostProcess false 3).PostProcessProgram ∧
      d2.program = (samplePostProcess false 3).PostProcessProgram ∧
      d1.framebuffer
        = (samplePostProcess false 3).ppFBO (index (parityAfter (samplePostProcess false 3).pp 1)) ∧
      d2.framebuffer
        = (samplePostProcess false 3).ppFBO (index (parityAfter (samplePostProcess false 3).pp 1)) ∧
      d1.bound = filterSource (samplePostProcess false 3)
        (parityAfter (samplePostProcess false 3).pp 1) 1 ∧
      d2.bound = filterSource (samplePostProcess false 3)
        (parityAfter (samplePostProcess false 3).pp 1) 1 ∧
      d1.sampled
        = (if sampleContext.ActiveTexture = 0 then d1.bound
            else sampleContext.TextureBinding2D 0) ∧
      d2.sampled
        = (if foreignContext.ActiveTexture = 0 then d2.bound
            else foreignContext.TextureBinding2D 0) :=
  ⟨by decide, (passes_bind_their_inputs (samplePostProcess false 3) sampleShadowMap 3
    sampleContext foreignContext sampleShadowContext foreignShadowContext).2.1 1 (by decide)⟩

/-- C21, counterexample: entered with framebuffer 2 bound, texture unit 1 active and texture 9
on unit 0, `RenderScreen` draws into framebuffer 2 and samples texture 9, and the first
`RenderPingPong` iteration samples texture 9, where the same passes entered from the context
the constructor leaves draw into framebuffer 0 and sample `RawRenderTex`; entered with the
depth framebuffer bound, `RenderTavern` draws into it instead of framebuffer 0. -/
theorem passes_depend_on_entry_state :
    (RenderScreen (samplePostProcess false 0) sampleContext).draws.map
        (fun d => (d.framebuffer, d.sampled)) = [(0, 1)] ∧
    (RenderScreen (samplePostProcess false 0) foreignContext).draws.map
        (fun d => (d.framebuffer, d.sampled)) = [(2, 9)] ∧
    (RenderPingPong 1 (samplePostProcess false 1) sampleContext).2.draws.map
        (fun d => (d.framebuffer, d.sampled)) = [(2, 1)] ∧
    (RenderPingPong 1 (samplePostProcess false 1) foreignContext).2.draws.map
        (fun d => (d.framebuffer, d.sampled)) = [(2, 9)] ∧
    (sampleShadowMap.RenderTavern sampleShadowContext).draws.map
        (fun d => (d.framebuffer, d.unit2)) = [(0, 7)] ∧
    (sampleShadowMap.RenderTavern foreignShadowContext).draws.map
        (fun d => (d.framebuffer, d.unit2)) = [(1, 7)] := by
  decide

/-! ## Construction without validation -/

theorem calls_call (g : Context) (c : GLCall) : (g.call c).calls = g.calls ++ [c] := by
  cases c with
  | glFramebufferTexture2D color t =>
    simp only [Context.call, Context.effect]
    split <;> rfl
  | _ => simp only [Context.call, Context.effect, write_calls]

theorem shadow_calls_call (g : ShadowContext) (c : ShadowCall) :
    (g.call c).calls = g.calls ++ [c] := by
  cases c with
  | glFramebufferTexture2D t =>
    simp only [ShadowContext.call, ShadowContext.effect]
    split <;> rfl
  | _ => rfl

/-- C22 (amended): the constructors of `demo_postprocess` and `demo_shadowmap` validate
nothing. Whatever `GL::CreateProgramEx` returns, a failure included, the three results are
stored as the program names and construction runs to its end; the framebuffer part issues
only bind and attach calls, no query of the framebuffer status; and the frame rendered
afterwards issues its draws with the stored programs: three draws for `demo_postprocess`
(`PostProcessCount` is 1 after construction), two for `demo_shadowmap`. -/
theorem construction_is_not_validated (CreateProgramEx : Objects → GLuint × Objects)
    (TavernScene : tavern_scene) (o : Objects) (W H : Int) (g : Context)
    (gt : ShadowContext) :
    (demo_postprocess.demo_postprocess CreateProgramEx TavernScene o).1.TavernProgram
      = (CreateProgramEx o).1 ∧
    (demo_postprocess.demo_postprocess CreateProgramEx TavernScene o).1.PostProcessProgram
      = (CreateProgramEx (CreateProgramEx o).2).1 ∧
    (demo_postprocess.demo_postprocess CreateProgramEx TavernScene o).1.RenderProgram
      = (CreateProgramEx (CreateProgramEx (CreateProgramEx o).2).2).1 ∧
    (∀ s : demo_postprocess, (createFramebuffers s g).calls = g.calls ++
      [.glBindFramebuffer s.FBO, .glFramebufferTexture2D true s.RawRenderTex,
        .glFramebufferTexture2D false s.RenderDepthMap, .glBindFramebuffer 0,
        .glBindFramebuffer (s.ppFBO 0), .glFramebufferTexture2D true (s.ppRenderTex 0),
        .glBindFramebuffer (s.ppFBO 1), .glFramebufferTexture2D true (s.ppRenderTex 1),
        .glBindFramebuffer 0]) ∧
    ((Update W H (demo_postprocess.demo_postprocess CreateProgramEx TavernScene o).1
        g).2.draws.drop g.draws.length).map (fun d => d.program)
      = [(CreateProgramEx o).1, (CreateProgramEx (CreateProgramEx o).2).1,
          (CreateProgramEx (CreateProgramEx (CreateProgramEx o).2).2).1] ∧
    (demo_shadowmap.demo_shadowmap CreateProgramEx TavernScene o).1.TavernProgram
      = (CreateProgramEx o).1 ∧
    (demo_shadowmap.demo_shadowmap CreateProgramEx TavernScene o).1.DepthProgram
      = (CreateProgramEx (CreateProgramEx o).2).1 ∧
    (∀ t : demo_shadowmap, (t.createDepthFramebuffer gt).calls = gt.calls ++
      [.glBindTexture t.DepthMap, .glBindFramebuffer t.DepthFBO,
        .glFramebufferTexture2D t.DepthMap, .glBindFramebuffer 0]) ∧
    (((demo_shadowmap.demo_shadowmap CreateProgramEx TavernScene o).1.Update W H
        gt).draws.drop gt.draws.length).map (fun d => d.program)
      = [(CreateProgramEx (CreateProgramEx o).2).1, (CreateProgramEx o).1] := by
  refine ⟨rfl, rfl, rfl, ?_, ?_, rfl, rfl, ?_, ?_⟩
  · intro s
    simp only [createFramebuffers, List.range_succ, List.range_zero, List.nil_append,
      List.foldl_append, List.foldl_cons, List.foldl_nil, List.singleton_append, calls_call,
      List.append_assoc, List.cons_append]
    rfl
  · rw [(Update_spec W H _ g).2, List.drop_left]
    rfl
  · intro t
    simp only [demo_shadowmap.createDepthFramebuffer, shadow_calls_call, List.append_assoc,
      List.singleton_append, List.cons_append, List.nil_append]
  · rw [demo_shadowmap_Update_spec, List.drop_left]
    rfl

/-- C22, counterexample: when every program creation fails, returning the name 0, both
constructors still return a demo, with 0 for each program name, and the frame rendered
afterwards issues all its draws, three for `demo_postprocess` and two for `demo_shadowmap`,
with program 0. -/
theorem failed_program_creation_still_renders :
    failedCreateProgramEx noObjects = (0, noObjects) ∧
    failedPostProcess.TavernProgram = 0 ∧ failedPostProcess.PostProcessProgram = 0 ∧
    failedPostProcess.RenderProgram = 0 ∧
    (Update 800 600 failedPostProcess
        (createFramebuffers failedPostProcess blankContext)).2.draws.map
      (fun d => d.program) = [0, 0, 0] ∧
    failedShadowMap.TavernProgram = 0 ∧ failedShadowMap.DepthProgram = 0 ∧
    ((failedShadowMap.Update 800 600
        (failedShadowMap.createDepthFramebuffer blankShadowContext)).draws.map
      (fun d => d.program)) = [0, 0] := by
  decide

/-! ## The default kernel -/

theorem finRange_nine : List.finRange 9 = [0, 1, 2, 3, 4, 5, 6, 7, 8] := by decide

theorem initKernel_e {F : Type} [LinearOrderedField F] (Kernel : mat3 F) (i : Fin 9) :
    (initKernel Kernel).e i = if i = 4 then 1 else 0 := by
  have h0 : (0.0 : F) = 0 := by norm_num
  have h1 : (1.0 : F) = 1 := by norm_num
  have h4 : mat3.entry 1 1 = 4 := by decide
  simp only [initKernel, finRange_nine, List.foldl_cons, List.foldl_nil, mat3.set, h0, h1, h4]
  fin_cases i <;> simp [Function.update_apply]

theorem vec2_add_zero {F : Type} [LinearOrderedField F] (v : vec2 F) :
    v + (⟨0.0, 0.0⟩ : vec2 F) = v := by
  ext
  · show v.x + 0.0 = v.x
    norm_num
  · show v.y + 0.0 = v.y
    norm_num

theorem postprocess_main_default {F : Type} [LinearOrderedField F] (Kernel : mat3 F)
    (uRenderTex : vec2 F → vec4 F) (uOffset : F) (vUV : vec2 F) :
    postprocess_main uRenderTex uOffset (glUniformMatrix3fv (initKernel Kernel).e) vUV
      = ⟨(uRenderTex vUV).x, (uRenderTex vUV).y, (uRenderTex vUV).z, 1.0⟩ := by
  have h0 : (0.0 : F) = 0 := by norm_num
  have hk : ∀ j k : Fin 3, glUniformMatrix3fv (initKernel Kernel).e j k
      = if mat3.entry j k = 4 then 1 else 0 := fun j k => initKernel_e Kernel _
  have hc : postprocess_offsets uOffset 4 = ⟨0.0, 0.0⟩ := rfl
  have hx : ∀ a b : vec3 F, (a + b).x = a.x + b.x := fun _ _ => rfl
  have hy : ∀ a b : vec3 F, (a + b).y = a.y + b.y := fun _ _ => rfl
  have hz : ∀ a b : vec3 F, (a + b).z = a.z + b.z := fun _ _ => rfl
  have sx : ∀ (a : vec3 F) (s : F), (a * s).x = a.x * s := fun _ _ => rfl
  have sy : ∀ (a : vec3 F) (s : F), (a * s).y = a.y * s := fun _ _ => rfl
  have sz : ∀ (a : vec3 F) (s : F), (a * s).z = a.z * s := fun _ _ => rfl
  simp only [postprocess_main, finRange_nine, List.foldl_cons, List.foldl_nil, hk]
  have e : ∀ i : Fin 9, mat3.entry ⟨i.val / 3, by omega⟩ ⟨i.val % 3, by omega⟩ = i := by
    decide
  simp only [e, hx, hy, hz, sx, sy, sz, vec4.rgb, h0]
  have d0 : ((0 : Fin 9) = 4) = False := by decide
  have d1 : ((1 : Fin 9) = 4) = False := by decide
  have d2 : ((2 : Fin 9) = 4) = False := by decide
  have d3 : ((3 : Fin 9) = 4) = False := by decide
  have d5 : ((5 : Fin 9) = 4) = False := by decide
  have d6 : ((6 : Fin 9) = 4) = False := by decide
  have d7 : ((7 : Fin 9) = 4) = False := by decide
  have d8 : ((8 : Fin 9) = 4) = False := by decide
  simp only [d0, d1, d2, d3, d5, d6, d7, d8, if_false, if_true, mul_zero, mul_one, add_zero,
    zero_add, hc, vec2_add_zero]

theorem postprocess_main_sum {F : Type} [LinearOrderedField F]
    (uRenderTex : vec2 F → vec4 F) (uOffset : F) (uKernel : Fin 3 → Fin 3 → F) (vUV : vec2 F) :
    (postprocess_main uRenderTex uOffset uKernel vUV).x
      = ∑ i : Fin 9, (uRenderTex (vUV + postprocess_offsets uOffset i)).x
          * uKernel ⟨i.val / 3, by omega⟩ ⟨i.val % 3, by omega⟩ ∧
    (postprocess_main uRenderTex uOffset uKernel vUV).y
      = ∑ i : Fin 9, (uRenderTex (vUV + postprocess_offsets uOffset i)).y
          * uKernel ⟨i.val / 3, by omega⟩ ⟨i.val % 3, by omega⟩ ∧
    (postprocess_main uRenderTex uOffset uKernel vUV).z
      = ∑ i : Fin 9, (uRenderTex (vUV + postprocess_offsets uOffset i)).z
          * uKernel ⟨i.val / 3, by omega⟩ ⟨i.val % 3, by omega⟩ := by
  have h0 : (0.0 : F) = 0 := by norm_num
  have hx : ∀ a b : vec3 F, (a + b).x = a.x + b.x := fun _ _ => rfl
  have hy : ∀ a b : vec3 F, (a + b).y = a.y + b.y := fun _ _ => rfl
  have hz : ∀ a b : vec3 F, (a + b).z = a.z + b.z := fun _ _ => rfl
  have sx : ∀ (a : vec3 F) (s : F), (a * s).x = a.x * s := fun _ _ => rfl
  have sy : ∀ (a : vec3 F) (s : F), (a * s).y = a.y * s := fun _ _ => rfl
  have sz : ∀ (a : vec3 F) (s : F), (a * s).z = a.z * s := fun _ _ => rfl
  have hsum : ∀ f : Fin 9 → F,
      ∑ i : Fin 9, f i = 0 + f 0 + f 1 + f 2 + f 3 + f 4 + f 5 + f 6 + f 7 + f 8 := by
    intro f
    simp only [Fin.sum_univ_succ, Fin.sum_univ_zero, zero_add, add_zero, add_assoc]
    rfl
  simp only [postprocess_main, finRange_nine, List.foldl_cons, List.foldl_nil, hx, hy, hz, sx,
    sy, sz, vec4.rgb, h0, hsum]
  exact ⟨trivial, trivial, trivial⟩

/-- C23: the constructor leaves `Kernel` all zeros except `Kernel.c[1].e[1] = 1`, whatever
the member held before; `offsets[4]` is `(0, 0)`, and `uKernel[i / 3][i % 3]` is `Kernel.e[i]`
for each `i` in `0..8`; each colour channel the filter writes is the sum over `i` in `0..8` of
the input's channel at `vUV + offsets[i]` times `uKernel[i / 3][i % 3]`; hence with this kernel, for every `uOffset`, every input texture and
every fragment, the filter writes the RGB of the input sampled at `vUV`, with alpha 1.0
(exact arithmetic), and after any number of iterations the RGB read at `vUV` is still the
RGB of the first input at `vUV`. -/
theorem default_kernel_is_identity {F : Type} [LinearOrderedField F] (Kernel : mat3 F)
    (uRenderTex : vec2 F → vec4 F) (uOffset : F) (vUV : vec2 F) (n : Nat) :
    (∀ i : Fin 9, (initKernel Kernel).e i = if i = mat3.entry 1 1 then 1 else 0) ∧
    postprocess_offsets uOffset 4 = ⟨0.0, 0.0⟩ ∧
    (∀ (K : mat3 F) (i : Fin 9),
      glUniformMatrix3fv K.e ⟨i.val / 3, by omega⟩ ⟨i.val % 3, by omega⟩ = K.e i) ∧
    (∀ uKernel : Fin 3 → Fin 3 → F,
      (postprocess_main uRenderTex uOffset uKernel vUV).x
        = ∑ i : Fin 9, (uRenderTex (vUV + postprocess_offsets uOffset i)).x
            * uKernel ⟨i.val / 3, by omega⟩ ⟨i.val % 3, by omega⟩ ∧
      (postprocess_main uRenderTex uOffset uKernel vUV).y
        = ∑ i : Fin 9, (uRenderTex (vUV + postprocess_offsets uOffset i)).y
            * uKernel ⟨i.val / 3, by omega⟩ ⟨i.val % 3, by omega⟩ ∧
      (postprocess_main uRenderTex uOffset uKernel vUV).z
        = ∑ i : Fin 9, (uRenderTex (vUV + postprocess_offsets uOffset i)).z
            * uKernel ⟨i.val / 3, by omega⟩ ⟨i.val % 3, by omega⟩) ∧
    (postprocess_main uRenderTex uOffset (glUniformMatrix3fv (initKernel Kernel).e) vUV).rgb
      = (uRenderTex vUV).rgb ∧
    (postprocess_main uRenderTex uOffset (glUniformMatrix3fv (initKernel Kernel).e) vUV).w
      = 1.0 ∧
    ((filterPass uOffset (initKernel Kernel))^[n] uRenderTex vUV).rgb = (uRenderTex vUV).rgb := by
  refine ⟨fun i => initKernel_e Kernel i, rfl, ?_,
    fun uKernel => postprocess_main_sum uRenderTex uOffset uKernel vUV, ?_, ?_, ?_⟩
  · intro K i
    have e : ∀ i : Fin 9, mat3.entry ⟨i.val / 3, by omega⟩ ⟨i.val % 3, by omega⟩ = i := by
      decide
    simp only [glUniformMatrix3fv, e]
  · rw [postprocess_main_default]
    rfl
  · rw [postprocess_main_default]
  · induction n generalizing vUV with
    | zero => rfl
    | succ n ih =>
      rw [Function.iterate_succ_apply']
      show (postprocess_main _ uOffset (glUniformMatrix3fv (initKernel Kernel).e) vUV).rgb = _
      rw [postprocess_main_default]
      exact ih vUV

theorem default_kernel_on_sample :
    (filterPass (1 / 300) (initKernel sampleKernelMemory))^[3] sampleTexture ⟨1 / 4, 1 / 2⟩
      = ⟨1 / 4, 1 / 2, 3 / 4, 1⟩ := by
  simp only [Function.iterate_succ_apply', Function.iterate_zero, id_eq, filterPass,
    postprocess_main_default, sampleTexture]
  norm_num

/-! ## Light-space transform -/

theorem toColumn_ofColumn {F : Type} (c : Fin 4 → F) : (vec4.ofColumn c).toColumn = c := by
  funext i
  fin_cases i <;> rfl

theorem mulVec4_mul {F : Type} [LinearOrderedField F] (a b : Matrix (Fin 4) (Fin 4) F)
    (v : vec4 F) : mulVec4 (a * b) v = mulVec4 a (mulVec4 b v) := by
  simp only [mulVec4, toColumn_ofColumn, Matrix.mulVec_mulVec]

/-- C24: in every frame of `demo_shadowmap`, whatever the camera, the window and the light
position, `LightRange` is 10, both stages are given the same `ModelMatrix = Translate(0)` and
the same `LightSpaceMatrix`, the host product of `Orthographic(-10, 10, -10, 10, -10, 10)`
and of the light's view matrix; for every vertex position `p` each entry `i` of the depth
stage's `gl_Position` is the sum over `j` of `(LightSpaceMatrix * ModelMatrix) i j` times
entry `j` of `(p.x, p.y, p.z, 1)`, the lit stage's `vLightSpace` has the same entries and is
the same vector (exact arithmetic); when the host product of two `mat4` is the matrix product
the entries are those of `LightProjection * LightView * Model` applied to `(p, 1)`. -/
theorem light_space_transform_consistent {F : Type} [LinearOrderedField F] (M : Mat4 F)
    (ProjectionMatrix ViewMatrix : Matrix (Fin 4) (Fin 4) F) (LightPos aPos : vec3 F) :
    (LightRange : F) = 10 ∧
    (demo_shadowmap.frame M ProjectionMatrix ViewMatrix LightPos).LightSpaceMatrix
      = M.mul (M.Orthographic (-10) 10 (-10) 10 (-10) 10)
          (M.LookAt LightPos ⟨0, 0, 0⟩ ⟨0, 1, 0⟩) ∧
    (demo_shadowmap.frame M ProjectionMatrix ViewMatrix LightPos).ModelMatrix
      = M.Translate ⟨0, 0, 0⟩ ∧
    (∀ i : Fin 4,
      ![(depthStage (demo_shadowmap.frame M ProjectionMatrix ViewMatrix LightPos) aPos).x,
        (depthStage (demo_shadowmap.frame M ProjectionMatrix ViewMatrix LightPos) aPos).y,
        (depthStage (demo_shadowmap.frame M ProjectionMatrix ViewMatrix LightPos) aPos).z,
        (depthStage (demo_shadowmap.frame M ProjectionMatrix ViewMatrix LightPos) aPos).w] i
      = ∑ j : Fin 4,
          (M.mul (M.Orthographic (-10) 10 (-10) 10 (-10) 10)
              (M.LookAt LightPos ⟨0, 0, 0⟩ ⟨0, 1, 0⟩) * M.Translate ⟨0, 0, 0⟩) i j
            * ![aPos.x, aPos.y, aPos.z, 1] j) ∧
    (∀ i : Fin 4,
      ![(litStage (demo_shadowmap.frame M ProjectionMatrix ViewMatrix LightPos)
            aPos).vLightSpace.x,
        (litStage (demo_shadowmap.frame M ProjectionMatrix ViewMatrix LightPos)
            aPos).vLightSpace.y,
        (litStage (demo_shadowmap.frame M ProjectionMatrix ViewMatrix LightPos)
            aPos).vLightSpace.z,
        (litStage (demo_shadowmap.frame M ProjectionMatrix ViewMatrix LightPos)
            aPos).vLightSpace.w] i
      = ∑ j : Fin 4,
          (M.mul (M.Orthographic (-10) 10 (-10) 10 (-10) 10)
              (M.LookAt LightPos ⟨0, 0, 0⟩ ⟨0, 1, 0⟩) * M.Translate ⟨0, 0, 0⟩) i j
            * ![aPos.x, aPos.y, aPos.z, 1] j) ∧
    (litStage (demo_shadowmap.frame M ProjectionMatrix ViewMatrix LightPos) aPos).vLightSpace
      = depthStage (demo_shadowmap.frame M ProjectionMatrix ViewMatrix LightPos) aPos ∧
    (∀ i : Fin 4,
      ![(depthStage (demo_shadowmap.frame { M with mul := fun a b => a * b } ProjectionMatrix
            ViewMatrix LightPos) aPos).x,
        (depthStage (demo_shadowmap.frame { M with mul := fun a b => a * b } ProjectionMatrix
            ViewMatrix LightPos) aPos).y,
        (depthStage (demo_shadowmap.frame { M with mul := fun a b => a * b } ProjectionMatrix
            ViewMatrix LightPos) aPos).z,
        (depthStage (demo_shadowmap.frame { M with mul := fun a b => a * b } ProjectionMatrix
            ViewMatrix LightPos) aPos).w] i
      = ∑ j : Fin 4,
          (M.Orthographic (-10) 10 (-10) 10 (-10) 10 * M.LookAt LightPos ⟨0, 0, 0⟩ ⟨0, 1, 0⟩
              * M.Translate ⟨0, 0, 0⟩) i j
            * ![aPos.x, aPos.y, aPos.z, 1] j) := by
  have hR : (LightRange : F) = 10 := by unfold LightRange; norm_num
  have h0 : (0.0 : F) = 0 := by norm_num
  have h1 : (1.0 : F) = 1 := by norm_num
  have hlit : (litStage (demo_shadowmap.frame M ProjectionMatrix ViewMatrix LightPos)
      aPos).vLightSpace
      = depthStage (demo_shadowmap.frame M ProjectionMatrix ViewMatrix LightPos) aPos := by
    simp only [litStage, tavern_vertex_main, depthStage, depth_vertex_main, mulVec4,
      toColumn_ofColumn, Matrix.mulVec_mulVec]
  have hdepth : ∀ N : Mat4 F,
      depthStage (demo_shadowmap.frame N ProjectionMatrix ViewMatrix LightPos) aPos
        = mulVec4 (N.mul (N.Orthographic (-10) 10 (-10) 10 (-10) 10)
              (N.LookAt LightPos ⟨0, 0, 0⟩ ⟨0, 1, 0⟩) * N.Translate ⟨0, 0, 0⟩)
            ⟨aPos.x, aPos.y, aPos.z, 1⟩ := by
    intro N
    simp only [depthStage, depth_vertex_main, demo_shadowmap.frame, hR, h0, h1, vec4.ofVec3]
  refine ⟨hR, ?_, ?_, ?_, ?_, hlit, ?_⟩
  · simp only [demo_shadowmap.frame, hR, h0, h1]
  · simp only [demo_shadowmap.frame, h0]
  · intro i
    rw [hdepth M]
    fin_cases i <;> rfl
  · intro i
    rw [hlit, hdepth M]
    fin_cases i <;> rfl
  · intro i
    rw [hdepth { M with mul := fun a b => a * b }]
    fin_cases i <;> rfl

/-- Witness of `light_space_transform_consistent` on the maths library `sampleMat4`, with the
light at `(1, 2, 3)` and the vertex `(5, 5, 5)`: both stages compute `(2/5, 3/10, -1/5, 1)`. -/
theorem light_space_transform_consistent_witness :
    depthStage (demo_shadowmap.frame sampleMat4 1 1 ⟨1, 2, 3⟩) ⟨5, 5, 5⟩
      = ⟨2 / 5, 3 / 10, -1 / 5, 1⟩ ∧
    (litStage (demo_shadowmap.frame sampleMat4 1 1 ⟨1, 2, 3⟩) ⟨5, 5, 5⟩).vLightSpace
      = ⟨2 / 5, 3 / 10, -1 / 5, 1⟩ := by
  have h := light_space_transform_consistent sampleMat4 1 1 ⟨1, 2, 3⟩ ⟨5, 5, 5⟩
  have hd := h.2.2.2.1
  have hl := h.2.2.2.2.1
  constructor
  · ext
    · exact (hd 0).trans (by
        norm_num [sampleMat4, Fin.sum_univ_four, Matrix.mul_apply, Matrix.diagonal_apply])
    · exact (hd 1).trans (by
        norm_num [sampleMat4, Fin.sum_univ_four, Matrix.mul_apply, Matrix.diagonal_apply])
    · exact (hd 2).trans (by
        norm_num [sampleMat4, Fin.sum_univ_four, Matrix.mul_apply, Matrix.diagonal_apply])
    · exact (hd 3).trans (by
        norm_num [sampleMat4, Fin.sum_univ_four, Matrix.mul_apply, Matrix.diagonal_apply])
  · ext
    · exact (hl 0).trans (by
        norm_num [sampleMat4, Fin.sum_univ_four, Matrix.mul_apply, Matrix.diagonal_apply])
    · exact (hl 1).trans (by
        norm_num [sampleMat4, Fin.sum_univ_four, Matrix.mul_apply, Matrix.diagonal_apply])
    · exact (hl 2).trans (by
        norm_num [sampleMat4, Fin.sum_univ_four, Matrix.mul_apply, Matrix.diagonal_apply])
    · exact (hl 3).trans (by
        norm_num [sampleMat4, Fin.sum_univ_four, Matrix.mul_apply, Matrix.diagonal_apply])

/-! ## The skybox and the camera translation -/

theorem skyboxView_eq (V1 V2 : mat4) (h : SameUpToTranslation V1 V2) :
    skyboxView V1 = skyboxView V2 := by
  obtain ⟨h0, h1, h2, h3⟩ := h
  simp only [skyboxView, h0, h1, h2, h3]

/-- C27: in `demo_skybox::Update` the matrix passed to `DrawSkybox` is
`ProjectionMatrix * view`, where `view` has the columns 0 to 2 and the fourth entry of column 3
of the camera's view matrix and 0 for the x, y, z entries of column 3; the skybox's draw call
comes right after the upload of this matrix. Hence for two cameras whose view matrices differ
at most in these three entries, the calls up to and including the skybox's draw are the same,
and the skybox is drawn with the same `uViewProj`. The cube is drawn with
`ProjectionMatrix * ViewMatrix`, the view matrix unmodified. -/
theorem skybox_ignores_camera_translation {camera : Type} (mul : mat4 → mat4 → mat4)
    (CameraGetInverseMatrix : camera → mat4) (Position : camera → v3) (Translate : v3 → mat4)
    (ProjectionMatrix : mat4) (s : demo_skybox) (Camera1 Camera2 : camera)
    (h : SameUpToTranslation (CameraGetInverseMatrix Camera1)
      (CameraGetInverseMatrix Camera2)) :
    (∀ V : mat4, (skyboxView V).c0 = V.c0 ∧ (skyboxView V).c1 = V.c1 ∧
      (skyboxView V).c2 = V.c2 ∧
      (skyboxView V).c3 = ⟨float.zero, float.zero, float.zero, V.c3.w⟩) ∧
    (∃ before between,
      demo_skybox.Update mul CameraGetInverseMatrix Position Translate ProjectionMatrix s
          Camera1
        = before
          ++ DrawSkybox s.SkyboxProgram
              (mul ProjectionMatrix (skyboxView (CameraGetInverseMatrix Camera1)))
          ++ between
          ++ DrawCube s.Program (mul ProjectionMatrix (CameraGetInverseMatrix Camera1))
              (Translate ⟨float.zero, float.zero, float.minusThree⟩) (Position Camera1)
              s.refractive ∧
      before.length = 7 ∧ between.length = 5) ∧
    (demo_skybox.Update mul CameraGetInverseMatrix Position Translate ProjectionMatrix s
        Camera1).take 10
      = (demo_skybox.Update mul CameraGetInverseMatrix Position Translate ProjectionMatrix s
        Camera2).take 10 ∧
    (demo_skybox.Update mul CameraGetInverseMatrix Position Translate ProjectionMatrix s
        Camera1)[9]? = some (.glDrawArrays 0 36) ∧
    (drawnWith s.SkyboxProgram .uViewProj
        (demo_skybox.Update mul CameraGetInverseMatrix Position Translate ProjectionMatrix s
          Camera1) none)[0]?
      = some (some (mul ProjectionMatrix (skyboxView (CameraGetInverseMatrix Camera1)))) ∧
    (drawnWith s.SkyboxProgram .uViewProj
        (demo_skybox.Update mul CameraGetInverseMatrix Position Translate ProjectionMatrix s
          Camera1) none)[0]?
      = (drawnWith s.SkyboxProgram .uViewProj
        (demo_skybox.Update mul CameraGetInverseMatrix Position Translate ProjectionMatrix s
          Camera2) none)[0]? ∧
    (drawnWith s.Program .uViewProj
        (demo_skybox.Update mul CameraGetInverseMatrix Position Translate ProjectionMatrix s
          Camera1) none)[1]?
      = some (some (mul ProjectionMatrix (CameraGetInverseMatrix Camera1))) := by
  have hv := skyboxView_eq _ _ h
  refine ⟨fun V => ⟨rfl, rfl, rfl, rfl⟩, ⟨_, _, rfl, rfl, rfl⟩, ?_, rfl, ?_, ?_, ?_⟩
  · simp only [demo_skybox.Update, DrawSkybox, hv]
    rfl
  · simp [demo_skybox.Update, DrawSkybox, DrawCube, drawnWith]
  · simp [demo_skybox.Update, DrawSkybox, DrawCube, drawnWith, hv]
  · simp [demo_skybox.Update, DrawSkybox, DrawCube, drawnWith]

/-- Witness of `skybox_ignores_camera_translation`: two cameras at different positions. -/
theorem skybox_ignores_camera_translation_witness :
    SameUpToTranslation (sampleView 4) (sampleView 9) ∧ sampleView 4 ≠ sampleView 9 ∧
    (demo_skybox.Update sampleMul sampleView (fun p => sampleColor p p p)
        (fun _ => sampleView 0) (sampleView 0) sampleSkybox 4).take 10
      = (demo_skybox.Update sampleMul sampleView (fun p => sampleColor p p p)
        (fun _ => sampleView 0) (sampleView 0) sampleSkybox 9).take 10 :=
  ⟨by decide, by decide,
    (skybox_ignores_camera_translation sampleMul sampleView (fun p => sampleColor p p p)
      (fun _ => sampleView 0) (sampleView 0) sampleSkybox 4 9 (by decide)).2.2.1⟩

end GraphicalEffects
